import Mathlib

/-! Biometric capture device: enrollment controller and attendance matcher.

A shallow embedding of `src/src/main.cpp`.  The global variables of the sketch and the
`static` locals of `enrollFingerprint` and `attendanceScanning` are the fields of one
`State` record; every function of the sketch becomes a function from a state to a new state
and the list of externally visible actions it performed (MQTT publishes, sensor calls,
`client.loop()` calls), in program order.

Modelling conventions:

* Results of sensor calls and clock readings are inputs of the call that makes them.  One
  call of a tick function reads the clock once (all `millis()` readings inside a single call
  are the same value).  `unsigned long` is 32 bits wide and subtraction wraps.
* Inbound MQTT messages are dispatched by the `client.loop()` call at the top of `loop()`,
  at most one per iteration (PubSubClient reads one packet per call).  The further
  `client.loop()` calls made inside the handlers and inside the enrollment tick are recorded
  in the trace as `Action.clientLoop`; they are taken to find no inbound packet, so a
  handler never runs in the middle of another handler or of a tick.
* `finger.capacity` is a parameter (`fingerCapacity`) that stays fixed along an execution.
* `Serial` output and `delay` are not modelled.  JSON documents are records of the fields
  the program reads or writes.
-/

namespace Biometric

/-! ## Sensor result codes (values of `Adafruit_Fingerprint.h`) -/

abbrev FINGERPRINT_OK : Int := 0
abbrev FINGERPRINT_NOFINGER : Int := 2
abbrev FINGERPRINT_IMAGEMESS : Int := 6
abbrev FINGERPRINT_FEATUREFAIL : Int := 7
abbrev FINGERPRINT_NOTFOUND : Int := 9

/-- Subtraction of two `unsigned long` values (32 bits, wrapping). -/
def sub32 (a b : Nat) : Nat := (a % 4294967296 + 4294967296 - b % 4294967296) % 4294967296

/-! ## Messages -/

/-- MQTT topics used by the sketch (lines 39-46 and the literal completion topic). -/
inductive Topic where
  | enroll_request
  | enroll_response
  | scan_ack
  | detect_request
  | detect_response
  | status
  | command
  | fingerprint_result
  | enroll_completion
  | other (name : String)
  deriving DecidableEq, Repr

/-- JSON document published on `topic_enroll_response`; an absent key is `none`. -/
structure Response where
  status : String
  message : Option String := none
  waiting_for : Option String := none
  slot : Option Int := none
  template_id : Option String := none
  error_code : Option Int := none
  quality : Option Nat := none
  step : Option Nat := none
  success : Option Bool := none
  deriving DecidableEq, Repr

/-- JSON document published on `topic_fingerprint_result` by the attendance matcher. -/
structure Detection where
  fingerprint_id : Int
  confidence : Int
  timestamp : Nat
  mode : String
  match_type : String
  reason : Option String := none
  deriving DecidableEq, Repr

/-- Payload of an outbound publish. -/
inductive Payload where
  | empty
  | enroll (r : Response)
  | detection (d : Detection)
  | status (enrollment_in_progress : Bool) (detection_mode : Int) (uptime_seconds : Nat)
  | command (name : String) (status : String)
  deriving DecidableEq, Repr

/-- Externally visible actions, in program order. -/
inductive Action where
  | publish (topic : Topic) (payload : Payload) (retained : Bool)
  | clientLoop
  | getImage
  | image2Tz (buffer : Nat)
  | createModel
  | storeModel (id : Int)
  | fingerFastSearch
  | sensorBegin
  | emptyDatabase
  | wifiBegin
  | restart
  deriving DecidableEq, Repr

/-- Value of the `mode` key of a detection request. -/
inductive ModeField where
  | int (n : Int)
  | str (s : String)
  | other
  deriving DecidableEq, Repr

/-- Decoded inbound JSON document: the keys the handlers read.  `none` is a key that is
absent or not of the type the handler asks for. -/
structure Doc where
  slot : Option Int := none
  template_id : Option String := none
  action : Option String := none
  status : Option String := none
  message : Option String := none
  mode : Option ModeField := none
  command : Option String := none
  ssid : Option String := none
  password : Option String := none
  deriving DecidableEq, Repr

/-- Payload of an inbound message as `callback` sees it. -/
inductive InPayload where
  | empty
  | malformed
  | json (d : Doc)
  deriving DecidableEq, Repr

/-- One inbound MQTT message. -/
structure Inbound where
  topic : Topic
  payload : InPayload
  deriving DecidableEq, Repr

/-! ## Program state -/

/-- Globals (lines 57-63) and function statics (lines 647-661, 996-1004). -/
structure State where
  enrollID : Int
  enrollmentTemplateID : String
  enrollmentInProgress : Bool
  enrollmentCancelled : Bool
  enrollmentConfirmed : Bool
  detectionMode : Int
  lastStatusPublish : Nat
  enrollmentStep : Int
  lastStep : Nat
  stepStartTime : Nat
  noFingerCount : Int
  waitingMessageShown0 : Bool
  waitingMessageShown1 : Bool
  waitingMessageShown2 : Bool
  requireFingerRelease : Bool
  removeMessageShown : Bool
  lastWaitingReminder : Nat
  modelCreated : Bool
  lastScanTime : Nat
  lastDebugTime : Nat
  lastCandidateId : Int
  stableReads : Int
  requireFingerRemoval : Bool
  lastPublishMs : Nat
  lastHintMs : Nat
  deriving DecidableEq, Repr

/-- State after power-up: the initialisers of the globals and statics. -/
def State.init : State where
  enrollID := 0
  enrollmentTemplateID := ""
  enrollmentInProgress := false
  enrollmentCancelled := false
  enrollmentConfirmed := false
  detectionMode := 0
  lastStatusPublish := 0
  enrollmentStep := 0
  lastStep := 0
  stepStartTime := 0
  noFingerCount := 0
  waitingMessageShown0 := false
  waitingMessageShown1 := false
  waitingMessageShown2 := false
  requireFingerRelease := false
  removeMessageShown := false
  lastWaitingReminder := 0
  modelCreated := false
  lastScanTime := 0
  lastDebugTime := 0
  lastCandidateId := -1
  stableReads := 0
  requireFingerRemoval := false
  lastPublishMs := 0
  lastHintMs := 0

/-- Publish of an enrollment response document (`client.publish(topic_enroll_response, ..)`). -/
def pubEnroll (r : Response) : Action :=
  Action.publish Topic.enroll_response (Payload.enroll r) false

/-- Publish of a detection document (`client.publish(topic_fingerprint_result, ..)`). -/
def pubDetect (d : Detection) : Action :=
  Action.publish Topic.fingerprint_result (Payload.detection d) false

/-- Effective slot capacity (line 322): the sensor capacity when positive, else 300. -/
def slotCapacity (fingerCapacity : Nat) : Int :=
  if fingerCapacity > 0 then (fingerCapacity : Int) else 300

/-! ## Inbound command handlers -/

/-- `handleEnrollmentRequest` (lines 286-382). -/
def handleEnrollmentRequest (fingerCapacity : Nat) (doc : Doc) (s : State) :
    State × List Action :=
  let slot : Int := doc.slot.getD 0
  let template_id : String := doc.template_id.getD ""
  let action : String := doc.action.getD "start"
  if action = "start" then
    let cleared := Action.publish Topic.enroll_request Payload.empty true
    if s.enrollmentInProgress then
      (s, [cleared,
           pubEnroll { status := "blocked",
                       message := some "Another student is currently enrolling. Please wait...",
                       waiting_for := some "enrollment_completion",
                       slot := some s.enrollID,
                       template_id := some s.enrollmentTemplateID },
           Action.clientLoop])
    else
      let capacity : Int := slotCapacity fingerCapacity
      if slot < 1 ∨ slot > capacity then
        (s, [cleared,
             pubEnroll { status := "error",
                         message := some ("Invalid slot number (1-" ++ toString capacity ++ ")"),
                         error_code := some slot,
                         slot := some slot,
                         template_id := some template_id }])
      else
        let s1 := { s with enrollID := slot,
                           enrollmentTemplateID := template_id,
                           enrollmentInProgress := true,
                           enrollmentCancelled := false,
                           enrollmentConfirmed := false }
        (s1, [cleared,
              pubEnroll { status := "started",
                          slot := some s1.enrollID,
                          template_id := some s1.enrollmentTemplateID },
              Action.clientLoop])
  else if action = "confirm" then
    ({ s with enrollmentConfirmed := true }, [])
  else if action = "cancel" ∨ action = "cancel_enrollment" then
    let s1 := { s with enrollmentCancelled := true,
                       enrollmentInProgress := false,
                       enrollmentConfirmed := false }
    (s1, [pubEnroll { status := "cancelled",
                      slot := some s1.enrollID,
                      template_id := some s1.enrollmentTemplateID }])
  else
    (s, [])

/-- `handleEnrollmentResponse` (lines 386-416). -/
def handleEnrollmentResponse (doc : Doc) (s : State) : State × List Action :=
  let status : String := doc.status.getD ""
  if status = "enrollment_saved" then
    ({ s with enrollmentInProgress := false,
              enrollmentCancelled := false,
              enrollmentConfirmed := false,
              enrollID := 0,
              enrollmentTemplateID := "" }, [])
  else
    (s, [])

/-- `handleEnrollmentCompletion` (lines 420-450). -/
def handleEnrollmentCompletion (doc : Doc) (s : State) : State × List Action :=
  let status : String := doc.status.getD ""
  if status = "enrollment_saved" then
    ({ s with enrollmentInProgress := false,
              enrollmentCancelled := false,
              enrollmentConfirmed := false,
              enrollID := 0,
              enrollmentTemplateID := "" }, [])
  else
    (s, [])

/-- `publishStatus` (lines 976-992); the device id, signal strength and sensor counters
of the document are not modelled. -/
def publishStatus (now : Nat) (s : State) : List Action :=
  [Action.publish Topic.status
     (Payload.status s.enrollmentInProgress s.detectionMode (now / 1000)) false]

/-- `handleDetectionRequest` (lines 453-509). -/
def handleDetectionRequest (now : Nat) (doc : Doc) (s : State) : State × List Action :=
  let action : String := doc.action.getD "disable"
  let s1 : State :=
    if action = "enable" ∨ action = "start" ∨ action = "start_detection" then
      match doc.mode with
      | some m =>
        let modeInt : Int :=
          match m with
          | ModeField.int n => n
          | ModeField.str modeStr =>
            if modeStr = "registration" ∨ modeStr = "1" then 1
            else if modeStr = "attendance" ∨ modeStr = "2" then 2
            else -1
          | ModeField.other => -1
        if modeInt = 1 ∨ modeInt = 2 then { s with detectionMode := modeInt }
        else { s with detectionMode := 0 }
      | none => { s with detectionMode := 0 }
    else if action = "disable" ∨ action = "stop" ∨ action = "stop_detection" then
      { s with detectionMode := 0 }
    else
      { s with detectionMode := 0 }
  (s1, publishStatus now s1)

/-- `handleCommand` (lines 512-638).  `restart` reboots the device, which re-runs the
initialisers.  `wifiOk` is the outcome of the reconnection attempt of `set_wifi`; the
counters reported by `sensor_info` and `test_sensor` are not modelled. -/
def handleCommand (wifiOk : Bool) (doc : Doc) (s : State) : State × List Action :=
  let cmd : String := doc.command.getD ""
  if cmd = "restart" then
    (State.init, [Action.restart])
  else if cmd = "set_wifi" then
    let newSSID : String := doc.ssid.getD ""
    if newSSID.length > 0 then
      (s, [Action.wifiBegin,
           Action.publish Topic.status
             (Payload.command "set_wifi" (if wifiOk then "success" else "failed")) false])
    else
      (s, [])
  else if cmd = "sensor_info" then
    (s, [Action.publish Topic.status (Payload.command "sensor_info" "") false])
  else if cmd = "test_sensor" then
    (s, List.replicate 10 Action.getImage ++
        [Action.publish Topic.status (Payload.command "test_sensor" "testing") false])
  else if cmd = "clear_all" then
    (s, [Action.emptyDatabase,
         Action.publish Topic.status (Payload.command "clear_all" "success") false])
  else
    (s, [])

/-- `callback` (lines 240-283): drop empty and unparsable payloads, route by topic. -/
def callback (fingerCapacity : Nat) (now : Nat) (wifiOk : Bool) (m : Inbound) (s : State) :
    State × List Action :=
  match m.payload with
  | InPayload.empty => (s, [])
  | InPayload.malformed => (s, [])
  | InPayload.json doc =>
    if m.topic = Topic.enroll_request then handleEnrollmentRequest fingerCapacity doc s
    else if m.topic = Topic.enroll_response then handleEnrollmentResponse doc s
    else if m.topic = Topic.enroll_completion then handleEnrollmentCompletion doc s
    else if m.topic = Topic.detect_request then handleDetectionRequest now doc s
    else if m.topic = Topic.command then handleCommand wifiOk doc s
    else (s, [])

/-! ## Enrollment tick -/

/-- Sensor results and clock reading consumed by one call of `enrollFingerprint`:
`rp` is the result of the finger-release `getImage` (line 1040), `p` of the scan
`getImage`, `conv` of `image2Tz`, `modelP` of `createModel`, `p3` of `storeModel`.
A result is read only if the call is made. -/
structure EnrollInput where
  now : Nat
  rp : Int
  p : Int
  conv : Int
  modelP : Int
  p3 : Int
  deriving DecidableEq, Repr

/-- Branch `enrollmentStep == 0` of `enrollFingerprint` (lines 1060-1266). -/
def enrollScan1 (i : EnrollInput) (s0 : State) : State × List Action :=
  let s := { s0 with waitingMessageShown0 := true }
  if i.p = FINGERPRINT_OK then
    let s := { s with noFingerCount := 0 }
    let imageQuality : Nat :=
      if i.conv = FINGERPRINT_IMAGEMESS then 45
      else if i.conv = FINGERPRINT_FEATUREFAIL then 60
      else if i.conv = FINGERPRINT_OK then 95
      else 0
    if imageQuality < 50 then
      ({ s with enrollmentStep := 0, noFingerCount := 0, waitingMessageShown0 := false },
       [Action.getImage, Action.image2Tz 1,
        pubEnroll { status := "capture_failed",
                    message := some "Image quality too low. Press finger firmly on sensor.",
                    template_id := some s.enrollmentTemplateID,
                    slot := some s.enrollID,
                    quality := some imageQuality,
                    step := some 1 },
        Action.clientLoop])
    else
      ({ s with stepStartTime := i.now,
                enrollmentStep := 1,
                noFingerCount := 0,
                waitingMessageShown1 := false,
                requireFingerRelease := true,
                removeMessageShown := false,
                lastWaitingReminder := 0 },
       [Action.getImage, Action.image2Tz 1,
        pubEnroll { status := "progress",
                    step := some 1,
                    message := some "Scan 1/3 captured - place finger again",
                    template_id := some s.enrollmentTemplateID,
                    slot := some s.enrollID,
                    success := some true },
        Action.clientLoop])
  else if i.p = FINGERPRINT_NOFINGER then
    let s := { s with noFingerCount := s.noFingerCount + 1 }
    let a1 : List Action :=
      if !s.waitingMessageShown0 then
        [pubEnroll { status := "waiting",
                     message := some "Waiting for finger on sensor...",
                     template_id := some s.enrollmentTemplateID,
                     slot := some s.enrollID },
         Action.clientLoop]
      else []
    let s := { s with waitingMessageShown0 := true }
    if s.noFingerCount > 60 then
      ({ s with enrollmentInProgress := false, enrollmentStep := 0, noFingerCount := 0,
                waitingMessageShown0 := false },
       [Action.getImage] ++ a1 ++
       [pubEnroll { status := "error",
                    message := some "No finger detected. Enrollment timeout." },
        Action.clientLoop])
    else (s, [Action.getImage] ++ a1)
  else
    let s := { s with noFingerCount := s.noFingerCount + 1 }
    let a1 : List Action :=
      if Int.tmod s.noFingerCount 10 = 1 ∧ i.p = 1 then [Action.sensorBegin] else []
    if s.noFingerCount > 150 then
      ({ s with enrollmentInProgress := false, enrollmentStep := 0, noFingerCount := 0,
                waitingMessageShown0 := false },
       [Action.getImage] ++ a1 ++
       [pubEnroll { status := "error",
                    message := some "Timeout: No fingerprint detected within 30 seconds" },
        Action.clientLoop])
    else (s, [Action.getImage] ++ a1)

/-- Branch `enrollmentStep == 1` of `enrollFingerprint` (lines 1267-1449). -/
def enrollScan2 (i : EnrollInput) (s0 : State) : State × List Action :=
  let s := { s0 with waitingMessageShown1 := true }
  if sub32 i.now s.stepStartTime < 2000 then (s, [])
  else if i.p = FINGERPRINT_OK then
    let s := { s with noFingerCount := 0 }
    let imageQuality : Nat :=
      if i.conv = FINGERPRINT_IMAGEMESS then 45
      else if i.conv = FINGERPRINT_FEATUREFAIL then 60
      else if i.conv = FINGERPRINT_OK then 95
      else 0
    if imageQuality < 50 then
      ({ s with enrollmentStep := 1, noFingerCount := 0, waitingMessageShown1 := false },
       [Action.getImage, Action.image2Tz 1,
        pubEnroll { status := "capture_failed",
                    message := some "Image quality too low. Press finger firmly on sensor.",
                    template_id := some s.enrollmentTemplateID,
                    slot := some s.enrollID,
                    quality := some imageQuality,
                    step := some 2 },
        Action.clientLoop])
    else
      ({ s with stepStartTime := i.now,
                enrollmentStep := 2,
                noFingerCount := 0,
                waitingMessageShown2 := false,
                requireFingerRelease := true,
                removeMessageShown := false,
                lastWaitingReminder := 0 },
       [Action.getImage, Action.image2Tz 1,
        pubEnroll { status := "progress",
                    step := some 2,
                    message := some "Scan 2/3 captured - place finger once more",
                    template_id := some s.enrollmentTemplateID,
                    slot := some s.enrollID,
                    success := some true },
        Action.clientLoop])
  else if i.p = FINGERPRINT_NOFINGER then
    let s := { s with noFingerCount := s.noFingerCount + 1 }
    let a1 : List Action :=
      if !s.waitingMessageShown1 then
        [pubEnroll { status := "waiting",
                     message := some "Waiting for finger (scan 2)...",
                     template_id := some s.enrollmentTemplateID,
                     slot := some s.enrollID },
         Action.clientLoop]
      else []
    let s := { s with waitingMessageShown1 := true }
    if s.noFingerCount > 150 then
      ({ s with enrollmentInProgress := false, enrollmentStep := 0, noFingerCount := 0,
                waitingMessageShown1 := false },
       [Action.getImage] ++ a1 ++
       [pubEnroll { status := "error", message := some "Timeout during scan 2" },
        Action.clientLoop])
    else (s, [Action.getImage] ++ a1)
  else
    let s := { s with noFingerCount := s.noFingerCount + 1 }
    let a1 : List Action :=
      if Int.tmod s.noFingerCount 10 = 1 then [Action.sensorBegin] else []
    if s.noFingerCount > 150 then
      ({ s with enrollmentInProgress := false, enrollmentStep := 0, noFingerCount := 0,
                waitingMessageShown1 := false },
       [Action.getImage] ++ a1 ++
       [pubEnroll { status := "error", message := some "Timeout during scan 2" },
        Action.clientLoop])
    else (s, [Action.getImage] ++ a1)

/-- Branch `enrollmentStep == 2` of `enrollFingerprint` (lines 1450-1695). -/
def enrollScan3 (i : EnrollInput) (s0 : State) : State × List Action :=
  let s := { s0 with waitingMessageShown2 := true }
  if sub32 i.now s.stepStartTime < 2000 then (s, [])
  else if i.p = FINGERPRINT_OK then
    let s := { s with noFingerCount := 0 }
    let imageQuality : Nat :=
      if i.conv = FINGERPRINT_IMAGEMESS then 45
      else if i.conv = FINGERPRINT_FEATUREFAIL then 60
      else if i.conv = FINGERPRINT_OK then 95
      else 0
    if imageQuality < 50 then
      ({ s with enrollmentStep := 2, noFingerCount := 0, waitingMessageShown2 := false },
       [Action.getImage, Action.image2Tz 2,
        pubEnroll { status := "capture_failed",
                    message := some "Image quality too low. Press finger firmly on sensor.",
                    template_id := some s.enrollmentTemplateID,
                    slot := some s.enrollID,
                    quality := some imageQuality,
                    step := some 3 },
        Action.clientLoop])
    else
      let scan3 : List Action :=
        [Action.getImage, Action.image2Tz 2,
         pubEnroll { status := "progress",
                     step := some 3,
                     message := some "Scan 3/3 captured - all scans complete!",
                     template_id := some s.enrollmentTemplateID,
                     slot := some s.enrollID,
                     success := some true },
         Action.clientLoop,
         Action.createModel]
      if i.modelP ≠ FINGERPRINT_OK then
        ({ s with enrollmentInProgress := false,
                  enrollmentConfirmed := false,
                  enrollmentCancelled := false,
                  enrollmentStep := 0,
                  enrollID := 0,
                  enrollmentTemplateID := "",
                  noFingerCount := 0,
                  waitingMessageShown0 := false,
                  waitingMessageShown1 := false,
                  waitingMessageShown2 := false,
                  requireFingerRelease := false,
                  removeMessageShown := false,
                  lastWaitingReminder := 0,
                  modelCreated := false },
         scan3 ++
         [pubEnroll { status := "error",
                      message := some "Fingerprint images don't match - please try again",
                      error_code := some i.modelP,
                      template_id := some s.enrollmentTemplateID,
                      slot := some s.enrollID },
          Action.clientLoop])
      else
        let s := { s with modelCreated := true }
        ({ s with enrollmentStep := 3, noFingerCount := 0 },
         scan3 ++
         [pubEnroll { status := "ready_for_confirmation",
                      step := some 3,
                      message :=
                        some "All scans captured! Click 'Confirm & Save' to finalize enrollment.",
                      template_id := some s.enrollmentTemplateID,
                      slot := some s.enrollID },
          Action.clientLoop])
  else if i.p = FINGERPRINT_NOFINGER then
    let s := { s with noFingerCount := s.noFingerCount + 1 }
    let s : State :=
      if sub32 i.now s.lastWaitingReminder > 5000 then { s with lastWaitingReminder := i.now }
      else s
    let a1 : List Action :=
      if !s.waitingMessageShown2 then
        [pubEnroll { status := "waiting",
                     message := some "Waiting for finger (scan 3)...",
                     template_id := some s.enrollmentTemplateID,
                     slot := some s.enrollID },
         Action.clientLoop]
      else []
    let s := { s with waitingMessageShown2 := true }
    if s.noFingerCount > 150 then
      ({ s with enrollmentInProgress := false, enrollmentStep := 0, noFingerCount := 0,
                waitingMessageShown2 := false,
                requireFingerRelease := false,
                removeMessageShown := false,
                lastWaitingReminder := 0 },
       [Action.getImage] ++ a1 ++
       [pubEnroll { status := "error", message := some "Timeout during scan 3" },
        Action.clientLoop])
    else (s, [Action.getImage] ++ a1)
  else
    let s := { s with noFingerCount := s.noFingerCount + 1 }
    let a1 : List Action :=
      if Int.tmod s.noFingerCount 10 = 1 then [Action.sensorBegin] else []
    if s.noFingerCount > 150 then
      ({ s with enrollmentInProgress := false, enrollmentStep := 0, noFingerCount := 0,
                waitingMessageShown2 := false },
       [Action.getImage] ++ a1 ++
       [pubEnroll { status := "error", message := some "Timeout during scan 3" },
        Action.clientLoop])
    else (s, [Action.getImage] ++ a1)

/-- Branch `enrollmentStep == 3` of `enrollFingerprint` (lines 1696-1803). -/
def enrollConfirm (i : EnrollInput) (s : State) : State × List Action :=
  if s.enrollmentConfirmed then
    if !s.modelCreated then
      ({ s with enrollmentInProgress := false,
                enrollmentConfirmed := false,
                enrollmentCancelled := false,
                enrollmentStep := 0,
                enrollID := 0,
                enrollmentTemplateID := "",
                noFingerCount := 0,
                waitingMessageShown0 := false,
                waitingMessageShown1 := false,
                waitingMessageShown2 := false,
                requireFingerRelease := false,
                removeMessageShown := false,
                lastWaitingReminder := 0,
                modelCreated := false },
       [pubEnroll { status := "error",
                    message := some "Enrollment model not ready - please restart enrollment",
                    template_id := some s.enrollmentTemplateID,
                    slot := some s.enrollID },
        Action.clientLoop])
    else if i.p3 = FINGERPRINT_OK then
      ({ s with enrollmentInProgress := false,
                enrollmentConfirmed := false,
                enrollmentCancelled := false,
                enrollmentStep := 0,
                enrollID := 0,
                enrollmentTemplateID := "",
                noFingerCount := 0,
                waitingMessageShown0 := false,
                waitingMessageShown1 := false,
                waitingMessageShown2 := false,
                requireFingerRelease := false,
                removeMessageShown := false,
                lastWaitingReminder := 0,
                modelCreated := false },
       [Action.storeModel s.enrollID,
        pubEnroll { status := "success",
                    slot := some s.enrollID,
                    template_id := some s.enrollmentTemplateID,
                    message := some "Fingerprint enrolled successfully!",
                    success := some true },
        Action.clientLoop])
    else
      ({ s with enrollmentInProgress := false,
                enrollmentConfirmed := false,
                enrollmentCancelled := false,
                enrollmentStep := 0,
                enrollID := 0,
                enrollmentTemplateID := "",
                noFingerCount := 0,
                waitingMessageShown0 := false,
                waitingMessageShown1 := false,
                waitingMessageShown2 := false,
                requireFingerRelease := false,
                removeMessageShown := false,
                lastWaitingReminder := 0,
                modelCreated := false },
       [Action.storeModel s.enrollID,
        pubEnroll { status := "error",
                    message :=
                      some ("Failed to store fingerprint (code: " ++ toString i.p3 ++ ")"),
                    error_code := some i.p3,
                    slot := some s.enrollID,
                    template_id := some s.enrollmentTemplateID },
        Action.clientLoop])
  else (s, [])

/-- The dispatch on `enrollmentStep` inside `enrollFingerprint` (lines 1060, 1267, 1450,
1696); any other value of the counter matches no branch. -/
def enrollDispatch (i : EnrollInput) (s : State) : State × List Action :=
  if s.enrollmentStep = 0 then enrollScan1 i s
  else if s.enrollmentStep = 1 then enrollScan2 i s
  else if s.enrollmentStep = 2 then enrollScan3 i s
  else if s.enrollmentStep = 3 then enrollConfirm i s
  else (s, [])

/-- State after the finger-release check of `enrollFingerprint` has passed (lines
1039-1047): a pending release is cleared and the cooldown restarts at the current clock
reading. -/
def fingerReleased (i : EnrollInput) (s : State) : State :=
  if s.requireFingerRelease then
    { s with requireFingerRelease := false,
             removeMessageShown := false,
             noFingerCount := 0,
             stepStartTime := i.now }
  else s

/-- `enrollFingerprint` (lines 995-1805): one call of the enrollment tick. -/
def enrollFingerprint (i : EnrollInput) (s0 : State) : State × List Action :=
  if sub32 i.now s0.lastStep < 200 then (s0, [])
  else
    let s := { s0 with lastStep := i.now }
    if !s.enrollmentInProgress then
      ({ s with enrollmentStep := 0,
                noFingerCount := 0,
                waitingMessageShown0 := false,
                waitingMessageShown1 := false,
                waitingMessageShown2 := false,
                requireFingerRelease := false,
                removeMessageShown := false,
                lastWaitingReminder := 0,
                modelCreated := false }, [])
    else if s.enrollmentCancelled then
      ({ s with enrollmentStep := 0,
                noFingerCount := 0,
                waitingMessageShown0 := false,
                waitingMessageShown1 := false,
                waitingMessageShown2 := false,
                requireFingerRelease := false,
                removeMessageShown := false,
                lastWaitingReminder := 0 }, [])
    else if s.requireFingerRelease ∧ i.rp ≠ FINGERPRINT_NOFINGER then
      ({ s with removeMessageShown := true }, [Action.getImage])
    else
      let r := enrollDispatch i (fingerReleased i s)
      (r.1, (if s.requireFingerRelease then [Action.getImage] else []) ++ r.2)

/-! ## Attendance tick -/

abbrev SCAN_INTERVAL : Nat := 300
abbrev MIN_CONFIDENCE : Int := 40
abbrev HIGH_CONFIDENCE_BYPASS : Int := 65
abbrev REQUIRED_STABLE_READS : Int := 1
abbrev MIN_PUBLISH_INTERVAL : Nat := 1500

/-- Sensor results of one pass of the confirm re-scan loop (lines 796-814). -/
structure ConfirmReading where
  c1 : Int
  c2 : Int
  confirmP : Int
  confirmId : Nat
  confirmConf : Nat
  deriving DecidableEq, Repr

/-- Sensor results and clock reading consumed by one call of `attendanceScanning`:
`p` is the result of `getImage`, `p2` of `image2Tz(1)`, `p3` of the first
`fingerFastSearch`, `p3r` of the retried one, `fingerID` and `confidence` the sensor
fields after the last search, `confirm0` and `confirm1` the readings of the two passes of
the confirm loop. -/
structure AttendInput where
  now : Nat
  p : Int
  p2 : Int
  p3 : Int
  p3r : Int
  fingerID : Nat
  confidence : Nat
  confirm0 : ConfirmReading
  confirm1 : ConfirmReading
  deriving DecidableEq, Repr

/-- The rate-limited hint publish that `attendanceScanning` repeats at lines 720-734,
745-759, 827-841, 908-922, 932-946 and 956-970. -/
def publishHint (now : Nat) (limit : Nat) (confidence : Int) (reason : String) (s : State) :
    State × List Action :=
  if !s.requireFingerRemoval ∧ sub32 now s.lastHintMs > limit then
    ({ s with lastHintMs := now },
     [pubDetect { fingerprint_id := -2,
                  confidence := confidence,
                  timestamp := now,
                  mode := "attendance",
                  match_type := "hint",
                  reason := some reason }])
  else (s, [])

/-- The confirm re-scan loop (lines 796-814) over the readings of its passes: returns the
final `stableReads` and the sensor calls made. -/
def confirmAttempts (fingerprintID : Int) :
    List ConfirmReading → Int → Int × List Action
  | [], stableReads => (stableReads, [])
  | r :: rest, stableReads =>
    if stableReads < REQUIRED_STABLE_READS then
      if r.c1 ≠ FINGERPRINT_OK then
        ((confirmAttempts fingerprintID rest stableReads).1,
         Action.getImage :: (confirmAttempts fingerprintID rest stableReads).2)
      else if r.c2 ≠ FINGERPRINT_OK then
        ((confirmAttempts fingerprintID rest stableReads).1,
         Action.getImage :: Action.image2Tz 1 ::
           (confirmAttempts fingerprintID rest stableReads).2)
      else
        let stableReads1 : Int :=
          if r.confirmP = FINGERPRINT_OK ∧ (r.confirmId : Int) = fingerprintID
              ∧ (r.confirmConf : Int) ≥ MIN_CONFIDENCE then REQUIRED_STABLE_READS
          else stableReads
        ((confirmAttempts fingerprintID rest stableReads1).1,
         Action.getImage :: Action.image2Tz 1 :: Action.fingerFastSearch ::
           (confirmAttempts fingerprintID rest stableReads1).2)
    else (stableReads, [])

/-- The stable-read bookkeeping of `attendanceScanning` (lines 766-848): the
high-confidence bypass, the candidate counter and the confirm re-scan. -/
def stableReadStage (i : AttendInput) (s : State) : State × List Action :=
  let fingerprintID : Int := (i.fingerID : Int)
  let confidence : Int := (i.confidence : Int)
  if confidence ≥ HIGH_CONFIDENCE_BYPASS then
    ({ s with stableReads := REQUIRED_STABLE_READS }, [])
  else
    let s : State :=
      if s.lastCandidateId = fingerprintID then { s with stableReads := s.stableReads + 1 }
      else { s with lastCandidateId := fingerprintID, stableReads := 1 }
    if s.stableReads < REQUIRED_STABLE_READS then
      let c := confirmAttempts fingerprintID [i.confirm0, i.confirm1] s.stableReads
      let s := { s with stableReads := c.1 }
      if c.1 ≥ REQUIRED_STABLE_READS then (s, c.2)
      else
        let h := publishHint i.now 1500 confidence "confirm_failed" s
        (h.1, c.2 ++ h.2)
    else (s, [])

/-- Branch `p3 == FINGERPRINT_OK` of `attendanceScanning` (lines 709-878); `pre` is the
list of sensor calls already made in this call. -/
def attendanceMatch (i : AttendInput) (s : State) (pre : List Action) :
    State × List Action :=
  let fingerprintID : Int := (i.fingerID : Int)
  let confidence : Int := (i.confidence : Int)
  if fingerprintID > 0 ∧ fingerprintID < 100 then
    let h := publishHint i.now 1500 confidence "legacy_slot" s
    ({ h.1 with lastCandidateId := -1, stableReads := 0 }, pre ++ h.2)
  else if confidence < MIN_CONFIDENCE then
    let h := publishHint i.now 700 confidence "low_confidence" s
    ({ h.1 with lastCandidateId := -1, stableReads := 0 }, pre ++ h.2)
  else
    let r := stableReadStage i s
    if confidence < HIGH_CONFIDENCE_BYPASS ∧ r.1.stableReads < REQUIRED_STABLE_READS then
      (r.1, pre ++ r.2)
    else if sub32 i.now r.1.lastPublishMs < MIN_PUBLISH_INTERVAL then
      (r.1, pre ++ r.2)
    else
      ({ r.1 with lastPublishMs := i.now,
                  requireFingerRemoval := true,
                  lastCandidateId := -1,
                  stableReads := 0 },
       pre ++ r.2 ++
       [pubDetect { fingerprint_id := fingerprintID,
                    confidence := confidence,
                    timestamp := i.now,
                    mode := "attendance",
                    match_type := "hardware" }])

/-- The three outcomes of the search in `attendanceScanning` (lines 709-927): `p3` is the
result of the last `fingerFastSearch` call, `pre` the sensor calls already made. -/
def attendanceOutcome (i : AttendInput) (p3 : Int) (pre : List Action) (s : State) :
    State × List Action :=
  if p3 = FINGERPRINT_OK then attendanceMatch i s pre
  else if p3 = FINGERPRINT_NOTFOUND then
    if sub32 i.now s.lastPublishMs ≥ MIN_PUBLISH_INTERVAL then
      ({ s with lastPublishMs := i.now,
                requireFingerRemoval := true,
                lastCandidateId := -1,
                stableReads := 0 },
       pre ++
       [pubDetect { fingerprint_id := -1,
                    confidence := 0,
                    timestamp := i.now,
                    mode := "attendance",
                    match_type := "hardware" }])
    else (s, pre)
  else
    let h := publishHint i.now 1500 0 ("sensor_search_error_" ++ toString p3) s
    ({ h.1 with lastCandidateId := -1, stableReads := 0 }, pre ++ h.2)

/-- The search of `attendanceScanning` with its single retry (lines 698-707), followed by
the outcome handling. -/
def attendanceSearch (i : AttendInput) (s : State) : State × List Action :=
  if i.p3 ≠ FINGERPRINT_OK ∧ i.p3 ≠ FINGERPRINT_NOTFOUND then
    attendanceOutcome i i.p3r
      [Action.getImage, Action.image2Tz 1, Action.fingerFastSearch, Action.fingerFastSearch] s
  else
    attendanceOutcome i i.p3
      [Action.getImage, Action.image2Tz 1, Action.fingerFastSearch] s

/-- `attendanceScanning` (lines 641-973): one call of the attendance tick. -/
def attendanceScanning (i : AttendInput) (s0 : State) : State × List Action :=
  if sub32 i.now s0.lastScanTime < SCAN_INTERVAL then (s0, [])
  else
    let s := { s0 with lastScanTime := i.now }
    if i.p = FINGERPRINT_NOFINGER then
      if s.requireFingerRemoval then
        ({ s with requireFingerRemoval := false, lastCandidateId := -1, stableReads := 0 },
         [Action.getImage])
      else (s, [Action.getImage])
    else if s.requireFingerRemoval then (s, [Action.getImage])
    else if i.p = FINGERPRINT_OK then
      if i.p2 = FINGERPRINT_OK then attendanceSearch i s
      else
        let h := publishHint i.now 1500 0 ("template_error_" ++ toString i.p2) s
        (h.1, [Action.getImage, Action.image2Tz 1] ++ h.2)
    else
      let s : State :=
        if sub32 i.now s.lastDebugTime > 5000 then { s with lastDebugTime := i.now } else s
      let h := publishHint i.now 1500 0 ("get_image_error_" ++ toString i.p) s
      (h.1, [Action.getImage] ++ h.2)

/-! ## Main loop and executions -/

/-- Everything one iteration of `loop()` reads from its environment: the inbound message
delivered by `client.loop()` (if any), the clock reading of the status check, the outcome of
a WiFi reconfiguration, and the inputs of the two ticks. -/
structure LoopInput where
  inbound : Option Inbound
  now : Nat
  wifiOk : Bool
  enroll : EnrollInput
  attend : AttendInput
  deriving DecidableEq, Repr

/-- `loop` (lines 108-141).  WiFi and broker reconnection are not modelled. -/
def loop (fingerCapacity : Nat) (i : LoopInput) (s : State) : State × List Action :=
  let r1 : State × List Action :=
    match i.inbound with
    | none => (s, [])
    | some m => callback fingerCapacity i.now i.wifiOk m s
  let r2 : State × List Action :=
    if !r1.1.enrollmentInProgress ∧ sub32 i.now r1.1.lastStatusPublish > 30000 then
      ({ r1.1 with lastStatusPublish := i.now }, publishStatus i.now r1.1)
    else (r1.1, [])
  let r3 : State × List Action :=
    if r2.1.enrollmentInProgress ∧ !r2.1.enrollmentCancelled then
      enrollFingerprint i.enroll r2.1
    else (r2.1, [])
  let r4 : State × List Action :=
    if r3.1.detectionMode = 2 then attendanceScanning i.attend r3.1
    else (r3.1, [])
  (r4.1, r1.2 ++ r2.2 ++ r3.2 ++ r4.2)

/-- An execution: the main loop iterated over a list of inputs; returns the final state
and the whole trace. -/
def run (fingerCapacity : Nat) : List LoopInput → State → State × List Action
  | [], s => (s, [])
  | i :: rest, s =>
    let r := loop fingerCapacity i s
    let r2 := run fingerCapacity rest r.1
    (r2.1, r.2 ++ r2.2)

/-! ## The enrollment part of the state -/

/-- The globals and statics read or written by the enrollment handlers and tick. -/
structure EnrollView where
  enrollID : Int
  enrollmentTemplateID : String
  enrollmentInProgress : Bool
  enrollmentCancelled : Bool
  enrollmentConfirmed : Bool
  enrollmentStep : Int
  lastStep : Nat
  stepStartTime : Nat
  noFingerCount : Int
  waitingMessageShown0 : Bool
  waitingMessageShown1 : Bool
  waitingMessageShown2 : Bool
  requireFingerRelease : Bool
  removeMessageShown : Bool
  lastWaitingReminder : Nat
  modelCreated : Bool
  deriving DecidableEq, Repr

/-- Projection of a state on its enrollment part. -/
def State.view (s : State) : EnrollView where
  enrollID := s.enrollID
  enrollmentTemplateID := s.enrollmentTemplateID
  enrollmentInProgress := s.enrollmentInProgress
  enrollmentCancelled := s.enrollmentCancelled
  enrollmentConfirmed := s.enrollmentConfirmed
  enrollmentStep := s.enrollmentStep
  lastStep := s.lastStep
  stepStartTime := s.stepStartTime
  noFingerCount := s.noFingerCount
  waitingMessageShown0 := s.waitingMessageShown0
  waitingMessageShown1 := s.waitingMessageShown1
  waitingMessageShown2 := s.waitingMessageShown2
  requireFingerRelease := s.requireFingerRelease
  removeMessageShown := s.removeMessageShown
  lastWaitingReminder := s.lastWaitingReminder
  modelCreated := s.modelCreated

/-! ## Observations on traces -/

/-- Documents published on the enrollment response topic, in order. -/
def enrollEvents : List Action → List Response
  | [] => []
  | Action.publish Topic.enroll_response (Payload.enroll r) _ :: rest => r :: enrollEvents rest
  | _ :: rest => enrollEvents rest

/-- Arguments of the `storeModel` calls of a trace, in order. -/
def storeCalls : List Action → List Int
  | [] => []
  | Action.storeModel id :: rest => id :: storeCalls rest
  | _ :: rest => storeCalls rest

/-- Number of `createModel` calls of a trace. -/
def createCalls : List Action → Nat
  | [] => 0
  | Action.createModel :: rest => createCalls rest + 1
  | _ :: rest => createCalls rest

/-- Slot of the last accepted `start` after one more action: a `started` event replaces
it. -/
def lastStartedStep (last : Option Int) : Action → Option Int
  | Action.publish Topic.enroll_response (Payload.enroll r) _ =>
    if r.status = "started" then r.slot else last
  | _ => last

/-- Slot of the most recent `started` event of a trace, starting from `last`. -/
def lastStarted : Option Int → List Action → Option Int
  | last, [] => last
  | last, a :: rest => lastStarted (lastStartedStep last a) rest

/-- A `storeModel` call is in order when its argument is the slot of the last accepted
`start` and lies in `[1, cap]`; other actions are always in order. -/
def storeOk (cap : Int) (last : Option Int) : Action → Prop
  | Action.storeModel id => last = some id ∧ 1 ≤ id ∧ id ≤ cap
  | _ => True

/-- Every `storeModel` call of the trace is in order, `last` being the slot of the last
accepted `start` before the trace. -/
def storesOk (cap : Int) : Option Int → List Action → Prop
  | _, [] => True
  | last, a :: rest => storeOk cap last a ∧ storesOk cap (lastStartedStep last a) rest

/-- Actions that neither store a model nor publish on the enrollment response topic. -/
def Action.quiet : Action → Bool
  | Action.storeModel _ => false
  | Action.publish Topic.enroll_response _ _ => false
  | _ => true

/-- Summary of an enrollment event: status, step, slot and template id. -/
def Response.summary (r : Response) : String × Option Nat × Option Int × Option String :=
  (r.status, r.step, r.slot, r.template_id)

/-! ## Inputs used in scenarios -/

/-- Tick input with the given clock reading and every sensor call answering "no finger"
(capture) or a communication error (other calls). -/
def EnrollInput.noFinger (now : Nat) : EnrollInput :=
  { now := now, rp := FINGERPRINT_NOFINGER, p := FINGERPRINT_NOFINGER, conv := 1, modelP := 1,
    p3 := 1 }

/-- Tick input with the given clock reading and every sensor call answering OK; the
release check sees no finger. -/
def EnrollInput.allOk (now : Nat) : EnrollInput :=
  { now := now, rp := FINGERPRINT_NOFINGER, p := FINGERPRINT_OK, conv := FINGERPRINT_OK,
    modelP := FINGERPRINT_OK, p3 := FINGERPRINT_OK }

/-- Attendance input with no finger on the sensor. -/
def AttendInput.noFinger (now : Nat) : AttendInput :=
  { now := now, p := FINGERPRINT_NOFINGER, p2 := 1, p3 := 1, p3r := 1, fingerID := 0,
    confidence := 0,
    confirm0 := { c1 := 1, c2 := 1, confirmP := 1, confirmId := 0, confirmConf := 0 },
    confirm1 := { c1 := 1, c2 := 1, confirmP := 1, confirmId := 0, confirmConf := 0 } }

/-- Loop iteration at time `now` with the given inbound message and enrollment readings. -/
def iteration (now : Nat) (inbound : Option Inbound) (e : EnrollInput) : LoopInput :=
  { inbound := inbound, now := now, wifiOk := false, enroll := e,
    attend := AttendInput.noFinger now }

/-- An `enrollment.start` request. -/
def startRequest (slot : Int) (templateId : String) : Inbound :=
  { topic := Topic.enroll_request,
    payload := InPayload.json
      { slot := some slot, template_id := some templateId, action := some "start" } }

/-- An `enrollment.confirm` request. -/
def confirmRequest (templateId : String) : Inbound :=
  { topic := Topic.enroll_request,
    payload := InPayload.json { template_id := some templateId, action := some "confirm" } }

/-- An `enrollment.cancel` request. -/
def cancelRequest (templateId : String) : Inbound :=
  { topic := Topic.enroll_request,
    payload := InPayload.json { template_id := some templateId, action := some "cancel" } }

/-- The `enrollment_saved` message of the remote endpoint. -/
def savedMessage (templateId : String) : Inbound :=
  { topic := Topic.enroll_completion,
    payload := InPayload.json
      { status := some "enrollment_saved", template_id := some templateId } }

/-- Inputs that take a session from `start` to AwaitingConfirmation: `start(slot, tid)` at
time `t`, then three good scans separated by a no-finger read and more than 2 s. -/
def scansToConfirmation (t : Nat) (slot : Int) (tid : String) : List LoopInput :=
  [ iteration t (some (startRequest slot tid)) (EnrollInput.allOk t),
    iteration (t + 300) none (EnrollInput.noFinger (t + 300)),
    iteration (t + 2400) none (EnrollInput.allOk (t + 2400)),
    iteration (t + 2700) none (EnrollInput.noFinger (t + 2700)),
    iteration (t + 4800) none (EnrollInput.allOk (t + 4800)) ]

/-- The scenario of a complete enrollment: `start(12, "T1")`, three good scans, `confirm`,
store OK. -/
def enrollScenario : List LoopInput :=
  scansToConfirmation 1000 12 "T1" ++
  [ iteration 6100 (some (confirmRequest "T1")) (EnrollInput.allOk 6100) ]

/-- Whether an action is the publish of a `started` event. -/
def isStarted : Action → Bool
  | Action.publish Topic.enroll_response (Payload.enroll r) _ => decide (r.status = "started")
  | _ => false

/-- The part of a trace after its most recent `started` event (`acc` collects the
actions seen since the last one). -/
def sinceLastStart (acc : List Action) : List Action → List Action
  | [] => acc
  | a :: rest => if isStarted a then sinceLastStart [] rest else sinceLastStart (acc ++ [a]) rest

/-- A session is built up to AwaitingConfirmation for slot 5, cancelled, and a second
session is started for slot 7 and confirmed without any scan. -/
def staleModelScenario : List LoopInput :=
  scansToConfirmation 1000 5 "A" ++
  [ iteration 6100 (some (cancelRequest "A")) (EnrollInput.noFinger 6100),
    iteration 6400 (some (startRequest 7 "B")) (EnrollInput.noFinger 6400),
    iteration 6700 (some (confirmRequest "B")) (EnrollInput.allOk 6700) ]

/-- A session is built up to AwaitingConfirmation for slot 5 and then cancelled; one more
loop iteration follows. -/
def cancelAtConfirmation : List LoopInput :=
  scansToConfirmation 1000 5 "A" ++
  [ iteration 6100 (some (cancelRequest "A")) (EnrollInput.noFinger 6100),
    iteration 6400 none (EnrollInput.noFinger 6400) ]

/-- A session is built up to AwaitingConfirmation for slot 5 and then ended by an
`enrollment_saved` message; one more loop iteration follows. -/
def savedAtConfirmation : List LoopInput :=
  scansToConfirmation 1000 5 "A" ++
  [ iteration 6100 (some (savedMessage "A")) (EnrollInput.noFinger 6100),
    iteration 6400 none (EnrollInput.noFinger 6400) ]

/-- Scan 1 of a session for slot 5 is accepted, then the session is cancelled; one more
loop iteration follows. -/
def cancelAfterScan1 : List LoopInput :=
  [ iteration 1000 (some (startRequest 5 "A")) (EnrollInput.allOk 1000),
    iteration 1300 (some (cancelRequest "A")) (EnrollInput.noFinger 1300),
    iteration 1600 none (EnrollInput.noFinger 1600) ]

/-- A `confirm` arrives right after `start`, before any scan. -/
def confirmBeforeScans : List LoopInput :=
  [ iteration 1000 (some (startRequest 12 "T1")) (EnrollInput.noFinger 1000),
    iteration 1300 (some (confirmRequest "T1")) (EnrollInput.noFinger 1300),
    iteration 1600 none (EnrollInput.noFinger 1600) ]

/-- A session for slot 5 is active when `start` arrives with slot 0. -/
def invalidSlotWhileActive : List LoopInput :=
  [ iteration 1000 (some (startRequest 5 "A")) (EnrollInput.noFinger 1000),
    iteration 1300 (some (startRequest 0 "B")) (EnrollInput.noFinger 1300) ]

/-! ## Facts about one call of the enrollment tick -/

/-- What a branch of the enrollment tick guarantees about its result `r` from state `s`. -/
structure BranchFacts (s : State) (r : State × List Action) : Prop where
  noStart : r.2.all (fun a => !isStarted a) = true
  stores : storeCalls r.2 = [] ∨
    (storeCalls r.2 = [s.enrollID] ∧ s.enrollmentConfirmed = true ∧ s.modelCreated = true ∧
      r.1.enrollmentInProgress = false)
  keeps : r.1.enrollmentInProgress = true →
    s.enrollmentInProgress = true ∧ r.1.enrollID = s.enrollID ∧
    r.1.enrollmentTemplateID = s.enrollmentTemplateID ∧
    r.1.enrollmentConfirmed = s.enrollmentConfirmed ∧
    r.1.enrollmentCancelled = s.enrollmentCancelled
  conf : r.1.enrollmentConfirmed = true → s.enrollmentConfirmed = true
  step3 : s.requireFingerRelease = false → (s.enrollmentStep = 3 → s.modelCreated = true) →
    r.1.enrollmentStep = 3 → r.1.modelCreated = true ∧ r.1.requireFingerRelease = false

/-- What one call of the enrollment tick guarantees about its result `r` from state `s`. -/
structure TickFacts (s : State) (r : State × List Action) : Prop where
  noStart : r.2.all (fun a => !isStarted a) = true
  stores : storeCalls r.2 = [] ∨
    (storeCalls r.2 = [s.enrollID] ∧ s.enrollmentInProgress = true ∧
      s.enrollmentCancelled = false ∧ s.enrollmentConfirmed = true ∧ s.modelCreated = true ∧
      s.enrollmentStep = 3 ∧ r.1.enrollmentInProgress = false)
  keeps : r.1.enrollmentInProgress = true →
    s.enrollmentInProgress = true ∧ r.1.enrollID = s.enrollID ∧
    r.1.enrollmentTemplateID = s.enrollmentTemplateID ∧
    r.1.enrollmentConfirmed = s.enrollmentConfirmed ∧
    r.1.enrollmentCancelled = s.enrollmentCancelled
  conf : r.1.enrollmentConfirmed = true → s.enrollmentConfirmed = true
  step3 : (s.enrollmentStep = 3 → s.modelCreated = true ∧ s.requireFingerRelease = false) →
    r.1.enrollmentStep = 3 → r.1.modelCreated = true ∧ r.1.requireFingerRelease = false


/-! ## Invariants of executions -/

/-- A relation between the current state and the trace so far that every step of the
program preserves, for loop inputs satisfying `ok`. -/
structure Preserved (cap : Nat) (ok : LoopInput → Prop) (R : State → List Action → Prop) :
    Prop where
  frame : ∀ (s t : State) (tr a : List Action), t.view = s.view → a.all Action.quiet = true →
    R s tr → R t (tr ++ a)
  tick : ∀ (i : LoopInput) (s : State) (tr : List Action), ok i →
    s.enrollmentInProgress = true → s.enrollmentCancelled = false → R s tr →
    R (enrollFingerprint i.enroll s).1 (tr ++ (enrollFingerprint i.enroll s).2)
  request : ∀ (i : LoopInput) (doc : Doc) (s : State) (tr : List Action), ok i →
    i.inbound = some { topic := Topic.enroll_request, payload := InPayload.json doc } →
    R s tr →
    R (handleEnrollmentRequest cap doc s).1 (tr ++ (handleEnrollmentRequest cap doc s).2)
  saved : ∀ (s : State) (tr : List Action), R s tr →
    R { s with enrollmentInProgress := false, enrollmentCancelled := false,
               enrollmentConfirmed := false, enrollID := 0, enrollmentTemplateID := "" } tr
  restart : ∀ (s : State) (tr : List Action), R s tr → R State.init (tr ++ [Action.restart])


/-- The relation behind the slot-range invariant: every store so far was in order, and
while a session is in progress `enrollID` is the slot of the last `started` event and lies
in range. -/
def SlotInv (cap : Nat) (s : State) (tr : List Action) : Prop :=
  storesOk (slotCapacity cap) none tr ∧
  (s.enrollmentInProgress = true →
    lastStarted none tr = some s.enrollID ∧ 1 ≤ s.enrollID ∧ s.enrollID ≤ slotCapacity cap)


/-- The `action` of an inbound enrollment request, `none` for any other input. -/
def requestAction (i : LoopInput) : Option String :=
  match i.inbound with
  | some m =>
    if m.topic = Topic.enroll_request then
      match m.payload with
      | InPayload.json doc => some (doc.action.getD "start")
      | _ => none
    else none
  | none => none

/-- No session is in progress and no model has been stored so far. -/
def IdleNoStore (s : State) (tr : List Action) : Prop :=
  s.enrollmentInProgress = false ∧ storeCalls tr = []

/-- The confirmation flag is clear and no model has been stored so far. -/
def UnconfirmedNoStore (s : State) (tr : List Action) : Prop :=
  s.enrollmentConfirmed = false ∧ storeCalls tr = []

/-- At AwaitingConfirmation the model is built and no finger release is pending. -/
def ConfirmationInv (s : State) (_tr : List Action) : Prop :=
  s.enrollmentStep = 3 → s.modelCreated = true ∧ s.requireFingerRelease = false

/-- The controller is idle: no session, flags clear, step counter at the first scan. -/
def State.idle (s : State) : Prop :=
  s.enrollmentInProgress = false ∧ s.enrollmentConfirmed = false ∧
  s.enrollmentCancelled = false ∧ s.modelCreated = false ∧ s.enrollmentStep = 0 ∧
  s.enrollID = 0 ∧ s.enrollmentTemplateID = "" ∧ s.requireFingerRelease = false

/-! ## Fatal outcomes and quality rejects of the enrollment tick -/

/-- The quality estimate that `enrollFingerprint` derives from the result of `image2Tz`
(lines 1082-1096, repeated at 1294-1308 and 1477-1491). -/
def imageQuality (conv : Int) : Nat :=
  if conv = FINGERPRINT_IMAGEMESS then 45
  else if conv = FINGERPRINT_FEATUREFAIL then 60
  else if conv = FINGERPRINT_OK then 95
  else 0

/-- Status of the last enrollment event of a trace. -/
def lastStatus (tr : List Action) : Option String :=
  (enrollEvents tr).getLast?.map Response.status

/-- What a branch of the enrollment tick guarantees when it ends the session or publishes
an `error` event. -/
structure EndFacts (i : EnrollInput) (s : State) (r : State × List Action) : Prop where
  errEnds : (∃ e ∈ enrollEvents r.2, e.status = "error") → r.1.enrollmentInProgress = false
  endErr : s.enrollmentInProgress = true → r.1.enrollmentInProgress = false →
    (storeCalls r.2 = [] ∨ i.p3 ≠ FINGERPRINT_OK) → lastStatus r.2 = some "error"
  endStep : s.enrollmentInProgress = true → r.1.enrollmentInProgress = false →
    r.1.enrollmentStep = 0 ∧ (s.requireFingerRelease = false → r.1.requireFingerRelease = false)
  endModel : s.enrollmentInProgress = true → r.1.enrollmentInProgress = false →
    r.1.modelCreated = true → s.modelCreated = true
  modelKeep : r.1.modelCreated = true → r.1.enrollmentStep = 3 ∨ s.modelCreated = true

/-- What a tick of a live session guarantees when it ends the session or publishes an
`error` event. -/
structure TickEnd (i : EnrollInput) (s : State) (r : State × List Action) : Prop where
  errEnds : (∃ e ∈ enrollEvents r.2, e.status = "error") → r.1.enrollmentInProgress = false
  endErr : r.1.enrollmentInProgress = false →
    (storeCalls r.2 = [] ∨ i.p3 ≠ FINGERPRINT_OK) → lastStatus r.2 = some "error"
  endStep : r.1.enrollmentInProgress = false →
    r.1.enrollmentStep = 0 ∧ r.1.requireFingerRelease = false
  endModel : (s.modelCreated = true → s.enrollmentStep = 3) →
    r.1.enrollmentInProgress = false → r.1.modelCreated = false
  modelInv : (s.modelCreated = true → s.enrollmentStep = 3) →
    r.1.modelCreated = true → r.1.enrollmentStep = 3

/-- A model is built only at AwaitingConfirmation. -/
def ModelInv (s : State) (_tr : List Action) : Prop :=
  s.modelCreated = true → s.enrollmentStep = 3

/-- A session for slot 5 has just been started; no tick has read the sensor yet. -/
def startedSession : List LoopInput :=
  [ iteration 1000 (some (startRequest 5 "A")) (EnrollInput.noFinger 1000) ]

/-- Tick input with a finger on the sensor whose image converts with `IMAGEMESS`. -/
def EnrollInput.poorImage (now : Nat) : EnrollInput :=
  { now := now, rp := FINGERPRINT_NOFINGER, p := FINGERPRINT_OK, conv := FINGERPRINT_IMAGEMESS,
    modelP := FINGERPRINT_OK, p3 := FINGERPRINT_OK }

/-- Inputs that take a session for slot 12 to AwaitingScan3 with the finger released. -/
def scansToScan3 : List LoopInput :=
  [ iteration 1000 (some (startRequest 12 "T1")) (EnrollInput.allOk 1000),
    iteration 1300 none (EnrollInput.noFinger 1300),
    iteration 3400 none (EnrollInput.allOk 3400),
    iteration 3700 none (EnrollInput.noFinger 3700) ]

/-- Tick input with a good capture and conversion but a failing `createModel`. -/
def EnrollInput.modelFailure (now : Nat) : EnrollInput :=
  { now := now, rp := FINGERPRINT_NOFINGER, p := FINGERPRINT_OK, conv := FINGERPRINT_OK,
    modelP := 10, p3 := FINGERPRINT_OK }

/-- A `start` document for slot 12. -/
def restartDoc : Doc :=
  { slot := some 12, template_id := some "T2", action := some "start" }

/-! ## No-finger polling and the pause between scans -/

/-- Loop iterations `n` polls long, 200 ms apart from time `t`, with no inbound message and
the sensor reporting no finger at every poll. -/
def noFingerPolls (t n : Nat) : List LoopInput :=
  (List.range n).map fun k => iteration (t + 200 * k) none (EnrollInput.noFinger (t + 200 * k))

/-- State after a sequence of calls of the enrollment tick. -/
def enrollTicks (is : List EnrollInput) (s : State) : State :=
  is.foldl (fun st i => (enrollFingerprint i st).1) s

/-- States in which the tick evaluates no capture for a scan: the session is at
AwaitingConfirmation, or it is not live. -/
def NoScan (s : State) : Prop :=
  s.enrollmentStep = 3 ∨
  ((s.enrollmentInProgress = false ∨ s.enrollmentCancelled = true) ∧ 0 ≤ s.enrollmentStep)

/-- What one call of the enrollment tick guarantees about captures between scans. -/
structure CoolFacts (i : EnrollInput) (s : State) (r : State × List Action) : Prop where
  quiet : NoScan s →
    NoScan r.1 ∧ (∀ b, Action.image2Tz b ∉ r.2) ∧ r.1.enrollmentStep ≠ s.enrollmentStep + 1
  pending : s.requireFingerRelease = true → (s.enrollmentStep = 1 ∨ s.enrollmentStep = 2) →
    ((∀ b, Action.image2Tz b ∉ r.2) ∧ r.1.enrollmentStep ≠ s.enrollmentStep + 1) ∧
    (NoScan r.1 ∨
     (r.1.requireFingerRelease = true ∧ (r.1.enrollmentStep = 1 ∨ r.1.enrollmentStep = 2)) ∨
     (i.rp = FINGERPRINT_NOFINGER ∧ Action.getImage ∈ r.2 ∧
      r.1.requireFingerRelease = false ∧ r.1.stepStartTime = i.now ∧
      r.1.enrollmentStep = s.enrollmentStep))
  released : s.requireFingerRelease = false → (s.enrollmentStep = 1 ∨ s.enrollmentStep = 2) →
    (((∃ b, Action.image2Tz b ∈ r.2) ∨ r.1.enrollmentStep = s.enrollmentStep + 1) →
      2000 ≤ sub32 i.now s.stepStartTime) ∧
    (NoScan r.1 ∨
     (r.1.requireFingerRelease = true ∧ (r.1.enrollmentStep = 1 ∨ r.1.enrollmentStep = 2)) ∨
     (r.1.requireFingerRelease = false ∧ r.1.stepStartTime = s.stepStartTime ∧
      r.1.enrollmentStep = s.enrollmentStep))
  accepted : (s.enrollmentStep = 0 ∨ s.enrollmentStep = 1) →
    r.1.enrollmentStep = s.enrollmentStep + 1 → r.1.requireFingerRelease = true

/-- Next-state classes of a scan-2 or scan-3 branch entered with the finger released. -/
def ReleasedNext (s t : State) : Prop :=
  NoScan t ∨
  (t.requireFingerRelease = true ∧ (t.enrollmentStep = 1 ∨ t.enrollmentStep = 2)) ∨
  (t.requireFingerRelease = false ∧ t.stepStartTime = s.stepStartTime ∧
    t.enrollmentStep = s.enrollmentStep)

/-- Some tick of `pre`, run from `s1`, found a release pending, read the sensor, saw no
finger, and its clock reading was `time`. -/
def ReleasedAt (s1 : State) (pre : List EnrollInput) (time : Nat) : Prop :=
  ∃ pre1 j pre2, pre = pre1 ++ j :: pre2 ∧ j.rp = FINGERPRINT_NOFINGER ∧
    (enrollTicks pre1 s1).requireFingerRelease = true ∧
    Action.getImage ∈ (enrollFingerprint j (enrollTicks pre1 s1)).2 ∧ j.now = time

/-- Invariant of the ticks that follow an accepted scan. -/
def CoolInv (s1 : State) (pre : List EnrollInput) : Prop :=
  NoScan (enrollTicks pre s1) ∨
  ((enrollTicks pre s1).requireFingerRelease = true ∧
    ((enrollTicks pre s1).enrollmentStep = 1 ∨ (enrollTicks pre s1).enrollmentStep = 2)) ∨
  ((enrollTicks pre s1).requireFingerRelease = false ∧
    ((enrollTicks pre s1).enrollmentStep = 1 ∨ (enrollTicks pre s1).enrollmentStep = 2) ∧
    ReleasedAt s1 pre (enrollTicks pre s1).stepStartTime)

/-! ## Observations on the attendance tick -/

/-- Detection documents published by a trace on `topic_fingerprint_result`, in order. -/
def detectionEvents : List Action → List Detection
  | [] => []
  | Action.publish Topic.fingerprint_result (Payload.detection d) _ :: rest =>
    d :: detectionEvents rest
  | _ :: rest => detectionEvents rest

/-- The match and unregistered events of a trace: the detection documents with
`match_type` "hardware". -/
def published (tr : List Action) : List Detection :=
  (detectionEvents tr).filter fun d => decide (d.match_type = "hardware")

/-- Whether an action is an MQTT publish. -/
def Action.isPublish : Action → Bool
  | Action.publish _ _ _ => true
  | _ => false

/-- State after a sequence of calls of the attendance tick. -/
def attendTicks (is : List AttendInput) (s : State) : State :=
  is.foldl (fun st i => (attendanceScanning i st).1) s

/-- Result of the search of one attendance tick: the retried call when the first one
answered neither OK nor NOTFOUND (lines 702-705). -/
def searchResult (i : AttendInput) : Int :=
  if i.p3 ≠ FINGERPRINT_OK ∧ i.p3 ≠ FINGERPRINT_NOTFOUND then i.p3r else i.p3

/-- The tick reaches the outcome of a search: it is not skipped by the scan interval, no
removal is pending, and capture and conversion succeed. -/
def Searches (i : AttendInput) (s : State) : Prop :=
  ¬ sub32 i.now s.lastScanTime < SCAN_INTERVAL ∧ s.requireFingerRemoval = false ∧
  i.p = FINGERPRINT_OK ∧ i.p2 = FINGERPRINT_OK

/-- The hint document of `publishHint`. -/
def hintEvent (now : Nat) (confidence : Int) (reason : String) : Detection :=
  { fingerprint_id := -2, confidence := confidence, timestamp := now, mode := "attendance",
    match_type := "hint", reason := some reason }

/-- The match document published for the sensor fields of `i`. -/
def matchEvent (i : AttendInput) : Detection :=
  { fingerprint_id := (i.fingerID : Int), confidence := (i.confidence : Int),
    timestamp := i.now, mode := "attendance", match_type := "hardware" }

/-- The unregistered document published at clock reading `now`. -/
def unregisteredEvent (now : Nat) : Detection :=
  { fingerprint_id := -1, confidence := 0, timestamp := now, mode := "attendance",
    match_type := "hardware" }

/-- What a part of the attendance tick guarantees about its result `r` from state `s`:
either it publishes no match or unregistered event and leaves the publish clock alone, or
it publishes exactly one, with no removal pending before and the rate limit passed, and
then requires removal. -/
structure PublishFacts (i : AttendInput) (s : State) (r : State × List Action) : Prop where
  pub : (published r.2 = [] ∧ r.1.lastPublishMs = s.lastPublishMs ∧
      r.1.requireFingerRemoval = s.requireFingerRemoval ∧
      (∀ d ∈ detectionEvents r.2, d.fingerprint_id = -2 ∧ d.match_type = "hint")) ∨
    (s.requireFingerRemoval = false ∧ r.1.requireFingerRemoval = true ∧
      r.1.lastPublishMs = i.now ∧ MIN_PUBLISH_INTERVAL ≤ sub32 i.now s.lastPublishMs ∧
      r.1.lastCandidateId = -1 ∧ r.1.stableReads = 0 ∧
      (detectionEvents r.2 = [unregisteredEvent i.now] ∨
        (detectionEvents r.2 = [matchEvent i] ∧
          ¬ ((i.fingerID : Int) > 0 ∧ (i.fingerID : Int) < 100) ∧
          MIN_CONFIDENCE ≤ (i.confidence : Int))))

/-- What one call of the attendance tick guarantees about its result `r` from state `s`. -/
structure AttendFacts (i : AttendInput) (s : State) (r : State × List Action) : Prop where
  pub : (published r.2 = [] ∧ r.1.lastPublishMs = s.lastPublishMs ∧
      (r.1.requireFingerRemoval = true → s.requireFingerRemoval = true) ∧
      (∀ d ∈ detectionEvents r.2, d.fingerprint_id = -2 ∧ d.match_type = "hint")) ∨
    (Searches i s ∧ r.1.requireFingerRemoval = true ∧
      r.1.lastPublishMs = i.now ∧ MIN_PUBLISH_INTERVAL ≤ sub32 i.now s.lastPublishMs ∧
      r.1.lastCandidateId = -1 ∧ r.1.stableReads = 0 ∧
      (detectionEvents r.2 = [unregisteredEvent i.now] ∨
        (detectionEvents r.2 = [matchEvent i] ∧
          ¬ ((i.fingerID : Int) > 0 ∧ (i.fingerID : Int) < 100) ∧
          MIN_CONFIDENCE ≤ (i.confidence : Int))))
  release : s.requireFingerRemoval = true →
    r.1.requireFingerRemoval = true ∨ (i.p = FINGERPRINT_NOFINGER ∧ Action.getImage ∈ r.2)
  pending : s.requireFingerRemoval = true → i.p ≠ FINGERPRINT_NOFINGER →
    r.2.all (fun a => !a.isPublish) = true ∧ r.1.lastCandidateId = s.lastCandidateId ∧
    r.1.stableReads = s.stableReads ∧ r.1.requireFingerRemoval = true

/-- Some tick of `mid`, run from `s1`, read the sensor and saw no finger. -/
def RemovalSeen (s1 : State) (mid : List AttendInput) : Prop :=
  ∃ m1 z m2, mid = m1 ++ z :: m2 ∧ z.p = FINGERPRINT_NOFINGER ∧
    Action.getImage ∈ (attendanceScanning z (attendTicks m1 s1)).2

/-- Attendance input with a good capture, conversion and search returning the given id
and confidence. -/
def AttendInput.found (now id conf : Nat) : AttendInput :=
  { now := now, p := FINGERPRINT_OK, p2 := FINGERPRINT_OK, p3 := FINGERPRINT_OK, p3r := 1,
    fingerID := id, confidence := conf,
    confirm0 := { c1 := 1, c2 := 1, confirmP := 1, confirmId := 0, confirmConf := 0 },
    confirm1 := { c1 := 1, c2 := 1, confirmP := 1, confirmId := 0, confirmConf := 0 } }

/-- The sensor calls of a tick that reaches the outcome of a search. -/
def searchCalls (i : AttendInput) : List Action :=
  if i.p3 ≠ FINGERPRINT_OK ∧ i.p3 ≠ FINGERPRINT_NOTFOUND then
    [Action.getImage, Action.image2Tz 1, Action.fingerFastSearch, Action.fingerFastSearch]
  else [Action.getImage, Action.image2Tz 1, Action.fingerFastSearch]

/-! ## Debounce state and unregistered fingers -/

/-- Attendance ticks that leave a candidate behind: a match is published at 2000, the
finger is lifted at 2400, and id 107 is read with confidence 50 at 2800, inside the publish
interval. -/
def candidateTicks : List AttendInput :=
  [AttendInput.found 2000 150 80, AttendInput.noFinger 2400, AttendInput.found 2800 107 50]

/-- A `disable` detection request. -/
def disableDoc : Doc := { action := some "disable" }

/-- Attendance input whose search fails twice with a communication error. -/
def AttendInput.searchError (now : Nat) : AttendInput :=
  { now := now, p := FINGERPRINT_OK, p2 := FINGERPRINT_OK, p3 := 1, p3r := 1,
    fingerID := 0, confidence := 0,
    confirm0 := { c1 := 1, c2 := 1, confirmP := 1, confirmId := 0, confirmConf := 0 },
    confirm1 := { c1 := 1, c2 := 1, confirmP := 1, confirmId := 0, confirmConf := 0 } }

/-- No tick of `mid`, run from `s1`, publishes a match or unregistered event. -/
def NoPublishIn (s1 : State) (mid : List AttendInput) : Prop :=
  ∀ m1 z m2, mid = m1 ++ z :: m2 → published (attendanceScanning z (attendTicks m1 s1)).2 = []

/-- Attendance input with a good capture and conversion and a search answering not-found. -/
def AttendInput.notFound (now : Nat) : AttendInput :=
  { now := now, p := FINGERPRINT_OK, p2 := FINGERPRINT_OK, p3 := FINGERPRINT_NOTFOUND, p3r := 1,
    fingerID := 0, confidence := 0,
    confirm0 := { c1 := 1, c2 := 1, confirmP := 1, confirmId := 0, confirmConf := 0 },
    confirm1 := { c1 := 1, c2 := 1, confirmP := 1, confirmId := 0, confirmConf := 0 } }

/-! ## The two ticks in the main loop -/

/-- The globals and statics that the enrollment handlers and tick neither read nor write:
the detection mode, the status clock and the statics of `attendanceScanning`. -/
structure OtherView where
  detectionMode : Int
  lastStatusPublish : Nat
  lastScanTime : Nat
  lastDebugTime : Nat
  lastCandidateId : Int
  stableReads : Int
  requireFingerRemoval : Bool
  lastPublishMs : Nat
  lastHintMs : Nat
  deriving DecidableEq, Repr

/-- Projection of the state on the part outside the enrollment controller. -/
def State.other (s : State) : OtherView where
  detectionMode := s.detectionMode
  lastStatusPublish := s.lastStatusPublish
  lastScanTime := s.lastScanTime
  lastDebugTime := s.lastDebugTime
  lastCandidateId := s.lastCandidateId
  stableReads := s.stableReads
  requireFingerRemoval := s.requireFingerRemoval
  lastPublishMs := s.lastPublishMs
  lastHintMs := s.lastHintMs

/-- The part of `loop` before the two ticks (lines 120-128): the inbound message is
handled and the periodic status is published.  Returns the state in which the gates of the
ticks are evaluated and the actions so far. -/
def beforeTicks (fingerCapacity : Nat) (i : LoopInput) (s : State) : State × List Action :=
  let r1 : State × List Action :=
    match i.inbound with
    | none => (s, [])
    | some m => callback fingerCapacity i.now i.wifiOk m s
  let r2 : State × List Action :=
    if !r1.1.enrollmentInProgress ∧ sub32 i.now r1.1.lastStatusPublish > 30000 then
      ({ r1.1 with lastStatusPublish := i.now }, publishStatus i.now r1.1)
    else (r1.1, [])
  (r2.1, r1.2 ++ r2.2)

/-- A detection request that enables attendance mode. -/
def enableAttendance : Inbound :=
  { topic := Topic.detect_request,
    payload := InPayload.json { action := some "enable", mode := some (ModeField.int 2) } }

/-- A session for slot 5 is started and attendance mode is enabled while it is active. -/
def bothActive : List LoopInput :=
  [ iteration 1000 (some (startRequest 5 "A")) (EnrollInput.noFinger 1000),
    iteration 1300 (some enableAttendance) (EnrollInput.noFinger 1300) ]

/-- A loop iteration with no inbound message and a finger on the sensor for both ticks. -/
def fingerOnSensor : LoopInput :=
  { inbound := none, now := 2000, wifiOk := false, enroll := EnrollInput.allOk 2000,
    attend := AttendInput.found 2000 150 80 }

/-! ## Event fields, cancel and the detection mode -/

/-- Scan 1 is accepted, the finger is lifted, and after the cooldown the first poll of
scan 2 finds no finger. -/
def noFingerAtScan2 : List LoopInput :=
  [ iteration 1000 (some (startRequest 5 "A")) (EnrollInput.allOk 1000),
    iteration 1300 none (EnrollInput.noFinger 1300),
    iteration 3400 none (EnrollInput.noFinger 3400) ]

/-- Scans 1 and 2 are accepted, the finger is lifted, and after the cooldown the first poll
of scan 3 finds no finger. -/
def noFingerAtScan3 : List LoopInput :=
  [ iteration 1000 (some (startRequest 5 "A")) (EnrollInput.allOk 1000),
    iteration 1300 none (EnrollInput.noFinger 1300),
    iteration 3400 none (EnrollInput.allOk 3400),
    iteration 3700 none (EnrollInput.noFinger 3700),
    iteration 5800 none (EnrollInput.noFinger 5800) ]

/-- A `cancel` document. -/
def cancelDoc : Doc := { template_id := some "A", action := some "cancel" }

/-- The detection mode that claim C27 prescribes for a detection request: `m` when the
action is enable, start or start_detection and the mode field is the integer 1 or 2 or one
of the strings registration, 1 (mode 1), attendance, 2 (mode 2); 0 in every other case. -/
def specDetectionMode (doc : Doc) : Int :=
  if doc.action = some "enable" ∨ doc.action = some "start" ∨
      doc.action = some "start_detection" then
    if doc.mode = some (ModeField.int 1) ∨ doc.mode = some (ModeField.str "registration") ∨
        doc.mode = some (ModeField.str "1") then 1
    else if doc.mode = some (ModeField.int 2) ∨ doc.mode = some (ModeField.str "attendance") ∨
        doc.mode = some (ModeField.str "2") then 2
    else 0
  else 0

/-- The detection mode that claim C27 prescribes after a loop iteration that started with
mode `mode`: a parsed detection request sets it as `specDetectionMode` says, a `restart`
command reboots the device into mode 0, and anything else leaves it unchanged. -/
def specModeAfter (mode : Int) (i : LoopInput) : Int :=
  match i.inbound with
  | none => mode
  | some m =>
    match m.payload with
    | InPayload.json doc =>
      if m.topic = Topic.detect_request then specDetectionMode doc
      else if m.topic = Topic.command ∧ doc.command = some "restart" then 0
      else mode
    | _ => mode

/-- The part of `loop` before the attendance tick (lines 120-133): `beforeTicks` followed
by the gated enrollment tick. -/
def enrollStage (fingerCapacity : Nat) (i : LoopInput) (s : State) : State × List Action :=
  ((if (beforeTicks fingerCapacity i s).1.enrollmentInProgress ∧
        !(beforeTicks fingerCapacity i s).1.enrollmentCancelled
      then enrollFingerprint i.enroll (beforeTicks fingerCapacity i s).1
      else ((beforeTicks fingerCapacity i s).1, [])).1,
   (beforeTicks fingerCapacity i s).2 ++
    (if (beforeTicks fingerCapacity i s).1.enrollmentInProgress ∧
        !(beforeTicks fingerCapacity i s).1.enrollmentCancelled
      then enrollFingerprint i.enroll (beforeTicks fingerCapacity i s).1
      else ((beforeTicks fingerCapacity i s).1, [])).2)

/-! ## Acceptance of a scan -/

/-- What acceptance of scan `k` consists of, for the result `r` of the tick on input `i`:
scans 1 and 2 advance the step counter to `k` without calling `createModel`; scan 3 calls
`createModel` once and the counter reaches 3 exactly when that call returns OK. -/
def AcceptedScan (k : Nat) (i : EnrollInput) (r : State × List Action) : Prop :=
  (k ≠ 3 → r.1.enrollmentStep = (k : Int) ∧ createCalls r.2 = 0) ∧
  (k = 3 → createCalls r.2 = 1 ∧ (r.1.enrollmentStep = 3 ↔ i.modelP = FINGERPRINT_OK))

/-- Tick input with a finger on the sensor whose image converts with `FEATUREFAIL`. -/
def EnrollInput.featureFail (now : Nat) : EnrollInput :=
  { now := now, rp := FINGERPRINT_NOFINGER, p := FINGERPRINT_OK,
    conv := FINGERPRINT_FEATUREFAIL, modelP := FINGERPRINT_OK, p3 := FINGERPRINT_OK }

/-! ## Waiting for confirmation -/

/-- Message of the `error` event of the branch `!modelCreated` (line 1703). -/
def notReadyMessage : String := "Enrollment model not ready - please restart enrollment"

/-- No enrollment event of the trace is the "model not ready" error. -/
def NotReadyFree (tr : List Action) : Prop :=
  ∀ e ∈ enrollEvents tr, e.message ≠ some notReadyMessage

/-- The relation behind claim C30: the confirmation invariant holds and the trace so far
has no "model not ready" error. -/
def ReadyInv (s : State) (tr : List Action) : Prop :=
  ConfirmationInv s tr ∧ NotReadyFree tr

/-- One call made on the controller: the enrollment tick, the attendance tick, or the
MQTT callback with an inbound message. -/
inductive Call where
  | tick (i : EnrollInput)
  | attend (i : AttendInput)
  | message (now : Nat) (wifiOk : Bool) (m : Inbound)
  deriving DecidableEq, Repr

/-- Result of one call. -/
def Call.run (fingerCapacity : Nat) : Call → State → State × List Action
  | Call.tick i, s => enrollFingerprint i s
  | Call.attend i, s => attendanceScanning i s
  | Call.message now wifiOk m, s => callback fingerCapacity now wifiOk m s

/-- Result of a sequence of calls, in any order and with no gating. -/
def calls (fingerCapacity : Nat) : List Call → State → State × List Action
  | [], s => (s, [])
  | c :: rest, s =>
    ((calls fingerCapacity rest (c.run fingerCapacity s).1).1,
     (c.run fingerCapacity s).2 ++ (calls fingerCapacity rest (c.run fingerCapacity s).1).2)

/-- The state `t` differs from `s` at most in the poll timestamp of the enrollment tick. -/
def SameButPoll (s t : State) : Prop :=
  t = { s with lastStep := t.lastStep }

/-! ## Sensor calls of the attendance tick -/

/-- Whether an action is one of the sensor operations `getImage`, `image2Tz`,
`createModel`, `storeModel`, `fingerFastSearch`. -/
def Action.isSensorOp : Action → Bool
  | Action.getImage => true
  | Action.image2Tz _ => true
  | Action.createModel => true
  | Action.storeModel _ => true
  | Action.fingerFastSearch => true
  | _ => false

/-- The sensor operations of a trace, in order. -/
def sensorCalls (tr : List Action) : List Action :=
  tr.filter Action.isSensorOp

/-- Buffers of the `image2Tz` calls of a trace, in order. -/
def conversions : List Action → List Nat
  | [] => []
  | Action.image2Tz b :: rest => b :: conversions rest
  | _ :: rest => conversions rest

/-- No detection event of the trace is a hint with reason `confirm_failed`. -/
def NoConfirmFailed (tr : List Action) : Prop :=
  ∀ d ∈ detectionEvents tr, d.reason ≠ some "confirm_failed"

/-- What a part of the attendance tick guarantees about its sensor calls: they are those
of `pre`, no `confirm_failed` hint is added, and the stable count stays non-negative. -/
structure CallFacts (pre : List Action) (r : State × List Action) : Prop where
  calls : sensorCalls r.2 = sensorCalls pre
  reasons : NoConfirmFailed pre → NoConfirmFailed r.2
  stable : 0 ≤ r.1.stableReads

/-- The candidate bookkeeping of the standard path (lines 772-779), just before the test
`stableReads < REQUIRED_STABLE_READS`. -/
def candidateUpdate (i : AttendInput) (s : State) : State :=
  if s.lastCandidateId = (i.fingerID : Int) then { s with stableReads := s.stableReads + 1 }
  else { s with lastCandidateId := (i.fingerID : Int), stableReads := 1 }

/-- Attendance input whose first search fails with a communication error and whose retry
finds id 150 with confidence 80. -/
def AttendInput.retried (now : Nat) : AttendInput :=
  { now := now, p := FINGERPRINT_OK, p2 := FINGERPRINT_OK, p3 := 1, p3r := FINGERPRINT_OK,
    fingerID := 150, confidence := 80,
    confirm0 := { c1 := 1, c2 := 1, confirmP := 1, confirmId := 0, confirmConf := 0 },
    confirm1 := { c1 := 1, c2 := 1, confirmP := 1, confirmId := 0, confirmConf := 0 } }

/-! ## Scans, sensor calls and quality of the enrollment tick -/

/-- Number of `progress` events of a trace. -/
def progressCount (tr : List Action) : Nat :=
  ((enrollEvents tr).filter fun e => decide (e.status = "progress")).length

/-- What a branch of the enrollment tick entered at step counter `k` guarantees about the
counter, the `progress` events and the sensor calls of its result `r`; `buf` is the buffer
the branch converts into. -/
structure ScanFacts (k : Int) (buf : Nat) (r : State × List Action) : Prop where
  step : r.1.enrollmentStep = k ∨ r.1.enrollmentStep = k + 1 ∨ r.1.enrollmentStep = 0
  progress : progressCount r.2 ≤ 1
  calls : sensorCalls r.2 = [] ∨ sensorCalls r.2 = [Action.getImage] ∨
    sensorCalls r.2 = [Action.getImage, Action.image2Tz buf] ∨
    sensorCalls r.2 = [Action.getImage, Action.image2Tz buf, Action.createModel] ∨
    (∃ id, sensorCalls r.2 = [Action.storeModel id])

/-- The quality score that claim C34 prescribes for a conversion result: 95 for OK, 60 for
FEATUREFAIL (insufficient features), 45 for IMAGEMESS (messy image), 0 for any other
code. -/
def specQuality (conv : Int) : Nat :=
  if conv = FINGERPRINT_OK then 95
  else if conv = FINGERPRINT_FEATUREFAIL then 60
  else if conv = FINGERPRINT_IMAGEMESS then 45
  else 0

/-- Every quality field of the events of the trace is `q`. -/
def QualityIs (q : Nat) (tr : List Action) : Prop :=
  ∀ e ∈ enrollEvents tr, ∀ x, e.quality = some x → x = q

/-! ## Buffers and model creation -/

/-- The part of an action that matters for the order of conversions, model creation and
enrollment events. -/
inductive Mark where
  | conv (buffer : Nat)
  | create
  | event (status : String) (step : Option Nat)
  deriving DecidableEq, Repr

/-- Conversions, `createModel` calls and enrollment events of a trace, in program order. -/
def skeleton : List Action → List Mark
  | [] => []
  | Action.image2Tz b :: rest => Mark.conv b :: skeleton rest
  | Action.createModel :: rest => Mark.create :: skeleton rest
  | Action.publish Topic.enroll_response (Payload.enroll r) _ :: rest =>
    Mark.event r.status r.step :: skeleton rest
  | _ :: rest => skeleton rest

/-- Whether a mark belongs to a scan: a conversion, a `createModel` call, or one of the
events `progress`, `capture_failed`, `ready_for_confirmation`. -/
def Mark.isScan : Mark → Bool
  | Mark.conv _ => true
  | Mark.create => true
  | Mark.event status _ =>
    decide (status = "progress" ∨ status = "capture_failed" ∨
      status = "ready_for_confirmation")

/-- A trace without any mark of a scan. -/
def NoScanMark (tr : List Action) : Prop :=
  (skeleton tr).all (fun m => !m.isScan) = true

/-- The buffer that claim C36 assigns to scan `k`: scans 1 and 2 go to buffer 1, scan 3 to
buffer 2. -/
def specBuffer (k : Nat) : Nat :=
  if k = 3 then 2 else 1

/-- Number of `started` events of a trace. -/
def startedCount (tr : List Action) : Nat :=
  tr.countP isStarted

/-- One if the state can still reach the `createModel` call of scan 3 without a new
`start` (a live session at one of the three scan steps), zero otherwise. -/
def createBudget (s : State) : Nat :=
  if s.enrollmentInProgress = true ∧ s.enrollmentCancelled = false ∧
      (s.enrollmentStep = 0 ∨ s.enrollmentStep = 1 ∨ s.enrollmentStep = 2) then 1
  else 0

/-- What one call of the enrollment tick, entered at step counter `step`, does in terms of
conversions, model creation and scan events. -/
def TickShape (step : Int) (i : EnrollInput) (r : State × List Action) : Prop :=
  NoScanMark r.2 ∨
  ∃ k : Nat, (k = 1 ∨ k = 2 ∨ k = 3) ∧ step = (k : Int) - 1 ∧
    (skeleton r.2 = [Mark.conv (specBuffer k), Mark.event "capture_failed" (some k)] ∨
     (k ≠ 3 ∧ skeleton r.2 = [Mark.conv (specBuffer k), Mark.event "progress" (some k)] ∧
       r.1.enrollmentStep = k) ∨
     (k = 3 ∧ skeleton r.2 =
         [Mark.conv (specBuffer k), Mark.event "progress" (some k), Mark.create,
          Mark.event "ready_for_confirmation" (some 3)] ∧
       i.modelP = FINGERPRINT_OK ∧ r.1.enrollmentStep = 3) ∨
     (k = 3 ∧ skeleton r.2 =
         [Mark.conv (specBuffer k), Mark.event "progress" (some k), Mark.create,
          Mark.event "error" none] ∧
       i.modelP ≠ FINGERPRINT_OK ∧ r.1.enrollmentInProgress = false))

/-! ## Saved messages -/

/-- An `enrollment_saved` message that names a template other than the session's. -/
def savedForOther : Doc := { status := some "enrollment_saved", template_id := some "OTHER" }

/-- The state that the handlers of `enrollment_saved` leave: the three session flags are
false, the slot is 0 and the template id is empty; every other field is that of `s`. -/
def State.saved (s : State) : State :=
  { s with enrollmentInProgress := false,
           enrollmentCancelled := false,
           enrollmentConfirmed := false,
           enrollID := 0,
           enrollmentTemplateID := "" }

/-! ## The HTTP variant (`Fingerprint.cpp`) -/

/-- Body of the POST request as `handleEnroll` of `Fingerprint.cpp` sees it: the `plain`
argument is absent, does not parse, or parses to a document; of the document the handler
reads the keys `slot` (as `int`, 0 when absent) and `template_id`. -/
inductive HttpBody where
  | absent
  | malformed
  | json (d : Doc)
  deriving DecidableEq, Repr

/-- Globals of `Fingerprint.cpp` (lines 35-40). -/
structure HttpState where
  enrollID : Int
  enrollmentTemplateID : String
  enrollmentInProgress : Bool
  currentScanStep : Int
  enrollmentStartTime : Nat
  fingerDetectionStartTime : Nat
  deriving DecidableEq, Repr

/-- Initial values of the globals of `Fingerprint.cpp`. -/
def HttpState.init : HttpState :=
  { enrollID := 0, enrollmentTemplateID := "", enrollmentInProgress := false,
    currentScanStep := 0, enrollmentStartTime := 0, fingerDetectionStartTime := 0 }

/-- Externally visible actions of `Fingerprint.cpp`, in program order: the HTTP response
(`server.send` with the status code and the `success` and text fields of its body), the
progress and completion POSTs to the backend, and the sensor calls. -/
inductive HttpAction where
  | send (code : Nat) (success : Bool) (text : String)
  | progress (enrollment_id : String) (slot : Int) (success : Bool) (quality : Int)
      (message : String)
  | completion (enrollment_id : String) (fingerprint_id : Int)
  | getImage
  | image2Tz (buffer : Int)
  | createModel
  | storeModel (id : Int)
  | fingerFastSearch
  deriving DecidableEq, Repr

/-- `startEnrollmentProcess` (Fingerprint.cpp lines 381-391). -/
def startEnrollmentProcess (now : Nat) (s : HttpState) : HttpState :=
  { s with currentScanStep := 1, enrollmentStartTime := now, fingerDetectionStartTime := now }

/-- `handleEnroll` (Fingerprint.cpp lines 292-333); `now` is the clock reading of
`startEnrollmentProcess`. -/
def handleEnroll (body : HttpBody) (now : Nat) (s : HttpState) :
    HttpState × List HttpAction :=
  match body with
  | HttpBody.absent => (s, [HttpAction.send 400 false "No JSON received"])
  | HttpBody.malformed => (s, [HttpAction.send 400 false "Invalid JSON"])
  | HttpBody.json doc =>
    let s := { s with enrollID := doc.slot.getD 0,
                      enrollmentTemplateID := doc.template_id.getD "" }
    let s := { s with enrollmentInProgress := true }
    (startEnrollmentProcess now s,
     [HttpAction.send 200 true "Enrollment started - waiting for 5 scans"])

/-- `sendProgressToDjango` (Fingerprint.cpp lines 336-378): nothing is sent while WiFi is
disconnected. -/
def sendProgressToDjango (wifi : Bool) (s : HttpState) (scanStep : Int) (success : Bool)
    (quality : Int) (message : String) : List HttpAction :=
  if !wifi then []
  else [HttpAction.progress s.enrollmentTemplateID scanStep success quality message]

/-- `finishEnrollment` (Fingerprint.cpp lines 515-553). -/
def finishEnrollment (wifi : Bool) (s : HttpState) : HttpState × List HttpAction :=
  ({ s with enrollmentInProgress := false, currentScanStep := 0 },
   if wifi then [HttpAction.completion s.enrollmentTemplateID s.enrollID] else [])

/-- Sensor results and clock readings consumed by one call of `processEnrollmentStep`:
`now` is the clock at entry, `later` the clock after the finger-removal wait, `p` the
result of `getImage`, `conv` of `image2Tz`, `modelP` of `createModel`, `storeP` of
`storeModel`, `rnd` the value of `random(0, 21)`, `held` the number of further captures
that still see the finger during the removal wait, `wifi` whether WiFi is connected
during the call. -/
structure StepInput where
  now : Nat
  later : Nat
  wifi : Bool
  p : Int
  conv : Int
  modelP : Int
  storeP : Int
  rnd : Nat
  held : Nat
  deriving DecidableEq, Repr

/-- `processEnrollmentStep` (Fingerprint.cpp lines 394-513).  The sensor library takes the
buffer of `image2Tz` as `uint8_t` and the location of `storeModel` as `uint16_t`, so the
`int` arguments are recorded modulo 256 and modulo 65536. -/
def processEnrollmentStep (i : StepInput) (s : HttpState) : HttpState × List HttpAction :=
  if sub32 i.now s.fingerDetectionStartTime > 40000 then
    ({ s with enrollmentInProgress := false, currentScanStep := 0 },
     sendProgressToDjango i.wifi s s.currentScanStep false 0
       "Timeout - no finger detected. Please try again.")
  else if i.p = FINGERPRINT_OK then
    let slot : Int := if s.currentScanStep ≤ 2 then s.currentScanStep else 1
    let a0 : List HttpAction := [HttpAction.getImage, HttpAction.image2Tz (slot % 256)]
    if i.conv ≠ FINGERPRINT_OK then
      ({ s with enrollmentInProgress := false, currentScanStep := 0 },
       a0 ++ sendProgressToDjango i.wifi s s.currentScanStep false 0
         "Image processing failed. Please try again.")
    else if s.currentScanStep = 2 ∧ i.modelP ≠ FINGERPRINT_OK then
      ({ s with enrollmentInProgress := false, currentScanStep := 0 },
       a0 ++ [HttpAction.createModel] ++
         sendProgressToDjango i.wifi s s.currentScanStep false 0
           "Scans don't match. Please scan the same finger again.")
    else if s.currentScanStep = 2 ∧ i.storeP ≠ FINGERPRINT_OK then
      ({ s with enrollmentInProgress := false, currentScanStep := 0 },
       a0 ++ [HttpAction.createModel, HttpAction.storeModel (s.enrollID % 65536)] ++
         sendProgressToDjango i.wifi s s.currentScanStep false 0
           "Failed to store fingerprint template")
    else
      let a1 : List HttpAction :=
        if s.currentScanStep = 2 then
          [HttpAction.createModel, HttpAction.storeModel (s.enrollID % 65536)]
        else []
      let a2 : List HttpAction :=
        if s.currentScanStep ≥ 3 then [HttpAction.fingerFastSearch] else []
      let quality : Int := 80 + ((i.rnd % 21 : Nat) : Int)
      let stageName : String := if s.currentScanStep ≤ 2 then "Template" else "Verify"
      let message : String :=
        stageName ++ " - Scan " ++ toString s.currentScanStep ++ "/5 captured"
      let a3 := sendProgressToDjango i.wifi s s.currentScanStep true quality message
      let a4 : List HttpAction := List.replicate (min i.held 40 + 1) HttpAction.getImage
      let s1 := { s with currentScanStep := s.currentScanStep + 1 }
      if s1.currentScanStep ≤ 5 then
        ({ s1 with fingerDetectionStartTime := i.later }, a0 ++ a1 ++ a2 ++ a3 ++ a4)
      else
        ((finishEnrollment i.wifi s1).1,
         a0 ++ a1 ++ a2 ++ a3 ++ a4 ++ (finishEnrollment i.wifi s1).2)
  else
    (s, [HttpAction.getImage])

/-- A session of the HTTP variant in progress for slot 5 that has taken its first scan. -/
def httpSessionAtScan2 : HttpState :=
  (processEnrollmentStep
    { now := 2000, later := 2400, wifi := true, p := 0, conv := 0, modelP := 0, storeP := 0,
      rnd := 7, held := 0 }
    (handleEnroll (HttpBody.json { slot := some 5, template_id := some "A" }) 1000
      HttpState.init).1).1

/-- Sensor input of a good scan of the HTTP variant at clock reading `t`. -/
def StepInput.good (t : Nat) : StepInput :=
  { now := t, later := t + 400, wifi := true, p := 0, conv := 0, modelP := 0, storeP := 0,
    rnd := 7, held := 0 }

/-! ## Scenarios of an early confirm and of a restarted session -/

/-- After the `confirm` that arrived before any scan, the three scans are made and the
loop runs once more; no further message arrives. -/
def scansAfterConfirmBeforeScans : List LoopInput :=
  [ iteration 1900 none (EnrollInput.allOk 1900),
    iteration 2200 none (EnrollInput.noFinger 2200),
    iteration 4300 none (EnrollInput.allOk 4300),
    iteration 4600 none (EnrollInput.noFinger 4600),
    iteration 6700 none (EnrollInput.allOk 6700),
    iteration 7000 none (EnrollInput.allOk 7000) ]

/-- Scan 1 of a session for slot 5 is accepted and the session is cancelled; a session for
slot 7 is then started and its scans are made. -/
def restartAfterScan1 : List LoopInput :=
  cancelAfterScan1 ++
  [ iteration 1900 (some (startRequest 7 "B")) (EnrollInput.noFinger 1900),
    iteration 4000 none (EnrollInput.allOk 4000),
    iteration 4300 none (EnrollInput.noFinger 4300),
    iteration 6400 none (EnrollInput.allOk 6400) ]

/-- The scan marks of a trace: conversions, `createModel` calls and scan events. -/
def scanMarks (tr : List Action) : List Mark :=
  (skeleton tr).filter Mark.isScan

/-! # Theorems -/

/-! ## Traces -/

theorem lastStarted_append (l : Option Int) (a b : List Action) :
    lastStarted l (a ++ b) = lastStarted (lastStarted l a) b := by
  induction a generalizing l with
  | nil => rfl
  | cons x xs ih => simp [lastStarted, ih]

theorem storesOk_append (cap : Int) (l : Option Int) (a b : List Action) :
    storesOk cap l (a ++ b) ↔ storesOk cap l a ∧ storesOk cap (lastStarted l a) b := by
  induction a generalizing l with
  | nil => simp [storesOk, lastStarted]
  | cons x xs ih => simp [storesOk, lastStarted, ih, and_assoc]

theorem quiet_step (l : Option Int) (a : Action) (h : a.quiet = true) :
    lastStartedStep l a = l := by
  cases a with
  | publish t p r => cases t <;> simp_all [Action.quiet, lastStartedStep]
  | _ => rfl

theorem quiet_storeOk (cap : Int) (l : Option Int) (a : Action) (h : a.quiet = true) :
    storeOk cap l a := by
  cases a <;> simp_all [Action.quiet, storeOk]

theorem quiet_trace (cap : Int) (l : Option Int) (tr : List Action)
    (h : tr.all Action.quiet = true) :
    lastStarted l tr = l ∧ storesOk cap l tr := by
  induction tr with
  | nil => exact ⟨rfl, trivial⟩
  | cons x xs ih =>
    simp only [List.all_cons, Bool.and_eq_true] at h
    have hx := quiet_step l x h.1
    refine ⟨?_, ?_⟩
    · simp only [lastStarted, hx]; exact (ih h.2).1
    · simp only [storesOk, hx]; exact ⟨quiet_storeOk cap l x h.1, (ih h.2).2⟩

/-! ## The attendance tick leaves the enrollment state alone -/

theorem view_att (s : State) (a b : Nat) (c d : Int) (e : Bool) (f g : Nat) :
    ({ s with lastScanTime := a, lastDebugTime := b, lastCandidateId := c, stableReads := d,
              requireFingerRemoval := e, lastPublishMs := f, lastHintMs := g } : State).view
      = s.view := rfl

theorem publishHint_frame (now limit : Nat) (c : Int) (reason : String) (s : State) :
    (publishHint now limit c reason s).1.view = s.view ∧
    (publishHint now limit c reason s).2.all Action.quiet = true := by
  unfold publishHint
  split_ifs <;> simp [State.view, pubDetect, Action.quiet]

theorem confirmAttempts_quiet (fid : Int) (rs : List ConfirmReading) (sr : Int) :
    (confirmAttempts fid rs sr).2.all Action.quiet = true := by
  induction rs generalizing sr with
  | nil => simp [confirmAttempts]
  | cons r rest ih =>
    unfold confirmAttempts
    split_ifs <;> simp [Action.quiet, ih]

theorem stableReadStage_frame (i : AttendInput) (s : State) :
    (stableReadStage i s).1.view = s.view ∧
    (stableReadStage i s).2.all Action.quiet = true := by
  have h1 := fun l c r s => (publishHint_frame i.now l c r s).1
  have h2 := fun l c r s => (publishHint_frame i.now l c r s).2
  have h3 := confirmAttempts_quiet (i.fingerID : Int) [i.confirm0, i.confirm1]
  unfold stableReadStage
  dsimp only
  split_ifs <;> simp [view_att, h1, h2, h3, List.all_append]

theorem attendanceMatch_frame (i : AttendInput) (s : State) (pre : List Action)
    (hpre : pre.all Action.quiet = true) :
    (attendanceMatch i s pre).1.view = s.view ∧
    (attendanceMatch i s pre).2.all Action.quiet = true := by
  have h1 := fun l c r s => (publishHint_frame i.now l c r s).1
  have h2 := fun l c r s => (publishHint_frame i.now l c r s).2
  have h3 := stableReadStage_frame i s
  unfold attendanceMatch
  dsimp only
  split_ifs <;> simp [view_att, h1, h2, h3, hpre, List.all_append, pubDetect, Action.quiet]

theorem attendanceOutcome_frame (i : AttendInput) (p3 : Int) (pre : List Action) (s : State)
    (hpre : pre.all Action.quiet = true) :
    (attendanceOutcome i p3 pre s).1.view = s.view ∧
    (attendanceOutcome i p3 pre s).2.all Action.quiet = true := by
  have h1 := fun l c r s => (publishHint_frame i.now l c r s).1
  have h2 := fun l c r s => (publishHint_frame i.now l c r s).2
  have h3 := attendanceMatch_frame i s pre hpre
  unfold attendanceOutcome
  dsimp only
  split_ifs <;> simp [view_att, h1, h2, h3, hpre, List.all_append, pubDetect, Action.quiet]

theorem attendanceSearch_frame (i : AttendInput) (s : State) :
    (attendanceSearch i s).1.view = s.view ∧
    (attendanceSearch i s).2.all Action.quiet = true := by
  unfold attendanceSearch
  split_ifs
  · exact attendanceOutcome_frame i _ _ s (by simp [Action.quiet])
  · exact attendanceOutcome_frame i _ _ s (by simp [Action.quiet])

theorem attendanceScanning_frame (i : AttendInput) (s : State) :
    (attendanceScanning i s).1.view = s.view ∧
    (attendanceScanning i s).2.all Action.quiet = true := by
  have h1 := fun l c r s => (publishHint_frame i.now l c r s).1
  have h2 := fun l c r s => (publishHint_frame i.now l c r s).2
  have h3 := fun s => attendanceSearch_frame i s
  unfold attendanceScanning
  dsimp only
  split_ifs <;> simp [view_att, h1, h2, h3, List.all_append, pubDetect, Action.quiet]

/-! ## The enrollment tick -/

theorem enrollScan1_facts (i : EnrollInput) (s : State) : BranchFacts s (enrollScan1 i s) := by
  unfold enrollScan1
  dsimp only
  split_ifs <;> constructor <;>
    simp_all [storeCalls, isStarted, pubEnroll]

theorem enrollScan2_facts (i : EnrollInput) (s : State) : BranchFacts s (enrollScan2 i s) := by
  unfold enrollScan2
  dsimp only
  split_ifs <;> constructor <;>
    simp_all [storeCalls, isStarted, pubEnroll]

theorem enrollScan3_facts (i : EnrollInput) (s : State) : BranchFacts s (enrollScan3 i s) := by
  unfold enrollScan3
  dsimp only
  split_ifs <;> constructor <;>
    simp_all [storeCalls, isStarted, pubEnroll]

theorem enrollConfirm_facts (i : EnrollInput) (s : State) : BranchFacts s (enrollConfirm i s) := by
  unfold enrollConfirm
  split_ifs <;> constructor <;>
    simp_all [storeCalls, isStarted, pubEnroll]


theorem enrollScan1_noStore (i : EnrollInput) (s : State) :
    storeCalls (enrollScan1 i s).2 = [] := by
  unfold enrollScan1
  dsimp only
  split_ifs <;> simp [storeCalls, pubEnroll]

theorem enrollScan2_noStore (i : EnrollInput) (s : State) :
    storeCalls (enrollScan2 i s).2 = [] := by
  unfold enrollScan2
  dsimp only
  split_ifs <;> simp [storeCalls, pubEnroll]

theorem enrollScan3_noStore (i : EnrollInput) (s : State) :
    storeCalls (enrollScan3 i s).2 = [] := by
  unfold enrollScan3
  dsimp only
  split_ifs <;> simp [storeCalls, pubEnroll]

theorem enrollDispatch_facts (i : EnrollInput) (s : State) :
    BranchFacts s (enrollDispatch i s) := by
  unfold enrollDispatch
  split_ifs
  · exact enrollScan1_facts i s
  · exact enrollScan2_facts i s
  · exact enrollScan3_facts i s
  · exact enrollConfirm_facts i s
  · constructor <;> simp_all [storeCalls]

theorem enrollDispatch_noStore (i : EnrollInput) (s : State) (h : s.enrollmentStep ≠ 3) :
    storeCalls (enrollDispatch i s).2 = [] := by
  unfold enrollDispatch
  split_ifs
  · exact enrollScan1_noStore i s
  · exact enrollScan2_noStore i s
  · exact enrollScan3_noStore i s
  · rfl

theorem storeCalls_append (a b : List Action) :
    storeCalls (a ++ b) = storeCalls a ++ storeCalls b := by
  induction a with
  | nil => rfl
  | cons x xs ih => cases x <;> simp [storeCalls, ih]

theorem fingerReleased_fields (i : EnrollInput) (s : State) :
    (fingerReleased i s).enrollID = s.enrollID ∧
    (fingerReleased i s).enrollmentTemplateID = s.enrollmentTemplateID ∧
    (fingerReleased i s).enrollmentInProgress = s.enrollmentInProgress ∧
    (fingerReleased i s).enrollmentCancelled = s.enrollmentCancelled ∧
    (fingerReleased i s).enrollmentConfirmed = s.enrollmentConfirmed ∧
    (fingerReleased i s).enrollmentStep = s.enrollmentStep ∧
    (fingerReleased i s).modelCreated = s.modelCreated ∧
    (fingerReleased i s).requireFingerRelease = false := by
  unfold fingerReleased
  split_ifs <;> simp_all

theorem enrollFingerprint_facts (i : EnrollInput) (s : State) :
    TickFacts s (enrollFingerprint i s) := by
  unfold enrollFingerprint
  dsimp only
  by_cases h0 : sub32 i.now s.lastStep < 200
  · rw [if_pos h0]; constructor <;> simp [storeCalls]
  rw [if_neg h0]
  by_cases h1 : s.enrollmentInProgress = true
  swap
  · simp only [Bool.not_eq_true] at h1
    simp only [h1, Bool.not_false, if_true]
    constructor <;> simp [storeCalls]
  by_cases h2 : s.enrollmentCancelled = true
  · simp only [h1, h2, Bool.not_true, Bool.false_eq_true, if_true, if_false]
    constructor <;> simp [storeCalls, h1, h2]
  have c1 : ¬ ((!s.enrollmentInProgress) = true) := by simp [h1]
  rw [if_neg c1, if_neg h2]
  simp only [Bool.not_eq_true] at h2
  by_cases h3 : s.requireFingerRelease = true ∧ i.rp ≠ FINGERPRINT_NOFINGER
  · rw [if_pos h3]
    constructor <;> simp_all [storeCalls, isStarted]
  rw [if_neg h3]
  generalize hs1 : ({ s with lastStep := i.now } : State) = s1
  have e1 : s1.enrollID = s.enrollID := by rw [← hs1]
  have e2 : s1.enrollmentTemplateID = s.enrollmentTemplateID := by rw [← hs1]
  have e3 : s1.enrollmentInProgress = s.enrollmentInProgress := by rw [← hs1]
  have e4 : s1.enrollmentCancelled = s.enrollmentCancelled := by rw [← hs1]
  have e5 : s1.enrollmentConfirmed = s.enrollmentConfirmed := by rw [← hs1]
  have e6 : s1.enrollmentStep = s.enrollmentStep := by rw [← hs1]
  have e7 : s1.modelCreated = s.modelCreated := by rw [← hs1]
  obtain ⟨f1, f2, f3, f4, f5, f6, f7, f8⟩ := fingerReleased_fields i s1
  have B := enrollDispatch_facts i (fingerReleased i s1)
  have N := enrollDispatch_noStore i (fingerReleased i s1)
  have ha0 : storeCalls (if s.requireFingerRelease = true then [Action.getImage] else []) = [] := by
    split_ifs <;> rfl
  have hb0 : (if s.requireFingerRelease = true then [Action.getImage] else []).all
      (fun a => !isStarted a) = true := by
    split_ifs <;> rfl
  have Bs := B.stores
  have Bk := B.keeps
  have Bc := B.conf
  have B3 := B.step3 f8
  rw [f1, f5, f7, e1, e5, e7] at Bs
  rw [f1, f2, f3, f4, f5, e1, e2, e3, e4, e5] at Bk
  rw [f5, e5] at Bc
  rw [f6, f7, e6, e7] at B3
  rw [f6, e6] at N
  constructor
  · simp only [List.all_append, hb0, B.noStart, Bool.and_self]
  · simp only [storeCalls_append, ha0, List.nil_append]
    by_cases hst : s.enrollmentStep = 3
    · rcases Bs with h | ⟨ha, hb, hc, hd⟩
      · exact Or.inl h
      · exact Or.inr ⟨ha, h1, h2, hb, hc, hst, hd⟩
    · exact Or.inl (N hst)
  · exact Bk
  · exact Bc
  · intro hpre h3'
    exact B3 (fun h => (hpre h).1) h3'

/-! ## Preservation along executions -/

theorem handleDetectionRequest_frame (now : Nat) (doc : Doc) (s : State) :
    (handleDetectionRequest now doc s).1.view = s.view ∧
    (handleDetectionRequest now doc s).2.all Action.quiet = true := by
  unfold handleDetectionRequest publishStatus
  dsimp only
  constructor
  · split_ifs
    · split
      · split_ifs <;> rfl
      · rfl
    · rfl
    · rfl
  · simp [Action.quiet]

theorem handleCommand_frame (wifiOk : Bool) (doc : Doc) (s : State)
    (h : doc.command.getD "" ≠ "restart") :
    (handleCommand wifiOk doc s).1 = s ∧
    (handleCommand wifiOk doc s).2.all Action.quiet = true := by
  unfold handleCommand
  dsimp only
  rw [if_neg h]
  split_ifs <;> simp [Action.quiet]

theorem callback_preserves (cap : Nat) (ok : LoopInput → Prop)
    (R : State → List Action → Prop) (P : Preserved cap ok R)
    (i : LoopInput) (m : Inbound) (s : State) (tr : List Action) (hok : ok i)
    (hm : i.inbound = some m) (h : R s tr) :
    R (callback cap i.now i.wifiOk m s).1 (tr ++ (callback cap i.now i.wifiOk m s).2) := by
  obtain ⟨topic, payload⟩ := m
  unfold callback
  cases payload with
  | empty => simpa using h
  | malformed => simpa using h
  | json doc =>
    dsimp only
    split_ifs with h1 h2 h3 h4 h5
    · subst h1
      exact P.request i doc s tr hok hm h
    · unfold handleEnrollmentResponse
      dsimp only
      split_ifs
      · simpa using P.saved s tr h
      · simpa using h
    · unfold handleEnrollmentCompletion
      dsimp only
      split_ifs
      · simpa using P.saved s tr h
      · simpa using h
    · exact P.frame s _ tr _ (handleDetectionRequest_frame i.now doc s).1
        (handleDetectionRequest_frame i.now doc s).2 h
    · by_cases hr : doc.command.getD "" = "restart"
      · have : handleCommand i.wifiOk doc s = (State.init, [Action.restart]) := by
          unfold handleCommand
          dsimp only
          rw [if_pos hr]
        rw [this]
        exact P.restart s tr h
      · obtain ⟨e1, e2⟩ := handleCommand_frame i.wifiOk doc s hr
        exact P.frame s _ tr _ (by rw [e1]) e2 h
    · simpa using h

theorem loop_preserves (cap : Nat) (ok : LoopInput → Prop)
    (R : State → List Action → Prop) (P : Preserved cap ok R)
    (i : LoopInput) (s : State) (tr : List Action) (hok : ok i) (h : R s tr) :
    R (loop cap i s).1 (tr ++ (loop cap i s).2) := by
  unfold loop
  dsimp only
  -- inbound message
  generalize hr1 : (match i.inbound with
    | none => (s, [])
    | some m => callback cap i.now i.wifiOk m s) = r1
  have H1 : R r1.1 (tr ++ r1.2) := by
    rw [← hr1]
    cases hm : i.inbound with
    | none => simpa using h
    | some m => exact callback_preserves cap ok R P i m s tr hok hm h
  -- periodic status
  generalize hr2 : (if (!r1.1.enrollmentInProgress) = true ∧
      sub32 i.now r1.1.lastStatusPublish > 30000 then
      ({ r1.1 with lastStatusPublish := i.now }, publishStatus i.now r1.1)
    else (r1.1, [])) = r2
  have H2 : R r2.1 (tr ++ r1.2 ++ r2.2) := by
    rw [← hr2]
    split_ifs
    · exact P.frame r1.1 _ _ _ rfl (by simp [publishStatus, Action.quiet]) H1
    · simpa using H1
  -- enrollment tick
  generalize hr3 : (if r2.1.enrollmentInProgress = true ∧ (!r2.1.enrollmentCancelled) = true then
      enrollFingerprint i.enroll r2.1
    else (r2.1, [])) = r3
  have H3 : R r3.1 (tr ++ r1.2 ++ r2.2 ++ r3.2) := by
    rw [← hr3]
    split_ifs with hc
    · exact P.tick i r2.1 _ hok hc.1 (by simpa using hc.2) H2
    · simpa using H2
  -- attendance tick
  have H4 : R (if r3.1.detectionMode = 2 then attendanceScanning i.attend r3.1
      else (r3.1, [])).1 (tr ++ r1.2 ++ r2.2 ++ r3.2 ++ (if r3.1.detectionMode = 2 then
        attendanceScanning i.attend r3.1 else (r3.1, [])).2) := by
    split_ifs
    · exact P.frame r3.1 _ _ _ (attendanceScanning_frame i.attend r3.1).1
        (attendanceScanning_frame i.attend r3.1).2 H3
    · simpa using H3
  simpa [List.append_assoc] using H4

theorem run_preserves (cap : Nat) (ok : LoopInput → Prop)
    (R : State → List Action → Prop) (P : Preserved cap ok R)
    (inputs : List LoopInput) (hok : ∀ i ∈ inputs, ok i) (s : State) (tr : List Action)
    (h : R s tr) :
    R (run cap inputs s).1 (tr ++ (run cap inputs s).2) := by
  induction inputs generalizing s tr with
  | nil => simpa [run] using h
  | cons i rest ih =>
    have h1 := loop_preserves cap ok R P i s tr (hok i (List.mem_cons_self _ _)) h
    have h2 := ih (fun j hj => hok j (List.mem_cons_of_mem _ hj)) _ _ h1
    simpa [run, List.append_assoc] using h2

/-! ## The slot invariant -/

theorem storeCalls_quiet (a : List Action) (h : a.all Action.quiet = true) :
    storeCalls a = [] := by
  induction a with
  | nil => rfl
  | cons x xs ih =>
    simp only [List.all_cons, Bool.and_eq_true] at h
    cases x <;> simp_all [storeCalls, Action.quiet]

theorem noStart_step (l : Option Int) (a : Action) (h : isStarted a = false) :
    lastStartedStep l a = l := by
  unfold lastStartedStep
  split
  · rename_i r b
    simp only [isStarted, decide_eq_false_iff_not] at h
    rw [if_neg h]
  · rfl

theorem noStart_trace (cap : Int) (l : Option Int) (a : List Action)
    (h : a.all (fun x => !isStarted x) = true) :
    lastStarted l a = l ∧
    (storesOk cap l a ↔ ∀ id ∈ storeCalls a, l = some id ∧ 1 ≤ id ∧ id ≤ cap) := by
  induction a with
  | nil => simp [lastStarted, storesOk, storeCalls]
  | cons x xs ih =>
    simp only [List.all_cons, Bool.and_eq_true, Bool.not_eq_true'] at h
    have hx := noStart_step l x h.1
    obtain ⟨ih1, ih2⟩ := ih h.2
    refine ⟨by simp only [lastStarted, hx, ih1], ?_⟩
    simp only [storesOk, hx, ih2]
    cases x <;> simp [storeOk, storeCalls]

theorem slotInv_preserved (cap : Nat) : Preserved cap (fun _ => True) (SlotInv cap) where
  frame := by
    intro s t tr a hv ha h
    have e1 : t.enrollmentInProgress = s.enrollmentInProgress :=
      congrArg EnrollView.enrollmentInProgress hv
    have e2 : t.enrollID = s.enrollID := congrArg EnrollView.enrollID hv
    obtain ⟨q1, q2⟩ := quiet_trace (slotCapacity cap) (lastStarted none tr) a ha
    refine ⟨(storesOk_append _ _ _ _).2 ⟨h.1, q2⟩, ?_⟩
    rw [lastStarted_append, q1, e1, e2]
    exact h.2
  tick := by
    intro i s tr _ hin _ h
    have F := enrollFingerprint_facts i.enroll s
    obtain ⟨n1, n2⟩ := noStart_trace (slotCapacity cap) (lastStarted none tr) _ F.noStart
    obtain ⟨k1, k2, k3⟩ := h.2 hin
    refine ⟨(storesOk_append _ _ _ _).2 ⟨h.1, n2.2 ?_⟩, ?_⟩
    · intro id hid
      rcases F.stores with hs | ⟨hs, _⟩
      · rw [hs] at hid; cases hid
      · rw [hs] at hid
        simp only [List.mem_singleton] at hid
        subst hid
        exact ⟨k1, k2, k3⟩
    · intro hin2
      obtain ⟨_, e2, _⟩ := F.keeps hin2
      rw [lastStarted_append, n1, e2]
      exact ⟨k1, k2, k3⟩
  request := by
    intro i doc s tr _ _ h
    unfold handleEnrollmentRequest
    dsimp only
    split_ifs with h1 h2 h3 h4 h5
    · refine ⟨(storesOk_append _ _ _ _).2 ⟨h.1, by simp [storesOk, storeOk, pubEnroll]⟩, ?_⟩
      intro hin
      have := h.2 hin
      simpa [lastStarted_append, lastStarted, lastStartedStep, pubEnroll] using this
    · refine ⟨(storesOk_append _ _ _ _).2 ⟨h.1, by simp [storesOk, storeOk, pubEnroll]⟩, ?_⟩
      intro hin
      exact absurd hin h2
    · refine ⟨(storesOk_append _ _ _ _).2 ⟨h.1, by simp [storesOk, storeOk, pubEnroll]⟩, ?_⟩
      intro _
      simp only [not_or, not_lt, gt_iff_lt] at h3
      simp [lastStarted_append, lastStarted, lastStartedStep, pubEnroll, h3.1, h3.2]
    · simpa [SlotInv] using h
    · refine ⟨(storesOk_append _ _ _ _).2 ⟨h.1, by simp [storesOk, storeOk, pubEnroll]⟩, ?_⟩
      intro hin
      simp at hin
    · simpa using h
  saved := by
    intro s tr h
    exact ⟨h.1, by intro hin; simp at hin⟩
  restart := by
    intro s tr h
    refine ⟨(storesOk_append _ _ _ _).2 ⟨h.1, by simp [storesOk, storeOk]⟩, ?_⟩
    intro hin
    simp [State.init] at hin

theorem storesOk_split (cap : Int) (l : Option Int) (pre post : List Action) (id : Int)
    (h : storesOk cap l (pre ++ Action.storeModel id :: post)) :
    lastStarted l pre = some id ∧ 1 ≤ id ∧ id ≤ cap := by
  have := ((storesOk_append cap l pre _).1 h).2
  simp only [storesOk, storeOk] at this
  exact this.1

/-! ## Idle, unconfirmed and confirmation invariants -/

theorem requestAction_of_inbound (i : LoopInput) (doc : Doc)
    (h : i.inbound = some { topic := Topic.enroll_request, payload := InPayload.json doc }) :
    requestAction i = some (doc.action.getD "start") := by
  simp [requestAction, h]

theorem idleNoStore_preserved (cap : Nat) :
    Preserved cap (fun i => requestAction i ≠ some "start") IdleNoStore where
  frame := by
    intro s t tr a hv ha h
    have e1 : t.enrollmentInProgress = s.enrollmentInProgress :=
      congrArg EnrollView.enrollmentInProgress hv
    exact ⟨e1.trans h.1, by rw [storeCalls_append, h.2, storeCalls_quiet a ha]; rfl⟩
  tick := by
    intro i s tr _ hin _ h
    rw [h.1] at hin
    cases hin
  request := by
    intro i doc s tr hok hm h
    rw [requestAction_of_inbound i doc hm] at hok
    have hns : ¬ doc.action.getD "start" = "start" := fun e => hok (by rw [e])
    unfold handleEnrollmentRequest
    dsimp only
    rw [if_neg hns]
    split_ifs
    · exact ⟨h.1, by simpa using h.2⟩
    · exact ⟨rfl, by simp [storeCalls_append, h.2, storeCalls, pubEnroll]⟩
    · simpa using h
  saved := by
    intro s tr h
    exact ⟨rfl, h.2⟩
  restart := by
    intro s tr h
    exact ⟨rfl, by simp [storeCalls_append, h.2, storeCalls]⟩

theorem unconfirmedNoStore_preserved (cap : Nat) :
    Preserved cap (fun i => requestAction i ≠ some "confirm") UnconfirmedNoStore where
  frame := by
    intro s t tr a hv ha h
    have e1 : t.enrollmentConfirmed = s.enrollmentConfirmed :=
      congrArg EnrollView.enrollmentConfirmed hv
    exact ⟨e1.trans h.1, by rw [storeCalls_append, h.2, storeCalls_quiet a ha]; rfl⟩
  tick := by
    intro i s tr _ _ _ h
    have F := enrollFingerprint_facts i.enroll s
    refine ⟨?_, ?_⟩
    · cases hc : (enrollFingerprint i.enroll s).1.enrollmentConfirmed with
      | false => rfl
      | true => have := F.conf hc; rw [h.1] at this; cases this
    · rw [storeCalls_append, h.2]
      rcases F.stores with hs | ⟨_, _, _, hc, _⟩
      · rw [hs]; rfl
      · rw [h.1] at hc; cases hc
  request := by
    intro i doc s tr hok hm h
    rw [requestAction_of_inbound i doc hm] at hok
    have hns : ¬ doc.action.getD "start" = "confirm" := fun e => hok (by rw [e])
    unfold handleEnrollmentRequest
    dsimp only
    split_ifs
    · exact ⟨h.1, by simp [storeCalls_append, h.2, storeCalls, pubEnroll]⟩
    · exact ⟨h.1, by simp [storeCalls_append, h.2, storeCalls, pubEnroll]⟩
    · exact ⟨rfl, by simp [storeCalls_append, h.2, storeCalls, pubEnroll]⟩
    · exact ⟨rfl, by simp [storeCalls_append, h.2, storeCalls, pubEnroll]⟩
    · simpa using h
  saved := by
    intro s tr h
    exact ⟨rfl, h.2⟩
  restart := by
    intro s tr h
    exact ⟨rfl, by simp [storeCalls_append, h.2, storeCalls]⟩

theorem confirmationInv_preserved (cap : Nat) :
    Preserved cap (fun _ => True) ConfirmationInv where
  frame := by
    intro s t tr a hv _ h
    have e1 : t.enrollmentStep = s.enrollmentStep := congrArg EnrollView.enrollmentStep hv
    have e2 : t.modelCreated = s.modelCreated := congrArg EnrollView.modelCreated hv
    have e3 : t.requireFingerRelease = s.requireFingerRelease :=
      congrArg EnrollView.requireFingerRelease hv
    unfold ConfirmationInv at *
    rw [e1, e2, e3]
    exact h
  tick := by
    intro i s tr _ _ _ h
    exact (enrollFingerprint_facts i.enroll s).step3 h
  request := by
    intro i doc s tr _ _ h
    unfold handleEnrollmentRequest
    dsimp only
    split_ifs <;> exact h
  saved := by
    intro s tr h
    exact h
  restart := by
    intro s tr _ h3
    simp [State.init] at h3

/-! ## Independence of the capacity -/

theorem loop_no_inbound (cap cap2 : Nat) (i : LoopInput) (s : State) (h : i.inbound = none) :
    loop cap i s = loop cap2 i s := by
  simp only [loop, h]

theorem loop_confirm (cap cap2 : Nat) (i : LoopInput) (s : State) (tid : String)
    (h : i.inbound = some (confirmRequest tid)) :
    loop cap i s = loop cap2 i s := by
  simp [loop, h, callback, confirmRequest, handleEnrollmentRequest]

theorem handle_start_cap (cap cap2 : Nat) (doc : Doc) (s : State)
    (h1 : ¬ (doc.slot.getD 0 < 1 ∨ doc.slot.getD 0 > slotCapacity cap))
    (h2 : ¬ (doc.slot.getD 0 < 1 ∨ doc.slot.getD 0 > slotCapacity cap2)) :
    handleEnrollmentRequest cap doc s = handleEnrollmentRequest cap2 doc s := by
  simp only [handleEnrollmentRequest, h1, h2, if_false]

theorem loop_start_valid (cap cap2 : Nat) (i : LoopInput) (slot : Int) (tid : String) (s : State)
    (h : i.inbound = some (startRequest slot tid))
    (h1 : 1 ≤ slot) (h2 : slot ≤ slotCapacity cap) (h3 : slot ≤ slotCapacity cap2) :
    loop cap i s = loop cap2 i s := by
  have e1 := handle_start_cap cap cap2
    { slot := some slot, template_id := some tid, action := some "start" } s
    (by simp only [Option.getD]; omega) (by simp only [Option.getD]; omega)
  simp only [loop, h, callback, startRequest]
  simp [e1]

theorem run_congr (cap cap2 : Nat) (inputs : List LoopInput)
    (h : ∀ i ∈ inputs, ∀ s, loop cap i s = loop cap2 i s) (s : State) :
    run cap inputs s = run cap2 inputs s := by
  induction inputs generalizing s with
  | nil => rfl
  | cons i rest ih =>
    have hi := h i (List.mem_cons_self _ _)
    have hrest : ∀ j ∈ rest, ∀ s, loop cap j s = loop cap2 j s :=
      fun j hj => h j (List.mem_cons_of_mem _ hj)
    simp only [run, hi, ih hrest]

theorem scenario_cap (cap : Nat) (h : 12 ≤ slotCapacity cap) :
    run cap enrollScenario State.init = run 12 enrollScenario State.init := by
  apply run_congr
  intro i hi s
  simp only [enrollScenario, scansToConfirmation, List.cons_append, List.nil_append,
    List.mem_cons, List.mem_singleton, List.not_mem_nil, or_false] at hi
  rcases hi with rfl | rfl | rfl | rfl | rfl | rfl
  · exact loop_start_valid cap 12 _ 12 "T1" s rfl (by decide) h (by decide)
  · exact loop_no_inbound cap 12 _ s rfl
  · exact loop_no_inbound cap 12 _ s rfl
  · exact loop_no_inbound cap 12 _ s rfl
  · exact loop_no_inbound cap 12 _ s rfl
  · exact loop_confirm cap 12 _ s "T1" rfl

/-! ## The enrollment claims -/

/-- The `confirm` action only sets the confirmation flag. -/
theorem handle_confirm (cap : Nat) (doc : Doc) (s : State)
    (hdoc : doc.action.getD "start" = "confirm") :
    handleEnrollmentRequest cap doc s = ({ s with enrollmentConfirmed := true }, []) := by
  simp [handleEnrollmentRequest, hdoc]

/-- An effective tick of a live session at step 3 with no release pending runs the
confirmation branch. -/
theorem tick_at_confirmation (i : EnrollInput) (s : State)
    (hin : s.enrollmentInProgress = true) (hnc : s.enrollmentCancelled = false)
    (hstep : s.enrollmentStep = 3) (hrel : s.requireFingerRelease = false)
    (heff : ¬ sub32 i.now s.lastStep < 200) :
    enrollFingerprint i s = enrollConfirm i { s with lastStep := i.now } := by
  unfold enrollFingerprint
  simp [hin, hnc, hstep, hrel, heff, fingerReleased, enrollDispatch]

/-- Claim C1, evaluated on the code.  A session for slot 5 is built up to
AwaitingConfirmation (its `createModel` returns OK) and cancelled; `start(7, "B")` is then
accepted and confirmed.  The whole execution contains one `createModel` call, none of it
after the last `started` event, and yet `storeModel(7)` is called after that event and
`success` is published for slot 7: the model stored for the second session was built by
the first. -/
theorem store_after_restart_without_new_model :
    (enrollEvents (run 200 staleModelScenario State.init).2).map Response.summary =
      [("started", none, some 5, some "A"), ("progress", some 1, some 5, some "A"),
       ("progress", some 2, some 5, some "A"), ("progress", some 3, some 5, some "A"),
       ("ready_for_confirmation", some 3, some 5, some "A"),
       ("cancelled", none, some 5, some "A"), ("started", none, some 7, some "B"),
       ("success", none, some 7, some "B")] ∧
    createCalls (run 200 staleModelScenario State.init).2 = 1 ∧
    createCalls (sinceLastStart [] (run 200 staleModelScenario State.init).2) = 0 ∧
    storeCalls (sinceLastStart [] (run 200 staleModelScenario State.init).2) = [7] := by
  decide

/-- Claim C2, evaluated on the code.  After a session that reached AwaitingConfirmation was
ended by `cancel` (or by an `enrollment_saved` message) and the main loop ran once more, no
enrollment is in progress; handling `start(7, "B")` then marks a session in progress but
leaves the step counter at 3 with `modelCreated` true, and the next effective ticks with a
finger on the sensor publish no `progress` event: scan 1 is not processed. -/
theorem start_after_teardown_keeps_stale_step :
    (run 200 cancelAtConfirmation State.init).1.enrollmentInProgress = false ∧
    (handleEnrollmentRequest 200
        { slot := some 7, template_id := some "B", action := some "start" }
        (run 200 cancelAtConfirmation State.init).1).1.enrollmentInProgress = true ∧
    (handleEnrollmentRequest 200
        { slot := some 7, template_id := some "B", action := some "start" }
        (run 200 cancelAtConfirmation State.init).1).1.enrollmentStep = 3 ∧
    (handleEnrollmentRequest 200
        { slot := some 7, template_id := some "B", action := some "start" }
        (run 200 cancelAtConfirmation State.init).1).1.modelCreated = true ∧
    (run 200 savedAtConfirmation State.init).1.enrollmentInProgress = false ∧
    (handleEnrollmentRequest 200
        { slot := some 7, template_id := some "B", action := some "start" }
        (run 200 savedAtConfirmation State.init).1).1.enrollmentStep = 3 ∧
    (handleEnrollmentRequest 200
        { slot := some 7, template_id := some "B", action := some "start" }
        (run 200 savedAtConfirmation State.init).1).1.modelCreated = true ∧
    storeCalls (run 200 (cancelAtConfirmation ++
        [iteration 6700 (some (startRequest 7 "B")) (EnrollInput.allOk 6700),
         iteration 7000 none (EnrollInput.allOk 7000)]) State.init).2 = [] ∧
    (enrollEvents (run 200 (cancelAtConfirmation ++
        [iteration 6700 (some (startRequest 7 "B")) (EnrollInput.allOk 6700),
         iteration 7000 none (EnrollInput.allOk 7000)]) State.init).2).map Response.status =
      ["started", "progress", "progress", "progress", "ready_for_confirmation", "cancelled",
       "started"] := by
  decide

/-- Claim C3.  While an enrollment is in progress every `start` request is answered with
one `blocked` event carrying the active session's slot and template id and leaves the
whole state unchanged; and for every state, handling the same `start` twice in a row ends
in the same state as handling it once. -/
theorem start_blocked_while_in_progress (cap : Nat) (doc : Doc) (s : State)
    (hact : doc.action.getD "start" = "start") (hin : s.enrollmentInProgress = true) :
    (handleEnrollmentRequest cap doc s).1 = s ∧
    enrollEvents (handleEnrollmentRequest cap doc s).2 =
      [{ status := "blocked",
         message := some "Another student is currently enrolling. Please wait...",
         waiting_for := some "enrollment_completion",
         slot := some s.enrollID,
         template_id := some s.enrollmentTemplateID }] ∧
    (∀ s0 : State,
      (handleEnrollmentRequest cap doc (handleEnrollmentRequest cap doc s0).1).1 =
        (handleEnrollmentRequest cap doc s0).1) := by
  refine ⟨?_, ?_, ?_⟩
  · simp [handleEnrollmentRequest, hact, hin]
  · simp [handleEnrollmentRequest, hact, hin, enrollEvents, pubEnroll]
  · intro s0
    simp only [handleEnrollmentRequest, hact]
    by_cases h0 : s0.enrollmentInProgress = true
    · simp [h0]
    · by_cases hs : doc.slot.getD 0 < 1 ∨ doc.slot.getD 0 > slotCapacity cap
      · simp [h0, hs]
      · simp [h0, hs]

/-- Instance of the C3 theorem: a second `start` while the session for slot 5 awaits
confirmation. -/
theorem start_blocked_while_in_progress_witness :
    ((some "start" : Option String).getD "start" = "start" ∧
      (run 200 (scansToConfirmation 1000 5 "A") State.init).1.enrollmentInProgress = true) ∧
    (handleEnrollmentRequest 200 { slot := some 7, template_id := some "B", action := some "start" }
      (run 200 (scansToConfirmation 1000 5 "A") State.init).1).1 =
      (run 200 (scansToConfirmation 1000 5 "A") State.init).1 :=
  ⟨by decide,
   (start_blocked_while_in_progress 200
     { slot := some 7, template_id := some "B", action := some "start" } _
     (by decide) (by decide)).1⟩

/-- Counterexample to claim C4 as stated: with a session for slot 5 active,
`start` with slot 0 (outside `[1, 200]`) is answered with `blocked`, not with the
invalid-slot `error` event. -/
theorem invalid_slot_blocked_while_active :
    (enrollEvents (run 200 invalidSlotWhileActive State.init).2).map Response.summary =
      [("started", none, some 5, some "A"), ("blocked", none, some 5, some "A")] := by
  decide

/-- Claim C4 as amended.  For every slot outside `[1, capacity]` a `start` request leaves
the state unchanged; when no session is active it is answered with the invalid-slot `error`
event carrying the slot and template id of the request, and when a session is active with
the `blocked` event of that session. -/
theorem invalid_slot_rejected (cap : Nat) (doc : Doc) (s : State)
    (hact : doc.action.getD "start" = "start")
    (hslot : doc.slot.getD 0 < 1 ∨ doc.slot.getD 0 > slotCapacity cap) :
    (handleEnrollmentRequest cap doc s).1 = s ∧
    (s.enrollmentInProgress = false →
      enrollEvents (handleEnrollmentRequest cap doc s).2 =
        [{ status := "error",
           message := some ("Invalid slot number (1-" ++ toString (slotCapacity cap) ++ ")"),
           error_code := some (doc.slot.getD 0),
           slot := some (doc.slot.getD 0),
           template_id := some (doc.template_id.getD "") }]) ∧
    (s.enrollmentInProgress = true →
      enrollEvents (handleEnrollmentRequest cap doc s).2 =
        [{ status := "blocked",
           message := some "Another student is currently enrolling. Please wait...",
           waiting_for := some "enrollment_completion",
           slot := some s.enrollID,
           template_id := some s.enrollmentTemplateID }]) := by
  refine ⟨?_, ?_, ?_⟩
  · by_cases h : s.enrollmentInProgress = true <;>
      simp [handleEnrollmentRequest, hact, hslot, h]
  · intro h
    simp [handleEnrollmentRequest, hact, hslot, h, enrollEvents, pubEnroll]
  · intro h
    simp [handleEnrollmentRequest, hact, h, enrollEvents, pubEnroll]

/-- Instance of the amended C4 theorem: slot 301 with the fallback capacity 300. -/
theorem invalid_slot_rejected_witness :
    ((none : Option String).getD "start" = "start" ∧
      ((some 301 : Option Int).getD 0 < 1 ∨ (some 301 : Option Int).getD 0 > slotCapacity 0)) ∧
    (handleEnrollmentRequest 0 { slot := some 301 } State.init).1 = State.init :=
  ⟨⟨by decide, by decide⟩,
   (invalid_slot_rejected 0 { slot := some 301 } State.init (by decide) (by decide)).1⟩

/-- Claim C5.  In every execution from power-up, the argument of each `storeModel` call
is the slot of the most recent `started` event before it and lies in `[1, capacity]`;
and whenever an enrollment is in progress, `enrollID` is that slot and lies in range. -/
theorem store_slot_in_range (cap : Nat) (inputs : List LoopInput) (pre post : List Action)
    (id : Int) (h : (run cap inputs State.init).2 = pre ++ Action.storeModel id :: post) :
    (lastStarted none pre = some id ∧ 1 ≤ id ∧ id ≤ slotCapacity cap) ∧
    ((run cap inputs State.init).1.enrollmentInProgress = true →
      lastStarted none (run cap inputs State.init).2 =
        some (run cap inputs State.init).1.enrollID ∧
      1 ≤ (run cap inputs State.init).1.enrollID ∧
      (run cap inputs State.init).1.enrollID ≤ slotCapacity cap) := by
  have H := run_preserves cap (fun _ => True) (SlotInv cap) (slotInv_preserved cap) inputs
    (fun _ _ => trivial) State.init [] ⟨trivial, by simp [State.init]⟩
  simp only [List.nil_append] at H
  refine ⟨?_, H.2⟩
  have H1 := H.1
  rw [h] at H1
  exact storesOk_split _ _ _ _ _ H1

/-- Instance of the C5 theorem: the `storeModel(12)` call of the complete-enrollment
scenario. -/
theorem store_slot_in_range_witness :
    (run 200 enrollScenario State.init).2 =
      (run 200 enrollScenario State.init).2.take 20 ++
        Action.storeModel 12 :: (run 200 enrollScenario State.init).2.drop 21 ∧
    lastStarted none ((run 200 enrollScenario State.init).2.take 20) = some 12 ∧
    (1 : Int) ≤ 12 ∧ (12 : Int) ≤ slotCapacity 200 :=
  ⟨by decide,
   (store_slot_in_range 200 enrollScenario
     ((run 200 enrollScenario State.init).2.take 20)
     ((run 200 enrollScenario State.init).2.drop 21) 12 (by decide)).1⟩

/-- Claim C6, evaluated on the code.  `cancel` publishes the `cancelled` event with the
session's slot and template id, but after the next main-loop iteration the tick state is
not torn down: cancelled while awaiting scan 2, the step counter is still 1 and the
finger-release flag still set; cancelled at AwaitingConfirmation, the step counter is
still 3 and `modelCreated` still true. -/
theorem cancel_does_not_reset_tick_state :
    (enrollEvents (run 200 cancelAfterScan1 State.init).2).map Response.summary =
      [("started", none, some 5, some "A"), ("progress", some 1, some 5, some "A"),
       ("cancelled", none, some 5, some "A")] ∧
    (run 200 cancelAfterScan1 State.init).1.enrollmentInProgress = false ∧
    (run 200 cancelAfterScan1 State.init).1.enrollmentStep = 1 ∧
    (run 200 cancelAfterScan1 State.init).1.requireFingerRelease = true ∧
    (run 200 cancelAtConfirmation State.init).1.enrollmentInProgress = false ∧
    (run 200 cancelAtConfirmation State.init).1.enrollmentStep = 3 ∧
    (run 200 cancelAtConfirmation State.init).1.modelCreated = true := by
  decide

/-- Claim C8.  In every reachable state with a session at AwaitingConfirmation and the
model built, `confirm` followed by the next effective tick makes exactly one sensor call,
`storeModel(enrollID)`; on OK it publishes `success` with the slot and template id, on any
other result `error` with the code; in both cases the controller is idle afterwards, and
no execution from there calls `storeModel` unless it contains both a `start` and a
`confirm` request. -/
theorem confirm_stores_once (cap : Nat) (hist : List LoopInput) (doc : Doc) (i : EnrollInput)
    (s : State) (hs : s = (run cap hist State.init).1)
    (hdoc : doc.action.getD "start" = "confirm")
    (hin : s.enrollmentInProgress = true) (hnc : s.enrollmentCancelled = false)
    (hstep : s.enrollmentStep = 3) (hm : s.modelCreated = true)
    (heff : ¬ sub32 i.now s.lastStep < 200) :
    (i.p3 = FINGERPRINT_OK →
      (enrollFingerprint i (handleEnrollmentRequest cap doc s).1).2 =
        [Action.storeModel s.enrollID,
         pubEnroll { status := "success",
                     slot := some s.enrollID,
                     template_id := some s.enrollmentTemplateID,
                     message := some "Fingerprint enrolled successfully!",
                     success := some true },
         Action.clientLoop]) ∧
    (i.p3 ≠ FINGERPRINT_OK →
      (enrollFingerprint i (handleEnrollmentRequest cap doc s).1).2 =
        [Action.storeModel s.enrollID,
         pubEnroll { status := "error",
                     message :=
                       some ("Failed to store fingerprint (code: " ++ toString i.p3 ++ ")"),
                     error_code := some i.p3,
                     slot := some s.enrollID,
                     template_id := some s.enrollmentTemplateID },
         Action.clientLoop]) ∧
    (enrollFingerprint i (handleEnrollmentRequest cap doc s).1).1.idle ∧
    (∀ more : List LoopInput,
      ((∀ j ∈ more, requestAction j ≠ some "start") ∨
        (∀ j ∈ more, requestAction j ≠ some "confirm")) →
      storeCalls (run cap more
        (enrollFingerprint i (handleEnrollmentRequest cap doc s).1).1).2 = []) := by
  have hinv := run_preserves cap (fun _ => True) ConfirmationInv (confirmationInv_preserved cap)
    hist (fun _ _ => trivial) State.init [] (by intro h; simp [State.init] at h)
  rw [← hs] at hinv
  have hrel : s.requireFingerRelease = false := (hinv hstep).2
  have e : (handleEnrollmentRequest cap doc s).1 = { s with enrollmentConfirmed := true } := by
    rw [handle_confirm cap doc s hdoc]
  rw [e, tick_at_confirmation i { s with enrollmentConfirmed := true } hin hnc hstep hrel heff]
  have hidle : (enrollConfirm i { s with enrollmentConfirmed := true, lastStep := i.now }).1.idle := by
    unfold enrollConfirm
    by_cases hp : i.p3 = FINGERPRINT_OK <;> simp [hm, hp, State.idle]
  refine ⟨?_, ?_, hidle, ?_⟩
  · intro hp
    unfold enrollConfirm
    simp [hm, hp]
  · intro hp
    unfold enrollConfirm
    simp [hm, hp]
  · intro more hmore
    rcases hmore with h | h
    · have := run_preserves cap _ IdleNoStore (idleNoStore_preserved cap) more h _ []
        ⟨hidle.1, rfl⟩
      simpa using this.2
    · have := run_preserves cap _ UnconfirmedNoStore (unconfirmedNoStore_preserved cap) more h _ []
        ⟨hidle.2.1, rfl⟩
      simpa using this.2

/-- Instance of the C8 theorem: `confirm` after the three scans of slot 12. -/
theorem confirm_stores_once_witness :
    ((some "confirm" : Option String).getD "start" = "confirm" ∧
      (run 200 (scansToConfirmation 1000 12 "T1") State.init).1.enrollmentInProgress = true ∧
      (run 200 (scansToConfirmation 1000 12 "T1") State.init).1.enrollmentCancelled = false ∧
      (run 200 (scansToConfirmation 1000 12 "T1") State.init).1.enrollmentStep = 3 ∧
      (run 200 (scansToConfirmation 1000 12 "T1") State.init).1.modelCreated = true ∧
      ¬ sub32 (EnrollInput.allOk 6100).now
          (run 200 (scansToConfirmation 1000 12 "T1") State.init).1.lastStep < 200) ∧
    (enrollFingerprint (EnrollInput.allOk 6100)
      (handleEnrollmentRequest 200 { action := some "confirm" }
        (run 200 (scansToConfirmation 1000 12 "T1") State.init).1).1).1.idle :=
  ⟨by decide,
   (confirm_stores_once 200 (scansToConfirmation 1000 12 "T1") { action := some "confirm" }
     (EnrollInput.allOk 6100) _ rfl (by decide) (by decide) (by decide) (by decide)
     (by decide) (by decide)).2.2.1⟩

/-- Claim C10.  From power-up with capacity at least 12: `start(12, "T1")`, three good
scans separated by a no-finger read and more than 2 s, `createModel` OK, `confirm`,
`storeModel` OK.  The enrollment events are `started`, `progress` 1, 2, 3,
`ready_for_confirmation`, `success`, each with slot 12 and template id "T1";
`storeModel` is called exactly once, with argument 12; the controller ends idle. -/
theorem complete_enrollment_scenario (cap : Nat) (h : 12 ≤ slotCapacity cap) :
    (enrollEvents (run cap enrollScenario State.init).2).map Response.summary =
      [("started", none, some 12, some "T1"), ("progress", some 1, some 12, some "T1"),
       ("progress", some 2, some 12, some "T1"), ("progress", some 3, some 12, some "T1"),
       ("ready_for_confirmation", some 3, some 12, some "T1"),
       ("success", none, some 12, some "T1")] ∧
    storeCalls (run cap enrollScenario State.init).2 = [12] ∧
    (run cap enrollScenario State.init).1.enrollmentInProgress = false ∧
    (run cap enrollScenario State.init).1.enrollmentStep = 0 ∧
    (run cap enrollScenario State.init).1.modelCreated = false ∧
    (run cap enrollScenario State.init).1.enrollmentConfirmed = false ∧
    (run cap enrollScenario State.init).1.enrollmentCancelled = false ∧
    (run cap enrollScenario State.init).1.enrollID = 0 := by
  rw [scenario_cap cap h]
  decide

/-- Instance of the C10 theorem: sensor capacity 0, hence the fallback capacity 300. -/
theorem complete_enrollment_scenario_witness :
    12 ≤ slotCapacity 0 ∧ storeCalls (run 0 enrollScenario State.init).2 = [12] :=
  ⟨by decide, (complete_enrollment_scenario 0 (by decide)).2.1⟩

/-! ## Quality rejects -/

theorem enrollEvents_append (a b : List Action) :
    enrollEvents (a ++ b) = enrollEvents a ++ enrollEvents b := by
  induction a with
  | nil => rfl
  | cons x xs ih =>
    cases x with
    | publish t p r =>
      cases t <;> cases p <;> simp [enrollEvents, ih]
    | _ => simp [enrollEvents, ih]

theorem createCalls_append (a b : List Action) :
    createCalls (a ++ b) = createCalls a + createCalls b := by
  induction a with
  | nil => simp [createCalls]
  | cons x xs ih => cases x <;> simp [createCalls, ih, Nat.add_right_comm]

/-- A live tick that passes the release check is the step dispatch on the released state. -/
theorem tick_live (i : EnrollInput) (s : State)
    (hin : s.enrollmentInProgress = true) (hnc : s.enrollmentCancelled = false)
    (heff : ¬ sub32 i.now s.lastStep < 200)
    (hrel : ¬ (s.requireFingerRelease = true ∧ i.rp ≠ FINGERPRINT_NOFINGER)) :
    enrollFingerprint i s =
      ((enrollDispatch i (fingerReleased i { s with lastStep := i.now })).1,
       (if s.requireFingerRelease = true then [Action.getImage] else []) ++
         (enrollDispatch i (fingerReleased i { s with lastStep := i.now })).2) := by
  unfold enrollFingerprint
  dsimp only
  rw [if_neg heff]
  have c1 : ¬ ((!s.enrollmentInProgress) = true) := by simp [hin]
  have c2 : ¬ (s.enrollmentCancelled = true) := by simp [hnc]
  rw [if_neg c1, if_neg c2, if_neg hrel]

/-- What a quality reject looks like in each scan branch. -/
theorem enrollScan1_reject (i : EnrollInput) (s : State) (b : Nat)
    (h : Action.image2Tz b ∈ (enrollScan1 i s).2) (hq : imageQuality i.conv < 50) :
    enrollEvents (enrollScan1 i s).2 =
      [{ status := "capture_failed",
         message := some "Image quality too low. Press finger firmly on sensor.",
         template_id := some s.enrollmentTemplateID,
         slot := some s.enrollID,
         quality := some (imageQuality i.conv),
         step := some 1 }] ∧
    (enrollScan1 i s).1.enrollmentStep = 0 ∧
    (enrollScan1 i s).1.enrollmentInProgress = s.enrollmentInProgress ∧
    createCalls (enrollScan1 i s).2 = 0 := by
  unfold enrollScan1 at *
  unfold imageQuality at *
  dsimp only at *
  split_ifs at h hq ⊢ <;> simp_all [enrollEvents, createCalls, pubEnroll]

theorem enrollScan2_reject (i : EnrollInput) (s : State) (b : Nat)
    (h : Action.image2Tz b ∈ (enrollScan2 i s).2) (hq : imageQuality i.conv < 50) :
    enrollEvents (enrollScan2 i s).2 =
      [{ status := "capture_failed",
         message := some "Image quality too low. Press finger firmly on sensor.",
         template_id := some s.enrollmentTemplateID,
         slot := some s.enrollID,
         quality := some (imageQuality i.conv),
         step := some 2 }] ∧
    (enrollScan2 i s).1.enrollmentStep = 1 ∧
    (enrollScan2 i s).1.enrollmentInProgress = s.enrollmentInProgress ∧
    createCalls (enrollScan2 i s).2 = 0 := by
  unfold enrollScan2 at *
  unfold imageQuality at *
  dsimp only at *
  split_ifs at h hq ⊢ <;> simp_all [enrollEvents, createCalls, pubEnroll]

theorem enrollScan3_reject (i : EnrollInput) (s : State) (b : Nat)
    (h : Action.image2Tz b ∈ (enrollScan3 i s).2) (hq : imageQuality i.conv < 50) :
    enrollEvents (enrollScan3 i s).2 =
      [{ status := "capture_failed",
         message := some "Image quality too low. Press finger firmly on sensor.",
         template_id := some s.enrollmentTemplateID,
         slot := some s.enrollID,
         quality := some (imageQuality i.conv),
         step := some 3 }] ∧
    (enrollScan3 i s).1.enrollmentStep = 2 ∧
    (enrollScan3 i s).1.enrollmentInProgress = s.enrollmentInProgress ∧
    createCalls (enrollScan3 i s).2 = 0 := by
  unfold enrollScan3 at *
  unfold imageQuality at *
  dsimp only at *
  split_ifs at h hq ⊢ <;> simp_all [enrollEvents, createCalls, pubEnroll]

theorem enrollConfirm_no_image (i : EnrollInput) (s : State) (b : Nat) :
    Action.image2Tz b ∉ (enrollConfirm i s).2 := by
  unfold enrollConfirm
  split_ifs <;> simp [pubEnroll]

/-- A tick whose trace contains an `image2Tz` call is a live, effective tick that passed
the release check. -/
theorem image_call_live (i : EnrollInput) (s : State) (b : Nat)
    (h : Action.image2Tz b ∈ (enrollFingerprint i s).2) :
    s.enrollmentInProgress = true ∧ s.enrollmentCancelled = false ∧
    ¬ sub32 i.now s.lastStep < 200 ∧
    ¬ (s.requireFingerRelease = true ∧ i.rp ≠ FINGERPRINT_NOFINGER) := by
  unfold enrollFingerprint at h
  dsimp only at h
  by_cases h0 : sub32 i.now s.lastStep < 200
  · rw [if_pos h0] at h; simp at h
  rw [if_neg h0] at h
  by_cases h1 : s.enrollmentInProgress = true
  swap
  · simp only [Bool.not_eq_true] at h1
    simp [h1] at h
  by_cases h2 : s.enrollmentCancelled = true
  · simp [h1, h2] at h
  have c1 : ¬ ((!s.enrollmentInProgress) = true) := by simp [h1]
  rw [if_neg c1, if_neg h2] at h
  by_cases h3 : s.requireFingerRelease = true ∧ i.rp ≠ FINGERPRINT_NOFINGER
  · rw [if_pos h3] at h; simp at h
  exact ⟨h1, by simpa using h2, h0, h3⟩

/-- Claim C12.  Whenever a tick evaluates a captured image (it calls `image2Tz`) and the
quality score derived from the conversion result is below 50, the tick is at a scan step
`k` in {1, 2, 3} (step counter `k - 1`), its only enrollment event is `capture_failed`
carrying that score, step `k`, the session's slot and template id, the step counter is
unchanged, the session is still in progress, and `createModel` is not called. -/
theorem quality_reject_retries (i : EnrollInput) (s : State) (b : Nat)
    (himg : Action.image2Tz b ∈ (enrollFingerprint i s).2)
    (hq : imageQuality i.conv < 50) :
    ∃ k : Nat, (k = 1 ∨ k = 2 ∨ k = 3) ∧ s.enrollmentStep = (k : Int) - 1 ∧
      enrollEvents (enrollFingerprint i s).2 =
        [{ status := "capture_failed",
           message := some "Image quality too low. Press finger firmly on sensor.",
           template_id := some s.enrollmentTemplateID,
           slot := some s.enrollID,
           quality := some (imageQuality i.conv),
           step := some k }] ∧
      (enrollFingerprint i s).1.enrollmentStep = s.enrollmentStep ∧
      (enrollFingerprint i s).1.enrollmentInProgress = true ∧
      createCalls (enrollFingerprint i s).2 = 0 := by
  obtain ⟨hin, hnc, heff, hrel⟩ := image_call_live i s b himg
  rw [tick_live i s hin hnc heff hrel] at himg ⊢
  generalize hs1 : ({ s with lastStep := i.now } : State) = s1 at himg ⊢
  have e1 : s1.enrollID = s.enrollID := by rw [← hs1]
  have e2 : s1.enrollmentTemplateID = s.enrollmentTemplateID := by rw [← hs1]
  have e3 : s1.enrollmentInProgress = s.enrollmentInProgress := by rw [← hs1]
  have e6 : s1.enrollmentStep = s.enrollmentStep := by rw [← hs1]
  obtain ⟨f1, f2, f3, _, _, f6, _, _⟩ := fingerReleased_fields i s1
  generalize fingerReleased i s1 = t at himg f1 f2 f3 f6 ⊢
  have ha0 : ∀ l : List Action, Action.image2Tz b ∈
      (if s.requireFingerRelease = true then [Action.getImage] else []) ++ l →
      Action.image2Tz b ∈ l := by
    intro l hl
    split_ifs at hl <;> simpa using hl
  have himg2 := ha0 _ himg
  have hev : ∀ l : List Action, enrollEvents
      ((if s.requireFingerRelease = true then [Action.getImage] else []) ++ l) =
      enrollEvents l := by
    intro l
    split_ifs <;> simp [enrollEvents]
  have hcr : ∀ l : List Action, createCalls
      ((if s.requireFingerRelease = true then [Action.getImage] else []) ++ l) =
      createCalls l := by
    intro l
    split_ifs <;> simp [createCalls]
  simp only [hev, hcr]
  unfold enrollDispatch at himg2 ⊢
  split_ifs at himg2 ⊢ with c0 c1 c2 c3
  · obtain ⟨a, b1, c, d⟩ := enrollScan1_reject i t b himg2 hq
    refine ⟨1, Or.inl rfl, by rw [← e6, ← f6, c0]; rfl, ?_, ?_, ?_, d⟩
    · rw [a, f1, f2, e1, e2]
    · rw [b1, ← e6, ← f6, c0]
    · rw [c, f3, e3, hin]
  · obtain ⟨a, b1, c, d⟩ := enrollScan2_reject i t b himg2 hq
    refine ⟨2, Or.inr (Or.inl rfl), by rw [← e6, ← f6, c1]; rfl, ?_, ?_, ?_, d⟩
    · rw [a, f1, f2, e1, e2]
    · rw [b1, ← e6, ← f6, c1]
    · rw [c, f3, e3, hin]
  · obtain ⟨a, b1, c, d⟩ := enrollScan3_reject i t b himg2 hq
    refine ⟨3, Or.inr (Or.inr rfl), by rw [← e6, ← f6, c2]; rfl, ?_, ?_, ?_, d⟩
    · rw [a, f1, f2, e1, e2]
    · rw [b1, ← e6, ← f6, c2]
    · rw [c, f3, e3, hin]
  · exact absurd himg2 (enrollConfirm_no_image i t b)
  · simp at himg2

/-- Instance of the C12 theorem: a poor image at scan 1 of a session for slot 5. -/
theorem quality_reject_retries_witness :
    Action.image2Tz 1 ∈
      (enrollFingerprint (EnrollInput.poorImage 1300) (run 200 startedSession State.init).1).2 ∧
    imageQuality (EnrollInput.poorImage 1300).conv < 50 ∧
    ∃ k : Nat, (k = 1 ∨ k = 2 ∨ k = 3) ∧
      (run 200 startedSession State.init).1.enrollmentStep = (k : Int) - 1 ∧
      enrollEvents
        (enrollFingerprint (EnrollInput.poorImage 1300)
          (run 200 startedSession State.init).1).2 =
        [{ status := "capture_failed",
           message := some "Image quality too low. Press finger firmly on sensor.",
           template_id := some (run 200 startedSession State.init).1.enrollmentTemplateID,
           slot := some (run 200 startedSession State.init).1.enrollID,
           quality := some (imageQuality (EnrollInput.poorImage 1300).conv),
           step := some k }] ∧
      (enrollFingerprint (EnrollInput.poorImage 1300)
          (run 200 startedSession State.init).1).1.enrollmentStep =
        (run 200 startedSession State.init).1.enrollmentStep ∧
      (enrollFingerprint (EnrollInput.poorImage 1300)
          (run 200 startedSession State.init).1).1.enrollmentInProgress = true ∧
      createCalls
        (enrollFingerprint (EnrollInput.poorImage 1300)
          (run 200 startedSession State.init).1).2 = 0 :=
  ⟨by decide, by decide,
   quality_reject_retries (EnrollInput.poorImage 1300) (run 200 startedSession State.init).1 1
     (by decide) (by decide)⟩

/-! ## Fatal outcomes -/

theorem enrollScan1_end (i : EnrollInput) (s : State) : EndFacts i s (enrollScan1 i s) := by
  unfold enrollScan1
  dsimp only
  split_ifs <;> constructor <;>
    simp_all [storeCalls, enrollEvents, lastStatus, pubEnroll]

theorem enrollScan2_end (i : EnrollInput) (s : State) : EndFacts i s (enrollScan2 i s) := by
  unfold enrollScan2
  dsimp only
  split_ifs <;> constructor <;>
    simp_all [storeCalls, enrollEvents, lastStatus, pubEnroll]

theorem enrollScan3_end (i : EnrollInput) (s : State) : EndFacts i s (enrollScan3 i s) := by
  unfold enrollScan3
  dsimp only
  split_ifs <;> constructor <;>
    simp_all [storeCalls, enrollEvents, lastStatus, pubEnroll]

theorem enrollConfirm_end (i : EnrollInput) (s : State) :
    EndFacts i s (enrollConfirm i s) := by
  unfold enrollConfirm
  split_ifs <;> constructor <;>
    simp_all [storeCalls, enrollEvents, lastStatus, pubEnroll]

theorem enrollDispatch_end (i : EnrollInput) (s : State) :
    EndFacts i s (enrollDispatch i s) := by
  unfold enrollDispatch
  split_ifs
  · exact enrollScan1_end i s
  · exact enrollScan2_end i s
  · exact enrollScan3_end i s
  · exact enrollConfirm_end i s
  · constructor <;> simp_all [storeCalls, enrollEvents, lastStatus]

theorem enrollConfirm_model (i : EnrollInput) (s : State) :
    ((enrollConfirm i s).1.modelCreated = true →
      (enrollConfirm i s).1.enrollmentStep = s.enrollmentStep) ∧
    (s.enrollmentInProgress = true → (enrollConfirm i s).1.enrollmentInProgress = false →
      (enrollConfirm i s).1.modelCreated = false) := by
  unfold enrollConfirm
  split_ifs <;> simp_all

theorem enrollDispatch_step3 (i : EnrollInput) (s : State) (h : s.enrollmentStep = 3) :
    enrollDispatch i s = enrollConfirm i s := by
  unfold enrollDispatch
  simp [h]

/-- The dispatch keeps "model built only at AwaitingConfirmation". -/
theorem enrollDispatch_model_inv (i : EnrollInput) (s : State)
    (hm : s.modelCreated = true → s.enrollmentStep = 3)
    (hr : (enrollDispatch i s).1.modelCreated = true) :
    (enrollDispatch i s).1.enrollmentStep = 3 := by
  rcases (enrollDispatch_end i s).modelKeep hr with h3 | hs
  · exact h3
  · have h3 := hm hs
    rw [enrollDispatch_step3 i s h3] at hr ⊢
    rw [(enrollConfirm_model i s).1 hr, h3]

/-- A dispatch that ends the session leaves no model behind. -/
theorem enrollDispatch_end_model (i : EnrollInput) (s : State)
    (hm : s.modelCreated = true → s.enrollmentStep = 3)
    (hin : s.enrollmentInProgress = true)
    (hend : (enrollDispatch i s).1.enrollmentInProgress = false) :
    (enrollDispatch i s).1.modelCreated = false := by
  cases hc : (enrollDispatch i s).1.modelCreated with
  | false => rfl
  | true =>
    have hs := (enrollDispatch_end i s).endModel hin hend hc
    have h3 := hm hs
    rw [enrollDispatch_step3 i s h3] at hend hc
    rw [(enrollConfirm_model i s).2 hin hend] at hc
    cases hc

theorem tick_idle (i : EnrollInput) (s : State)
    (hin : s.enrollmentInProgress = true) (hnc : s.enrollmentCancelled = false)
    (h : sub32 i.now s.lastStep < 200 ∨
      (s.requireFingerRelease = true ∧ i.rp ≠ FINGERPRINT_NOFINGER)) :
    enrollEvents (enrollFingerprint i s).2 = [] ∧
    (enrollFingerprint i s).1.enrollmentInProgress = true ∧
    (enrollFingerprint i s).1.modelCreated = s.modelCreated ∧
    (enrollFingerprint i s).1.enrollmentStep = s.enrollmentStep := by
  unfold enrollFingerprint
  dsimp only
  by_cases h0 : sub32 i.now s.lastStep < 200
  · rw [if_pos h0]; simp [enrollEvents, hin]
  rw [if_neg h0]
  have c1 : ¬ ((!s.enrollmentInProgress) = true) := by simp [hin]
  have c2 : ¬ (s.enrollmentCancelled = true) := by simp [hnc]
  rcases h with h | h
  · exact absurd h h0
  · rw [if_neg c1, if_neg c2, if_pos h]
    simp [enrollEvents, hin]

theorem enrollFingerprint_end (i : EnrollInput) (s : State)
    (hin : s.enrollmentInProgress = true) (hnc : s.enrollmentCancelled = false) :
    TickEnd i s (enrollFingerprint i s) := by
  by_cases h : sub32 i.now s.lastStep < 200 ∨
      (s.requireFingerRelease = true ∧ i.rp ≠ FINGERPRINT_NOFINGER)
  · obtain ⟨a, b, c, d⟩ := tick_idle i s hin hnc h
    constructor
    · rw [a]; simp
    · intro hb; rw [b] at hb; cases hb
    · intro hb; rw [b] at hb; cases hb
    · intro _ hb; rw [b] at hb; cases hb
    · intro hm hc; rw [c] at hc; rw [d]; exact hm hc
  · simp only [not_or] at h
    rw [tick_live i s hin hnc h.1 h.2]
    generalize hs1 : ({ s with lastStep := i.now } : State) = s1
    have e3 : s1.enrollmentInProgress = s.enrollmentInProgress := by rw [← hs1]
    have e6 : s1.enrollmentStep = s.enrollmentStep := by rw [← hs1]
    have e7 : s1.modelCreated = s.modelCreated := by rw [← hs1]
    obtain ⟨_, _, f3, _, _, f6, f7, f8⟩ := fingerReleased_fields i s1
    generalize fingerReleased i s1 = t at f3 f6 f7 f8 ⊢
    have E := enrollDispatch_end i t
    have tin : t.enrollmentInProgress = true := by rw [f3, e3, hin]
    have hev : ∀ l : List Action, enrollEvents
        ((if s.requireFingerRelease = true then [Action.getImage] else []) ++ l) =
        enrollEvents l := by
      intro l
      split_ifs <;> simp [enrollEvents]
    have hst : ∀ l : List Action, storeCalls
        ((if s.requireFingerRelease = true then [Action.getImage] else []) ++ l) =
        storeCalls l := by
      intro l
      split_ifs <;> simp [storeCalls]
    have tm : (s.modelCreated = true → s.enrollmentStep = 3) →
        (t.modelCreated = true → t.enrollmentStep = 3) := by
      intro hm ht
      rw [f7, e7] at ht
      rw [f6, e6]
      exact hm ht
    constructor
    · simp only [hev]; exact E.errEnds
    · simp only [hst, lastStatus, hev]; exact E.endErr tin
    · intro hend
      exact ⟨(E.endStep tin hend).1, (E.endStep tin hend).2 f8⟩
    · intro hm hend
      exact enrollDispatch_end_model i t (tm hm) tin hend
    · intro hm hr
      exact enrollDispatch_model_inv i t (tm hm) hr

theorem modelInv_preserved (cap : Nat) : Preserved cap (fun _ => True) ModelInv where
  frame := by
    intro s t tr a hv _ h
    have e1 : t.enrollmentStep = s.enrollmentStep := congrArg EnrollView.enrollmentStep hv
    have e2 : t.modelCreated = s.modelCreated := congrArg EnrollView.modelCreated hv
    unfold ModelInv at *
    rw [e1, e2]
    exact h
  tick := by
    intro i s tr _ hin hnc h
    exact (enrollFingerprint_end i.enroll s hin hnc).modelInv h
  request := by
    intro i doc s tr _ _ h
    unfold handleEnrollmentRequest
    dsimp only
    split_ifs <;> exact h
  saved := by
    intro s tr h
    exact h
  restart := by
    intro s tr _ h3
    simp [State.init] at h3

theorem enrollScan3_model_failure (i : EnrollInput) (s : State)
    (h : Action.createModel ∈ (enrollScan3 i s).2) (hm : i.modelP ≠ FINGERPRINT_OK) :
    (enrollScan3 i s).1.enrollmentInProgress = false := by
  unfold enrollScan3 at *
  dsimp only at *
  split_ifs at h ⊢ <;> simp_all [pubEnroll]

theorem enrollDispatch_model_failure (i : EnrollInput) (s : State)
    (h : Action.createModel ∈ (enrollDispatch i s).2) (hm : i.modelP ≠ FINGERPRINT_OK) :
    (enrollDispatch i s).1.enrollmentInProgress = false := by
  unfold enrollDispatch at *
  split_ifs at h ⊢
  · exfalso
    unfold enrollScan1 at h
    dsimp only at h
    split_ifs at h <;> simp_all [pubEnroll]
  · exfalso
    unfold enrollScan2 at h
    dsimp only at h
    split_ifs at h <;> simp_all [pubEnroll]
  · exact enrollScan3_model_failure i s h hm
  · exfalso
    unfold enrollConfirm at h
    split_ifs at h <;> simp_all [pubEnroll]
  · simp at h

theorem tick_model_failure (i : EnrollInput) (s : State)
    (h : Action.createModel ∈ (enrollFingerprint i s).2) (hm : i.modelP ≠ FINGERPRINT_OK) :
    (enrollFingerprint i s).1.enrollmentInProgress = false := by
  unfold enrollFingerprint at *
  dsimp only at *
  split_ifs at h ⊢
  · simp at h
  · simp at h
  · simp at h
  · simp at h
  · have h2 : Action.createModel ∈
        (enrollDispatch i (fingerReleased i { s with lastStep := i.now })).2 := by
      simpa using h
    exact enrollDispatch_model_failure i _ h2 hm
  · have h2 : Action.createModel ∈
        (enrollDispatch i (fingerReleased i { s with lastStep := i.now })).2 := by
      simpa using h
    exact enrollDispatch_model_failure i _ h2 hm

/-- After an accepted `start` in a state at step 0 with no release pending, an effective
tick runs the first scan branch. -/
theorem tick_at_scan1 (i : EnrollInput) (s : State)
    (hin : s.enrollmentInProgress = true) (hnc : s.enrollmentCancelled = false)
    (hstep : s.enrollmentStep = 0) (hrel : s.requireFingerRelease = false)
    (heff : ¬ sub32 i.now s.lastStep < 200) :
    enrollFingerprint i s = enrollScan1 i { s with lastStep := i.now } := by
  unfold enrollFingerprint
  simp [hin, hnc, hstep, hrel, heff, fingerReleased, enrollDispatch]

theorem handle_start_accept (cap : Nat) (doc : Doc) (s : State)
    (hact : doc.action.getD "start" = "start") (hidle : s.enrollmentInProgress = false)
    (h1 : 1 ≤ doc.slot.getD 0) (h2 : doc.slot.getD 0 ≤ slotCapacity cap) :
    handleEnrollmentRequest cap doc s =
      ({ s with enrollID := doc.slot.getD 0,
                enrollmentTemplateID := doc.template_id.getD "",
                enrollmentInProgress := true,
                enrollmentCancelled := false,
                enrollmentConfirmed := false },
       [Action.publish Topic.enroll_request Payload.empty true,
        pubEnroll { status := "started",
                    slot := some (doc.slot.getD 0),
                    template_id := some (doc.template_id.getD "") },
        Action.clientLoop]) := by
  have hs : ¬ (doc.slot.getD 0 < 1 ∨ doc.slot.getD 0 > slotCapacity cap) := by omega
  simp [handleEnrollmentRequest, hact, hidle, hs]

/-- Claim C11.  From every reachable state with a live session, one call of the enrollment
tick satisfies: every `error` event ends the session; a failing `createModel` ends it; a
`storeModel` call ends it; and whenever the tick ends the session without a successful
store (so by a timeout, a `createModel` failure or a `storeModel` failure), the last event
is `error`, the step counter is 0, no model and no release requirement are left, and a
`start` for the same slot is then accepted: it emits `started`, the session is in progress
at step 0, and the next effective tick runs the scan-1 branch. -/
theorem fatal_outcome_leaves_idle (cap : Nat) (hist : List LoopInput) (s : State)
    (i : EnrollInput) (doc : Doc)
    (hs : s = (run cap hist State.init).1)
    (hin : s.enrollmentInProgress = true) (hnc : s.enrollmentCancelled = false)
    (hact : doc.action.getD "start" = "start") (hslot : doc.slot.getD 0 = s.enrollID) :
    ((∃ e ∈ enrollEvents (enrollFingerprint i s).2, e.status = "error") →
      (enrollFingerprint i s).1.enrollmentInProgress = false) ∧
    (Action.createModel ∈ (enrollFingerprint i s).2 → i.modelP ≠ FINGERPRINT_OK →
      (enrollFingerprint i s).1.enrollmentInProgress = false) ∧
    (storeCalls (enrollFingerprint i s).2 ≠ [] →
      (enrollFingerprint i s).1.enrollmentInProgress = false) ∧
    ((enrollFingerprint i s).1.enrollmentInProgress = false →
      (storeCalls (enrollFingerprint i s).2 = [] ∨ i.p3 ≠ FINGERPRINT_OK) →
      lastStatus (enrollFingerprint i s).2 = some "error" ∧
      (enrollFingerprint i s).1.enrollmentStep = 0 ∧
      (enrollFingerprint i s).1.modelCreated = false ∧
      (enrollFingerprint i s).1.requireFingerRelease = false ∧
      enrollEvents (handleEnrollmentRequest cap doc (enrollFingerprint i s).1).2 =
        [{ status := "started",
           slot := some s.enrollID,
           template_id := some (doc.template_id.getD "") }] ∧
      (handleEnrollmentRequest cap doc (enrollFingerprint i s).1).1.enrollmentInProgress = true ∧
      (handleEnrollmentRequest cap doc (enrollFingerprint i s).1).1.enrollID = s.enrollID ∧
      (handleEnrollmentRequest cap doc (enrollFingerprint i s).1).1.enrollmentStep = 0 ∧
      (handleEnrollmentRequest cap doc (enrollFingerprint i s).1).1.modelCreated = false ∧
      ∀ i2 : EnrollInput,
        ¬ sub32 i2.now (handleEnrollmentRequest cap doc (enrollFingerprint i s).1).1.lastStep < 200 →
        enrollFingerprint i2 (handleEnrollmentRequest cap doc (enrollFingerprint i s).1).1 =
          enrollScan1 i2
            { (handleEnrollmentRequest cap doc (enrollFingerprint i s).1).1 with
              lastStep := i2.now }) := by
  have hslotinv := run_preserves cap (fun _ => True) (SlotInv cap) (slotInv_preserved cap) hist
    (fun _ _ => trivial) State.init [] ⟨trivial, by simp [State.init]⟩
  have hmodel := run_preserves cap (fun _ => True) ModelInv (modelInv_preserved cap) hist
    (fun _ _ => trivial) State.init [] (by intro h; simp [State.init] at h)
  rw [← hs] at hslotinv hmodel
  obtain ⟨_, hr1, hr2⟩ := hslotinv.2 hin
  have E := enrollFingerprint_end i s hin hnc
  have F := enrollFingerprint_facts i s
  refine ⟨E.errEnds, tick_model_failure i s, ?_, ?_⟩
  · intro hst
    rcases F.stores with h | ⟨_, _, _, _, _, _, h⟩
    · exact absurd h hst
    · exact h
  · intro hend hfatal
    obtain ⟨e0, erel⟩ := E.endStep hend
    have em := E.endModel hmodel hend
    have hacc := handle_start_accept cap doc (enrollFingerprint i s).1 hact hend
      (by rw [hslot]; exact hr1) (by rw [hslot]; exact hr2)
    rw [hacc]
    refine ⟨E.endErr hend hfatal, e0, em, erel, ?_, rfl, hslot, e0, em, ?_⟩
    · simp [enrollEvents, pubEnroll, hslot]
    · intro i2 heff
      exact tick_at_scan1 i2 _ rfl rfl e0 erel heff

/-- Instance of the C11 theorem: `createModel` fails at scan 3 of a session for slot 12,
and a new `start` for slot 12 follows. -/
theorem fatal_outcome_leaves_idle_witness :
    (run 200 scansToScan3 State.init).1.enrollmentInProgress = true ∧
    Action.createModel ∈
      (enrollFingerprint (EnrollInput.modelFailure 5800) (run 200 scansToScan3 State.init).1).2 ∧
    lastStatus
      (enrollFingerprint (EnrollInput.modelFailure 5800)
        (run 200 scansToScan3 State.init).1).2 = some "error" ∧
    (enrollFingerprint (EnrollInput.modelFailure 5800)
        (run 200 scansToScan3 State.init).1).1.enrollmentStep = 0 ∧
    (enrollFingerprint (EnrollInput.modelFailure 5800)
        (run 200 scansToScan3 State.init).1).1.modelCreated = false :=
  ⟨by decide, by decide,
   ((fatal_outcome_leaves_idle 200 scansToScan3 (run 200 scansToScan3 State.init).1
      (EnrollInput.modelFailure 5800) restartDoc rfl (by decide) (by decide) (by decide)
      (by decide)).2.2.2 (by decide) (Or.inl (by decide))).1,
   ((fatal_outcome_leaves_idle 200 scansToScan3 (run 200 scansToScan3 State.init).1
      (EnrollInput.modelFailure 5800) restartDoc rfl (by decide) (by decide) (by decide)
      (by decide)).2.2.2 (by decide) (Or.inl (by decide))).2.1,
   ((fatal_outcome_leaves_idle 200 scansToScan3 (run 200 scansToScan3 State.init).1
      (EnrollInput.modelFailure 5800) restartDoc rfl (by decide) (by decide) (by decide)
      (by decide)).2.2.2 (by decide) (Or.inl (by decide))).2.2.1⟩

/-! ## Timeout of scan 1 -/

/-- Claim C13, evaluated on the code.  A session is started at clock reading 1000 and the
sensor reports no finger at every poll, 200 ms apart.  The tick of the start iteration is
the first poll.  After 60 polls the session is still in progress with a counter of 60; the
61st poll, 12 s after the start, publishes the timeout error and ends the session. -/
theorem scan1_timeout_after_61_polls :
    (run 200 (startedSession ++ noFingerPolls 1200 59) State.init).1.enrollmentInProgress =
      true ∧
    (run 200 (startedSession ++ noFingerPolls 1200 59) State.init).1.noFingerCount = 60 ∧
    (enrollEvents (run 200 (startedSession ++ noFingerPolls 1200 60) State.init).2).map
        Response.summary =
      [("started", none, some 5, some "A"), ("error", none, none, none)] ∧
    (enrollEvents (run 200 (startedSession ++ noFingerPolls 1200 60) State.init).2).map
        Response.message =
      [none, some "No finger detected. Enrollment timeout."] ∧
    (run 200 (startedSession ++ noFingerPolls 1200 60) State.init).1.enrollmentInProgress =
      false := by
  set_option maxRecDepth 100000 in decide

/-! ## Release and cooldown between scans -/

theorem sub32_self (n : Nat) : sub32 n n = 0 := by
  unfold sub32
  have : n % 4294967296 < 4294967296 := Nat.mod_lt _ (by decide)
  omega

theorem enrollScan1_cool (i : EnrollInput) (s : State) (h0 : s.enrollmentStep = 0) :
    (enrollScan1 i s).1.enrollmentStep = 1 → (enrollScan1 i s).1.requireFingerRelease = true := by
  unfold enrollScan1
  dsimp only
  split_ifs <;> simp_all

theorem enrollScan2_cool (i : EnrollInput) (s : State) (h1 : s.enrollmentStep = 1)
    (hr : s.requireFingerRelease = false) :
    (((∃ b, Action.image2Tz b ∈ (enrollScan2 i s).2) ∨
        (enrollScan2 i s).1.enrollmentStep = 2) → 2000 ≤ sub32 i.now s.stepStartTime) ∧
    ReleasedNext s (enrollScan2 i s).1 ∧
    ((enrollScan2 i s).1.enrollmentStep = 2 →
      (enrollScan2 i s).1.requireFingerRelease = true) := by
  unfold enrollScan2 ReleasedNext NoScan
  dsimp only
  split_ifs <;> simp_all [pubEnroll]

theorem enrollScan3_cool (i : EnrollInput) (s : State) (h2 : s.enrollmentStep = 2)
    (hr : s.requireFingerRelease = false) :
    (((∃ b, Action.image2Tz b ∈ (enrollScan3 i s).2) ∨
        (enrollScan3 i s).1.enrollmentStep = 3) → 2000 ≤ sub32 i.now s.stepStartTime) ∧
    ReleasedNext s (enrollScan3 i s).1 := by
  unfold enrollScan3 ReleasedNext NoScan
  dsimp only
  split_ifs <;> simp_all [pubEnroll]

theorem enrollConfirm_cool (i : EnrollInput) (s : State) (h3 : s.enrollmentStep = 3) :
    (∀ b, Action.image2Tz b ∉ (enrollConfirm i s).2) ∧
    ((enrollConfirm i s).1.enrollmentStep = 3 ∨
      ((enrollConfirm i s).1.enrollmentStep = 0 ∧
        (enrollConfirm i s).1.enrollmentInProgress = false)) := by
  unfold enrollConfirm
  split_ifs <;> simp_all [pubEnroll]

theorem fingerReleased_start (i : EnrollInput) (s : State) :
    (fingerReleased i s).stepStartTime =
      if s.requireFingerRelease = true then i.now else s.stepStartTime := by
  unfold fingerReleased
  split_ifs <;> rfl

theorem enrollFingerprint_cool (i : EnrollInput) (s : State) :
    CoolFacts i s (enrollFingerprint i s) := by
  by_cases hlive : s.enrollmentInProgress = true ∧ s.enrollmentCancelled = false ∧
      ¬ sub32 i.now s.lastStep < 200 ∧
      ¬ (s.requireFingerRelease = true ∧ i.rp ≠ FINGERPRINT_NOFINGER)
  · obtain ⟨hin, hnc, heff, hrel⟩ := hlive
    rw [tick_live i s hin hnc heff hrel]
    generalize hs1 : ({ s with lastStep := i.now } : State) = s1
    have e1 : s1.enrollmentStep = s.enrollmentStep := by rw [← hs1]
    have e2 : s1.requireFingerRelease = s.requireFingerRelease := by rw [← hs1]
    have e3 : s1.stepStartTime = s.stepStartTime := by rw [← hs1]
    obtain ⟨_, _, _, _, _, f6, _, f8⟩ := fingerReleased_fields i s1
    have f9 := fingerReleased_start i s1
    rw [e2, e3] at f9
    rw [e1] at f6
    generalize fingerReleased i s1 = t at f6 f8 f9 ⊢
    have himg : ∀ (l : List Action) (b : Nat), Action.image2Tz b ∈
        (if s.requireFingerRelease = true then [Action.getImage] else []) ++ l ↔
        Action.image2Tz b ∈ l := by
      intro l b
      split_ifs <;> simp
    constructor
    · intro hq
      have h3 : s.enrollmentStep = 3 := by
        rcases hq with h | ⟨h | h, _⟩
        · exact h
        · rw [hin] at h; cases h
        · rw [hnc] at h; cases h
      rw [enrollDispatch_step3 i t (f6.trans h3)]
      obtain ⟨c1, c2⟩ := enrollConfirm_cool i t (f6.trans h3)
      refine ⟨?_, ?_, ?_⟩
      · rcases c2 with c | ⟨c, c'⟩
        · exact Or.inl c
        · exact Or.inr ⟨Or.inl c', by rw [c]⟩
      · intro b hb
        exact c1 b ((himg _ b).1 hb)
      · rcases c2 with c | ⟨c, _⟩
        · dsimp only
          rw [c, h3]; decide
        · dsimp only
          rw [c, h3]; decide
    · intro hr hstep
      rw [hr] at f9
      simp only [if_true] at f9
      have hrp : i.rp = FINGERPRINT_NOFINGER := by
        by_contra hne
        exact hrel ⟨hr, hne⟩
      have hz : ¬ 2000 ≤ sub32 i.now t.stepStartTime := by
        rw [f9, sub32_self]; decide
      rcases hstep with h1 | h2
      · have hd : enrollDispatch i t = enrollScan2 i t := by
          unfold enrollDispatch
          rw [f6, h1]; simp
        rw [hd]
        obtain ⟨c1, c2, _⟩ := enrollScan2_cool i t (f6.trans h1) f8
        refine ⟨⟨?_, ?_⟩, ?_⟩
        · intro b hb
          exact hz (c1 (Or.inl ⟨b, (himg _ b).1 hb⟩))
        · intro hadv
          dsimp only at hadv
          rw [h1] at hadv
          exact hz (c1 (Or.inr hadv))
        · rcases c2 with c | c | ⟨c, c', c''⟩
          · exact Or.inl c
          · exact Or.inr (Or.inl c)
          · refine Or.inr (Or.inr ⟨hrp, ?_, c, c'.trans f9, c''.trans f6⟩)
            rw [hr]; simp
      · have hd : enrollDispatch i t = enrollScan3 i t := by
          unfold enrollDispatch
          rw [f6, h2]; simp
        rw [hd]
        obtain ⟨c1, c2⟩ := enrollScan3_cool i t (f6.trans h2) f8
        refine ⟨⟨?_, ?_⟩, ?_⟩
        · intro b hb
          exact hz (c1 (Or.inl ⟨b, (himg _ b).1 hb⟩))
        · intro hadv
          dsimp only at hadv
          rw [h2] at hadv
          exact hz (c1 (Or.inr hadv))
        · rcases c2 with c | c | ⟨c, c', c''⟩
          · exact Or.inl c
          · exact Or.inr (Or.inl c)
          · refine Or.inr (Or.inr ⟨hrp, ?_, c, c'.trans f9, c''.trans f6⟩)
            rw [hr]; simp
    · intro hr hstep
      rw [hr] at f9
      simp only [Bool.false_eq_true, if_false] at f9
      rcases hstep with h1 | h2
      · have hd : enrollDispatch i t = enrollScan2 i t := by
          unfold enrollDispatch
          rw [f6, h1]; simp
        rw [hd]
        obtain ⟨c1, c2, _⟩ := enrollScan2_cool i t (f6.trans h1) f8
        rw [f9] at c1
        refine ⟨?_, ?_⟩
        · rintro (⟨b, hb⟩ | hadv)
          · exact c1 (Or.inl ⟨b, (himg _ b).1 hb⟩)
          · dsimp only at hadv
            rw [h1] at hadv
            exact c1 (Or.inr hadv)
        · rcases c2 with c | c | ⟨c, c', c''⟩
          · exact Or.inl c
          · exact Or.inr (Or.inl c)
          · exact Or.inr (Or.inr ⟨c, c'.trans f9, c''.trans f6⟩)
      · have hd : enrollDispatch i t = enrollScan3 i t := by
          unfold enrollDispatch
          rw [f6, h2]; simp
        rw [hd]
        obtain ⟨c1, c2⟩ := enrollScan3_cool i t (f6.trans h2) f8
        rw [f9] at c1
        refine ⟨?_, ?_⟩
        · rintro (⟨b, hb⟩ | hadv)
          · exact c1 (Or.inl ⟨b, (himg _ b).1 hb⟩)
          · dsimp only at hadv
            rw [h2] at hadv
            exact c1 (Or.inr hadv)
        · rcases c2 with c | c | ⟨c, c', c''⟩
          · exact Or.inl c
          · exact Or.inr (Or.inl c)
          · exact Or.inr (Or.inr ⟨c, c'.trans f9, c''.trans f6⟩)
    · intro hstep hadv
      dsimp only at hadv ⊢
      rcases hstep with h0 | h1
      · have hd : enrollDispatch i t = enrollScan1 i t := by
          unfold enrollDispatch
          rw [f6, h0]; simp
        rw [hd] at hadv ⊢
        rw [h0] at hadv
        exact enrollScan1_cool i t (f6.trans h0) hadv
      · have hd : enrollDispatch i t = enrollScan2 i t := by
          unfold enrollDispatch
          rw [f6, h1]; simp
        rw [hd] at hadv ⊢
        rw [h1] at hadv
        exact (enrollScan2_cool i t (f6.trans h1) f8).2.2 hadv
  · unfold enrollFingerprint
    dsimp only
    split_ifs <;> constructor <;> simp_all [NoScan] <;> omega

theorem enrollTicks_snoc (pre : List EnrollInput) (j : EnrollInput) (s : State) :
    enrollTicks (pre ++ [j]) s = (enrollFingerprint j (enrollTicks pre s)).1 := by
  simp [enrollTicks, List.foldl_append]

theorem coolInv_all (s1 : State) (hr : s1.requireFingerRelease = true)
    (hstep : s1.enrollmentStep = 1 ∨ s1.enrollmentStep = 2) (pre : List EnrollInput) :
    CoolInv s1 pre := by
  induction pre using List.reverseRecOn with
  | nil => exact Or.inr (Or.inl ⟨hr, hstep⟩)
  | append_singleton pre j ih =>
    have C := enrollFingerprint_cool j (enrollTicks pre s1)
    unfold CoolInv at ih ⊢
    rw [enrollTicks_snoc]
    rcases ih with hq | ⟨hp, hs⟩ | ⟨hp, hs, pre1, k, pre2, e, hk, hk1, hk2, hk3⟩
    · exact Or.inl (C.quiet hq).1
    · rcases (C.pending hp hs).2 with c | c | ⟨c1, c2, c3, c4, c5⟩
      · exact Or.inl c
      · exact Or.inr (Or.inl c)
      · refine Or.inr (Or.inr ⟨c3, by rw [c5]; exact hs, pre, j, [], rfl, c1, hp, c2, c4.symm⟩)
    · rcases (C.released hp hs).2 with c | c | ⟨c1, c2, c3⟩
      · exact Or.inl c
      · exact Or.inr (Or.inl c)
      · refine Or.inr (Or.inr ⟨c1, by rw [c3]; exact hs, pre1, k, pre2 ++ [j], ?_, hk, hk1, hk2,
          hk3.trans c2.symm⟩)
        rw [e]; simp

/-- Claim C14.  Let a tick `i0` accept scan 1 or scan 2 (the step counter goes from 0 to 1
or from 1 to 2), and let any sequence `pre` of further ticks follow.  If the tick `x` after
them evaluates a capture (it calls `image2Tz`) or advances the step counter, then some tick
`j` of `pre` found the release pending, read the sensor (`getImage`), saw no finger, and at
least 2000 ms lie between the clock readings of `j` and `x` (32-bit clock difference). -/
theorem release_and_cooldown_before_next_scan (i0 : EnrollInput) (s : State)
    (pre : List EnrollInput) (x : EnrollInput)
    (hstep : s.enrollmentStep = 0 ∨ s.enrollmentStep = 1)
    (hacc : (enrollFingerprint i0 s).1.enrollmentStep = s.enrollmentStep + 1)
    (hev : (∃ b, Action.image2Tz b ∈
          (enrollFingerprint x (enrollTicks pre (enrollFingerprint i0 s).1)).2) ∨
      (enrollFingerprint x (enrollTicks pre (enrollFingerprint i0 s).1)).1.enrollmentStep =
        (enrollTicks pre (enrollFingerprint i0 s).1).enrollmentStep + 1) :
    ∃ pre1 j pre2, pre = pre1 ++ j :: pre2 ∧ j.rp = FINGERPRINT_NOFINGER ∧
      (enrollTicks pre1 (enrollFingerprint i0 s).1).requireFingerRelease = true ∧
      Action.getImage ∈ (enrollFingerprint j (enrollTicks pre1 (enrollFingerprint i0 s).1)).2 ∧
      2000 ≤ sub32 x.now j.now := by
  have hr := (enrollFingerprint_cool i0 s).accepted hstep hacc
  have hs1 : (enrollFingerprint i0 s).1.enrollmentStep = 1 ∨
      (enrollFingerprint i0 s).1.enrollmentStep = 2 := by
    rcases hstep with h | h
    · left; rw [hacc, h]; rfl
    · right; rw [hacc, h]; rfl
  have C := enrollFingerprint_cool x (enrollTicks pre (enrollFingerprint i0 s).1)
  rcases coolInv_all _ hr hs1 pre with hq | ⟨hp, hs⟩ | ⟨hp, hs, pre1, k, pre2, e, hk, hk1, hk2, hk3⟩
  · exfalso
    obtain ⟨_, c1, c2⟩ := C.quiet hq
    rcases hev with ⟨b, hb⟩ | h
    · exact c1 b hb
    · exact c2 h
  · exfalso
    obtain ⟨c1, c2⟩ := (C.pending hp hs).1
    rcases hev with ⟨b, hb⟩ | h
    · exact c1 b hb
    · exact c2 h
  · refine ⟨pre1, k, pre2, e, hk, hk1, hk2, ?_⟩
    rw [hk3]
    exact (C.released hp hs).1 hev

/-- Instance of the C14 theorem: scan 1 accepted at 1000, no finger seen at 1300, scan 2
evaluated at 3400. -/
theorem release_and_cooldown_before_next_scan_witness :
    (∃ b, Action.image2Tz b ∈
      (enrollFingerprint (EnrollInput.allOk 3400)
        (enrollTicks [EnrollInput.noFinger 1300]
          (enrollFingerprint (EnrollInput.allOk 1000)
            (handleEnrollmentRequest 200 restartDoc State.init).1).1)).2) ∧
    ∃ pre1 j pre2, [EnrollInput.noFinger 1300] = pre1 ++ j :: pre2 ∧
      j.rp = FINGERPRINT_NOFINGER ∧
      (enrollTicks pre1
        (enrollFingerprint (EnrollInput.allOk 1000)
          (handleEnrollmentRequest 200 restartDoc State.init).1).1).requireFingerRelease = true ∧
      Action.getImage ∈
        (enrollFingerprint j
          (enrollTicks pre1
            (enrollFingerprint (EnrollInput.allOk 1000)
              (handleEnrollmentRequest 200 restartDoc State.init).1).1)).2 ∧
      2000 ≤ sub32 (EnrollInput.allOk 3400).now j.now :=
  ⟨⟨1, by decide⟩,
   release_and_cooldown_before_next_scan (EnrollInput.allOk 1000)
     (handleEnrollmentRequest 200 restartDoc State.init).1 [EnrollInput.noFinger 1300]
     (EnrollInput.allOk 3400) (Or.inl (by decide)) (by decide) (Or.inl ⟨1, by decide⟩)⟩

/-! ## Attendance matching -/

theorem detectionEvents_append (a b : List Action) :
    detectionEvents (a ++ b) = detectionEvents a ++ detectionEvents b := by
  induction a with
  | nil => rfl
  | cons x xs ih =>
    cases x with
    | publish t p r =>
      cases t <;> cases p <;> simp [detectionEvents, ih]
    | _ => simp [detectionEvents, ih]

theorem published_append (a b : List Action) :
    published (a ++ b) = published a ++ published b := by
  simp [published, detectionEvents_append]

theorem publishHint_att (now limit : Nat) (c : Int) (reason : String) (s : State) :
    (publishHint now limit c reason s).1.requireFingerRemoval = s.requireFingerRemoval ∧
    (publishHint now limit c reason s).1.lastPublishMs = s.lastPublishMs ∧
    (publishHint now limit c reason s).1.lastCandidateId = s.lastCandidateId ∧
    (publishHint now limit c reason s).1.stableReads = s.stableReads ∧
    (publishHint now limit c reason s).1.lastScanTime = s.lastScanTime ∧
    detectionEvents (publishHint now limit c reason s).2 =
      (if s.requireFingerRemoval = false ∧ sub32 now s.lastHintMs > limit
        then [hintEvent now c reason] else []) := by
  unfold publishHint
  split_ifs <;> simp_all [detectionEvents, pubDetect, hintEvent]

theorem confirmAttempts_silent (fid : Int) (rs : List ConfirmReading) (sr : Int) :
    detectionEvents (confirmAttempts fid rs sr).2 = [] := by
  induction rs generalizing sr with
  | nil => simp [confirmAttempts, detectionEvents]
  | cons r rest ih =>
    unfold confirmAttempts
    split_ifs <;> simp [detectionEvents, ih]

theorem stableReadStage_att (i : AttendInput) (s : State) :
    (stableReadStage i s).1.requireFingerRemoval = s.requireFingerRemoval ∧
    (stableReadStage i s).1.lastPublishMs = s.lastPublishMs ∧
    (stableReadStage i s).1.lastScanTime = s.lastScanTime ∧
    (∀ d ∈ detectionEvents (stableReadStage i s).2,
      d.fingerprint_id = -2 ∧ d.match_type = "hint") := by
  have h := fun l c r s => publishHint_att i.now l c r s
  have h3 := confirmAttempts_silent (i.fingerID : Int) [i.confirm0, i.confirm1]
  unfold stableReadStage
  dsimp only
  split_ifs <;> simp [h, h3, detectionEvents_append, detectionEvents] <;>
    (intros; subst_vars; simp [hintEvent])

theorem publishHint_hint (now limit : Nat) (c : Int) (reason : String) (s : State) :
    ∀ d ∈ detectionEvents (publishHint now limit c reason s).2,
      d.fingerprint_id = -2 ∧ d.match_type = "hint" := by
  unfold publishHint
  split_ifs <;> simp [detectionEvents, pubDetect]

theorem published_nil_of_hints (tr : List Action)
    (h : ∀ d ∈ detectionEvents tr, d.fingerprint_id = -2 ∧ d.match_type = "hint") :
    published tr = [] := by
  simp only [published, List.filter_eq_nil_iff]
  intro d hd
  simp [(h d hd).2]

theorem hints_append (pre tr : List Action) (hpre : detectionEvents pre = [])
    (h : ∀ d ∈ detectionEvents tr, d.fingerprint_id = -2 ∧ d.match_type = "hint") :
    ∀ d ∈ detectionEvents (pre ++ tr), d.fingerprint_id = -2 ∧ d.match_type = "hint" := by
  simpa [detectionEvents_append, hpre] using h

theorem stableReadStage_silent (i : AttendInput) (s : State)
    (hst : ¬ ((i.confidence : Int) < HIGH_CONFIDENCE_BYPASS ∧
      (stableReadStage i s).1.stableReads < REQUIRED_STABLE_READS)) :
    detectionEvents (stableReadStage i s).2 = [] := by
  have h := fun l c r s => publishHint_att i.now l c r s
  have h3 := confirmAttempts_silent (i.fingerID : Int) [i.confirm0, i.confirm1]
  unfold stableReadStage at hst ⊢
  dsimp only at hst ⊢
  split_ifs at hst ⊢ <;> simp_all [detectionEvents_append, detectionEvents]

theorem attendanceMatch_att (i : AttendInput) (s : State) (pre : List Action)
    (hpre : detectionEvents pre = []) (hrm : s.requireFingerRemoval = false) :
    PublishFacts i s (attendanceMatch i s pre) := by
  have h := fun l c r s => publishHint_att i.now l c r s
  have hh := fun l c r s => hints_append pre _ hpre (publishHint_hint i.now l c r s)
  obtain ⟨g1, g2, _, g4⟩ := stableReadStage_att i s
  have g5 := hints_append pre _ hpre g4
  unfold attendanceMatch
  dsimp only
  split_ifs with c1 c2 c3 c4
  · exact ⟨Or.inl ⟨published_nil_of_hints _ (hh _ _ _ _), by simp [h], by simp [h], hh _ _ _ _⟩⟩
  · exact ⟨Or.inl ⟨published_nil_of_hints _ (hh _ _ _ _), by simp [h], by simp [h], hh _ _ _ _⟩⟩
  · exact ⟨Or.inl ⟨published_nil_of_hints _ g5, g2, g1, g5⟩⟩
  · exact ⟨Or.inl ⟨published_nil_of_hints _ g5, g2, g1, g5⟩⟩
  · refine ⟨Or.inr ⟨hrm, rfl, rfl, ?_, rfl, rfl, Or.inr ⟨?_, c1, ?_⟩⟩⟩
    · rw [g2] at c4
      exact Nat.le_of_not_lt c4
    · rw [detectionEvents_append, detectionEvents_append, hpre, stableReadStage_silent i s c3]
      rfl
    · exact Int.not_lt.mp c2

theorem attendanceOutcome_att (i : AttendInput) (p3 : Int) (pre : List Action) (s : State)
    (hpre : detectionEvents pre = []) (hrm : s.requireFingerRemoval = false) :
    PublishFacts i s (attendanceOutcome i p3 pre s) := by
  have h := fun l c r s => publishHint_att i.now l c r s
  have hh := fun l c r s => hints_append pre _ hpre (publishHint_hint i.now l c r s)
  have hnil : ∀ d ∈ detectionEvents pre, d.fingerprint_id = -2 ∧ d.match_type = "hint" := by
    rw [hpre]; simp
  unfold attendanceOutcome
  dsimp only
  split_ifs with c1 c2 c3
  · exact attendanceMatch_att i s pre hpre hrm
  · refine ⟨Or.inr ⟨hrm, rfl, rfl, c3, rfl, rfl, Or.inl ?_⟩⟩
    rw [detectionEvents_append, hpre]
    rfl
  · exact ⟨Or.inl ⟨published_nil_of_hints _ hnil, rfl, rfl, hnil⟩⟩
  · exact ⟨Or.inl ⟨published_nil_of_hints _ (hh _ _ _ _), by simp [h], by simp [h], hh _ _ _ _⟩⟩

theorem attendanceSearch_att (i : AttendInput) (s : State)
    (hrm : s.requireFingerRemoval = false) : PublishFacts i s (attendanceSearch i s) := by
  unfold attendanceSearch
  split_ifs
  · exact attendanceOutcome_att i _ _ s (by simp [detectionEvents]) hrm
  · exact attendanceOutcome_att i _ _ s (by simp [detectionEvents]) hrm

/-- A tick that reaches the search is the outcome handling on the state with the scan
clock updated. -/
theorem tick_searches (i : AttendInput) (s : State) (h : Searches i s) :
    attendanceScanning i s =
      attendanceOutcome i (searchResult i)
        (if i.p3 ≠ FINGERPRINT_OK ∧ i.p3 ≠ FINGERPRINT_NOTFOUND then
          [Action.getImage, Action.image2Tz 1, Action.fingerFastSearch, Action.fingerFastSearch]
         else [Action.getImage, Action.image2Tz 1, Action.fingerFastSearch])
        { s with lastScanTime := i.now } := by
  obtain ⟨h1, h2, h3, h4⟩ := h
  unfold attendanceScanning attendanceSearch searchResult
  dsimp only
  split_ifs <;> simp_all

theorem attendanceScanning_att (i : AttendInput) (s : State) :
    AttendFacts i s (attendanceScanning i s) := by
  by_cases hs : Searches i s
  · rw [tick_searches i s hs]
    have hrm : s.requireFingerRemoval = false := hs.2.1
    have hpre : detectionEvents
        (if i.p3 ≠ FINGERPRINT_OK ∧ i.p3 ≠ FINGERPRINT_NOTFOUND then
          [Action.getImage, Action.image2Tz 1, Action.fingerFastSearch, Action.fingerFastSearch]
         else [Action.getImage, Action.image2Tz 1, Action.fingerFastSearch]) = [] := by
      split_ifs <;> simp [detectionEvents]
    have P := attendanceOutcome_att i (searchResult i) _ { s with lastScanTime := i.now } hpre hrm
    refine ⟨?_, ?_, ?_⟩
    · rcases P.pub with ⟨p1, p2, p3, p4⟩ | ⟨_, p2, p3, p4, p5, p6, p7⟩
      · exact Or.inl ⟨p1, p2, fun h => by rw [p3] at h; exact h, p4⟩
      · exact Or.inr ⟨hs, p2, p3, p4, p5, p6, p7⟩
    · intro h; rw [hrm] at h; cases h
    · intro h; rw [hrm] at h; cases h
  · have h := fun l c r s => publishHint_att i.now l c r s
    have hh := fun l c r s => publishHint_hint i.now l c r s
    unfold Searches at hs
    unfold attendanceScanning
    dsimp only
    split_ifs with c1 c2 c3 c4 c5 c6
    · constructor <;> simp_all [published, detectionEvents, Action.isPublish]
    · constructor <;> simp_all [published, detectionEvents, Action.isPublish]
    · constructor <;> simp_all [published, detectionEvents, Action.isPublish]
    · constructor <;> simp_all [published, detectionEvents, Action.isPublish]
    · exact absurd ⟨c1, by simpa using c4, c5, c6⟩ hs
    · have c4f : s.requireFingerRemoval = false := by simpa using c4
      refine ⟨Or.inl ⟨?_, by simp [h], by simp [h], ?_⟩, ?_, ?_⟩
      · exact published_nil_of_hints _ (hints_append _ _ (by simp [detectionEvents]) (hh _ _ _ _))
      · exact hints_append _ _ (by simp [detectionEvents]) (hh _ _ _ _)
      · intro h; rw [c4f] at h; cases h
      · intro h; rw [c4f] at h; cases h
    all_goals
      have c4f : s.requireFingerRemoval = false := by simpa using c4
      refine ⟨Or.inl ⟨?_, by simp [h], by simp [h], ?_⟩, ?_, ?_⟩
      · exact published_nil_of_hints _ (hints_append _ _ (by simp [detectionEvents]) (hh _ _ _ _))
      · exact hints_append _ _ (by simp [detectionEvents]) (hh _ _ _ _)
      · intro h; rw [c4f] at h; cases h
      · intro h; rw [c4f] at h; cases h

theorem attendTicks_snoc (pre : List AttendInput) (j : AttendInput) (s : State) :
    attendTicks (pre ++ [j]) s = (attendanceScanning j (attendTicks pre s)).1 := by
  simp [attendTicks, List.foldl_append]

/-- A tick that publishes a match or unregistered event. -/
theorem publish_facts (i : AttendInput) (s : State)
    (h : published (attendanceScanning i s).2 ≠ []) :
    Searches i s ∧ (attendanceScanning i s).1.requireFingerRemoval = true ∧
    (attendanceScanning i s).1.lastPublishMs = i.now ∧
    MIN_PUBLISH_INTERVAL ≤ sub32 i.now s.lastPublishMs ∧
    (detectionEvents (attendanceScanning i s).2 = [unregisteredEvent i.now] ∨
      detectionEvents (attendanceScanning i s).2 = [matchEvent i]) := by
  rcases (attendanceScanning_att i s).pub with ⟨p1, _⟩ | ⟨p1, p2, p3, p4, _, _, p7⟩
  · exact absurd p1 h
  · refine ⟨p1, p2, p3, p4, ?_⟩
    rcases p7 with p | ⟨p, _⟩
    · exact Or.inl p
    · exact Or.inr p

theorem removal_pending_or_seen (s1 : State) (h1 : s1.requireFingerRemoval = true)
    (mid : List AttendInput) :
    (attendTicks mid s1).requireFingerRemoval = true ∨ RemovalSeen s1 mid := by
  induction mid using List.reverseRecOn with
  | nil => exact Or.inl h1
  | append_singleton mid j ih =>
    rw [attendTicks_snoc]
    rcases ih with hp | ⟨m1, z, m2, e, hz, hg⟩
    · rcases (attendanceScanning_att j (attendTicks mid s1)).release hp with c | ⟨c1, c2⟩
      · exact Or.inl c
      · exact Or.inr ⟨mid, j, [], rfl, c1, c2⟩
    · refine Or.inr ⟨m1, z, m2 ++ [j], ?_, hz, hg⟩
      rw [e]; simp

/-- Claim C15.  In every sequence of attendance ticks, from any state: if tick `x`
publishes a match or unregistered event and, after the ticks `mid`, tick `y` publishes
another one, then some tick of `mid` read the sensor and saw no finger.  And a tick with a
removal pending at which the sensor does not report no finger publishes nothing and leaves
candidate id, stable count and the removal flag unchanged. -/
theorem no_second_publish_without_removal (s : State) (x : AttendInput)
    (mid : List AttendInput) (y : AttendInput)
    (hx : published (attendanceScanning x s).2 ≠ [])
    (hy : published (attendanceScanning y (attendTicks mid (attendanceScanning x s).1)).2 ≠ []) :
    (∃ m1 z m2, mid = m1 ++ z :: m2 ∧ z.p = FINGERPRINT_NOFINGER ∧
      Action.getImage ∈
        (attendanceScanning z (attendTicks m1 (attendanceScanning x s).1)).2) ∧
    (∀ (t : State) (i : AttendInput), t.requireFingerRemoval = true →
      i.p ≠ FINGERPRINT_NOFINGER →
      (attendanceScanning i t).2.all (fun a => !a.isPublish) = true ∧
      (attendanceScanning i t).1.lastCandidateId = t.lastCandidateId ∧
      (attendanceScanning i t).1.stableReads = t.stableReads ∧
      (attendanceScanning i t).1.requireFingerRemoval = true) := by
  refine ⟨?_, fun t i ht hi => (attendanceScanning_att i t).pending ht hi⟩
  have h1 := (publish_facts x s hx).2.1
  rcases removal_pending_or_seen _ h1 mid with hp | hseen
  · have hs := (publish_facts y _ hy).1
    rw [hs.2.1] at hp
    cases hp
  · exact hseen

/-- Instance of the C15 theorem: a match at 2000, the finger lifted at 2400, a match at
4000. -/
theorem no_second_publish_without_removal_witness :
    ∃ m1 z m2, [AttendInput.noFinger 2400] = m1 ++ z :: m2 ∧ z.p = FINGERPRINT_NOFINGER ∧
      Action.getImage ∈
        (attendanceScanning z
          (attendTicks m1 (attendanceScanning (AttendInput.found 2000 150 80) State.init).1)).2 :=
  (no_second_publish_without_removal State.init (AttendInput.found 2000 150 80)
    [AttendInput.noFinger 2400] (AttendInput.found 4000 151 80) (by decide) (by decide)).1

theorem searchCalls_silent (i : AttendInput) : detectionEvents (searchCalls i) = [] := by
  unfold searchCalls
  split_ifs <;> simp [detectionEvents]

theorem tick_match (i : AttendInput) (s : State) (h : Searches i s)
    (hm : searchResult i = FINGERPRINT_OK) :
    attendanceScanning i s =
      attendanceMatch i { s with lastScanTime := i.now } (searchCalls i) := by
  rw [tick_searches i s h, hm]
  unfold attendanceOutcome searchCalls
  simp

theorem stableReadStage_bypass (i : AttendInput) (s : State)
    (hc : HIGH_CONFIDENCE_BYPASS ≤ (i.confidence : Int)) :
    stableReadStage i s = ({ s with stableReads := REQUIRED_STABLE_READS }, []) := by
  unfold stableReadStage
  simp [hc]

theorem stableReadStage_standard (i : AttendInput) (s : State)
    (hc : ¬ HIGH_CONFIDENCE_BYPASS ≤ (i.confidence : Int)) (hst : 0 ≤ s.stableReads) :
    (stableReadStage i s).2 = [] ∧ ¬ (stableReadStage i s).1.stableReads < REQUIRED_STABLE_READS ∧
    (stableReadStage i s).1.lastPublishMs = s.lastPublishMs := by
  unfold stableReadStage
  dsimp only
  split_ifs <;> simp_all <;> omega

/-- A match outside the legacy range with confidence at least 40 that the stable-read
stage lets through: the result of the match branch. -/
theorem attendanceMatch_stable (i : AttendInput) (s : State) (pre : List Action)
    (hid : ¬ ((i.fingerID : Int) > 0 ∧ (i.fingerID : Int) < 100))
    (hc : MIN_CONFIDENCE ≤ (i.confidence : Int))
    (hst : HIGH_CONFIDENCE_BYPASS ≤ (i.confidence : Int) ∨ 0 ≤ s.stableReads) :
    (¬ sub32 i.now s.lastPublishMs < MIN_PUBLISH_INTERVAL →
      detectionEvents (attendanceMatch i s pre).2 = detectionEvents pre ++ [matchEvent i] ∧
      (attendanceMatch i s pre).1.requireFingerRemoval = true ∧
      (attendanceMatch i s pre).1.lastCandidateId = -1 ∧
      (attendanceMatch i s pre).1.stableReads = 0) ∧
    (sub32 i.now s.lastPublishMs < MIN_PUBLISH_INTERVAL →
      detectionEvents (attendanceMatch i s pre).2 = detectionEvents pre ∧
      (attendanceMatch i s pre).1.requireFingerRemoval = s.requireFingerRemoval) := by
  have hc2 : ¬ (i.confidence : Int) < MIN_CONFIDENCE := Int.not_lt.mpr hc
  by_cases hb : HIGH_CONFIDENCE_BYPASS ≤ (i.confidence : Int)
  · have e := stableReadStage_bypass i s hb
    have hb2 : ¬ (i.confidence : Int) < HIGH_CONFIDENCE_BYPASS := Int.not_lt.mpr hb
    unfold attendanceMatch
    dsimp only
    rw [if_neg hid, if_neg hc2, e]
    dsimp only
    rw [if_neg (fun h => hb2 h.1)]
    constructor
    · intro hr
      rw [if_neg hr]
      simp [detectionEvents_append, detectionEvents, pubDetect, matchEvent]
    · intro hr
      rw [if_pos hr]
      simp
  · have hst2 : 0 ≤ s.stableReads := by
      rcases hst with h | h
      · exact absurd h hb
      · exact h
    obtain ⟨e1, e2, e3⟩ := stableReadStage_standard i s hb hst2
    have g := (stableReadStage_att i s).1
    unfold attendanceMatch
    dsimp only
    rw [if_neg hid, if_neg hc2]
    have hn : ¬ ((i.confidence : Int) < HIGH_CONFIDENCE_BYPASS ∧
        (stableReadStage i s).1.stableReads < REQUIRED_STABLE_READS) := fun h => e2 h.2
    rw [if_neg hn, e3, e1]
    constructor
    · intro hr
      rw [if_neg hr]
      simp [detectionEvents_append, detectionEvents, pubDetect, matchEvent]
    · intro hr
      rw [if_pos hr]
      simp [g]

/-- Claim C16, amended.  On the standard path one read is enough: a tick that reaches the
search with no removal pending, finds a match with id outside (0,100) and confidence in
[40, 65), at least 1500 ms after the last publish and with a stable count that is not
negative, publishes the match event on this read, whatever the previous candidate id was,
then requires removal and clears candidate and stable count. -/
theorem standard_path_publishes_first_read (i : AttendInput) (s : State)
    (hs : Searches i s) (hm : searchResult i = FINGERPRINT_OK)
    (hid : ¬ ((i.fingerID : Int) > 0 ∧ (i.fingerID : Int) < 100))
    (hc1 : MIN_CONFIDENCE ≤ (i.confidence : Int))
    (_hc2 : (i.confidence : Int) < HIGH_CONFIDENCE_BYPASS)
    (hst : 0 ≤ s.stableReads)
    (hr : ¬ sub32 i.now s.lastPublishMs < MIN_PUBLISH_INTERVAL) :
    detectionEvents (attendanceScanning i s).2 = [matchEvent i] ∧
    (attendanceScanning i s).1.requireFingerRemoval = true ∧
    (attendanceScanning i s).1.lastCandidateId = -1 ∧
    (attendanceScanning i s).1.stableReads = 0 := by
  rw [tick_match i s hs hm]
  have h := (attendanceMatch_stable i { s with lastScanTime := i.now } (searchCalls i) hid hc1
    (Or.inr hst)).1 hr
  rw [searchCalls_silent] at h
  exact h

/-- Claim C17.  A tick that reaches the search with no removal pending and finds a match
with confidence at least 65 and id outside (0,100), at least 1500 ms after the last
publish, publishes exactly the match event with that id and confidence (mode attendance,
match type hardware) on this read, whatever candidate id and stable count were, then
requires removal and clears candidate and stable count. -/
theorem high_confidence_publishes_first_read (i : AttendInput) (s : State)
    (hs : Searches i s) (hm : searchResult i = FINGERPRINT_OK)
    (hid : ¬ ((i.fingerID : Int) > 0 ∧ (i.fingerID : Int) < 100))
    (hc : HIGH_CONFIDENCE_BYPASS ≤ (i.confidence : Int))
    (hr : ¬ sub32 i.now s.lastPublishMs < MIN_PUBLISH_INTERVAL) :
    detectionEvents (attendanceScanning i s).2 =
      [{ fingerprint_id := (i.fingerID : Int), confidence := (i.confidence : Int),
         timestamp := i.now, mode := "attendance", match_type := "hardware" }] ∧
    (attendanceScanning i s).1.requireFingerRemoval = true ∧
    (attendanceScanning i s).1.lastCandidateId = -1 ∧
    (attendanceScanning i s).1.stableReads = 0 := by
  rw [tick_match i s hs hm]
  have hc1 : MIN_CONFIDENCE ≤ (i.confidence : Int) := le_trans (by decide) hc
  have h := (attendanceMatch_stable i { s with lastScanTime := i.now } (searchCalls i) hid hc1
    (Or.inl hc)).1 hr
  rw [searchCalls_silent] at h
  exact h

theorem attendanceMatch_legacy (i : AttendInput) (s : State) (pre : List Action)
    (hid : (i.fingerID : Int) > 0 ∧ (i.fingerID : Int) < 100) :
    detectionEvents (attendanceMatch i s pre).2 = detectionEvents pre ++
      (if s.requireFingerRemoval = false ∧ sub32 i.now s.lastHintMs > 1500
        then [hintEvent i.now (i.confidence : Int) "legacy_slot"] else []) ∧
    (attendanceMatch i s pre).1.lastCandidateId = -1 ∧
    (attendanceMatch i s pre).1.stableReads = 0 := by
  have h := publishHint_att i.now 1500 (i.confidence : Int) "legacy_slot" s
  unfold attendanceMatch
  dsimp only
  rw [if_pos hid]
  simp [detectionEvents_append, h]

theorem attendanceMatch_low (i : AttendInput) (s : State) (pre : List Action)
    (hid : ¬ ((i.fingerID : Int) > 0 ∧ (i.fingerID : Int) < 100))
    (hc : (i.confidence : Int) < MIN_CONFIDENCE) :
    detectionEvents (attendanceMatch i s pre).2 = detectionEvents pre ++
      (if s.requireFingerRemoval = false ∧ sub32 i.now s.lastHintMs > 700
        then [hintEvent i.now (i.confidence : Int) "low_confidence"] else []) ∧
    (attendanceMatch i s pre).1.lastCandidateId = -1 ∧
    (attendanceMatch i s pre).1.stableReads = 0 ∧
    (attendanceMatch i s pre).1.requireFingerRemoval = s.requireFingerRemoval ∧
    (attendanceMatch i s pre).1.lastPublishMs = s.lastPublishMs := by
  have h := publishHint_att i.now 700 (i.confidence : Int) "low_confidence" s
  unfold attendanceMatch
  dsimp only
  rw [if_neg hid, if_pos hc]
  simp [detectionEvents_append, h]

theorem published_subset (tr : List Action) (d : Detection) (h : d ∈ published tr) :
    d ∈ detectionEvents tr ∧ d.match_type = "hardware" := by
  simpa [published] using h

/-- Claim C18.  In every sequence of attendance ticks, from any state, a published
authoritative event (match type hardware, id other than -1) never has its id in the open
interval (0, 100); and a tick whose search returns such an id publishes nothing but at most
one hint (id -2, reason legacy_slot) and resets candidate id and stable count. -/
theorem legacy_ids_never_published (s : State) (pre : List AttendInput) (x : AttendInput) :
    (∀ d ∈ published (attendanceScanning x (attendTicks pre s)).2, d.fingerprint_id ≠ -1 →
      ¬ (0 < d.fingerprint_id ∧ d.fingerprint_id < 100)) ∧
    (Searches x (attendTicks pre s) → searchResult x = FINGERPRINT_OK →
      ((x.fingerID : Int) > 0 ∧ (x.fingerID : Int) < 100) →
      (detectionEvents (attendanceScanning x (attendTicks pre s)).2 = [] ∨
        detectionEvents (attendanceScanning x (attendTicks pre s)).2 =
          [{ fingerprint_id := -2, confidence := (x.confidence : Int), timestamp := x.now,
             mode := "attendance", match_type := "hint", reason := some "legacy_slot" }]) ∧
      (attendanceScanning x (attendTicks pre s)).1.lastCandidateId = -1 ∧
      (attendanceScanning x (attendTicks pre s)).1.stableReads = 0) := by
  generalize attendTicks pre s = t
  constructor
  · intro d hd hne
    obtain ⟨hd1, hd2⟩ := published_subset _ d hd
    rcases (attendanceScanning_att x t).pub with ⟨_, _, _, p4⟩ | ⟨_, _, _, _, _, _, p7⟩
    · have := (p4 d hd1).2
      rw [hd2] at this
      exact absurd this (by decide)
    · rcases p7 with p | ⟨p, q, _⟩
      · rw [p] at hd1
        simp only [List.mem_singleton] at hd1
        rw [hd1] at hne
        exact absurd rfl hne
      · rw [p] at hd1
        simp only [List.mem_singleton] at hd1
        rw [hd1]
        exact q
  · intro hs hm hid
    rw [tick_match x t hs hm]
    obtain ⟨e1, e2, e3⟩ := attendanceMatch_legacy x { t with lastScanTime := x.now }
      (searchCalls x) hid
    rw [searchCalls_silent] at e1
    refine ⟨?_, e2, e3⟩
    rw [e1]
    split_ifs
    · right; rfl
    · left; rfl

/-- Claim C20.  A tick that reaches the search and finds a match with confidence below 40
and id outside (0,100) publishes no match or unregistered event; its only detection event
is the hint (id -2, reason low_confidence), published when more than 700 ms have passed
since the last hint and not otherwise; candidate id becomes -1 and stable count 0, and the
removal flag and the publish clock are unchanged. -/
theorem low_confidence_is_hint_only (i : AttendInput) (s : State)
    (hs : Searches i s) (hm : searchResult i = FINGERPRINT_OK)
    (hid : ¬ ((i.fingerID : Int) > 0 ∧ (i.fingerID : Int) < 100))
    (hc : (i.confidence : Int) < MIN_CONFIDENCE) :
    published (attendanceScanning i s).2 = [] ∧
    detectionEvents (attendanceScanning i s).2 =
      (if sub32 i.now s.lastHintMs > 700 then
        [{ fingerprint_id := -2, confidence := (i.confidence : Int), timestamp := i.now,
           mode := "attendance", match_type := "hint", reason := some "low_confidence" }]
       else []) ∧
    (attendanceScanning i s).1.lastCandidateId = -1 ∧
    (attendanceScanning i s).1.stableReads = 0 ∧
    (attendanceScanning i s).1.requireFingerRemoval = false ∧
    (attendanceScanning i s).1.lastPublishMs = s.lastPublishMs := by
  rw [tick_match i s hs hm]
  obtain ⟨e1, e2, e3, e4, e5⟩ := attendanceMatch_low i { s with lastScanTime := i.now }
    (searchCalls i) hid hc
  rw [searchCalls_silent] at e1
  have hrm : s.requireFingerRemoval = false := hs.2.1
  have e1b : detectionEvents
      (attendanceMatch i { s with lastScanTime := i.now } (searchCalls i)).2 =
      (if sub32 i.now s.lastHintMs > 700 then
        [hintEvent i.now (i.confidence : Int) "low_confidence"] else []) := by
    rw [e1]
    simp [hrm]
  refine ⟨?_, e1b, e2, e3, e4.trans hrm, e5⟩
  unfold published
  rw [e1b]
  split_ifs <;> simp [hintEvent]

theorem sub32_of_le (a b : Nat) (hba : b ≤ a) (ha : a < 4294967296) : sub32 a b = a - b := by
  unfold sub32
  rw [Nat.mod_eq_of_lt ha, Nat.mod_eq_of_lt (lt_of_le_of_lt hba ha)]
  have e : a + 4294967296 - b = (a - b) + 4294967296 := by omega
  rw [e, Nat.add_mod_right]
  exact Nat.mod_eq_of_lt (by omega)

theorem publish_clock_between (s1 : State) (lo hi : Nat)
    (h1 : lo ≤ s1.lastPublishMs ∧ s1.lastPublishMs ≤ hi) (mid : List AttendInput)
    (hmid : ∀ z ∈ mid, lo ≤ z.now ∧ z.now ≤ hi) :
    lo ≤ (attendTicks mid s1).lastPublishMs ∧ (attendTicks mid s1).lastPublishMs ≤ hi := by
  induction mid using List.reverseRecOn with
  | nil => exact h1
  | append_singleton mid j ih =>
    rw [attendTicks_snoc]
    have ih2 := ih (fun z hz => hmid z (List.mem_append_left _ hz))
    have hj := hmid j (by simp)
    rcases (attendanceScanning_att j (attendTicks mid s1)).pub with ⟨_, p2, _⟩ | ⟨_, _, p3, _⟩
    · rw [p2]; exact ih2
    · rw [p3]; exact hj

theorem published_timestamp (i : AttendInput) (s : State) (d : Detection)
    (hd : d ∈ published (attendanceScanning i s).2) : d.timestamp = i.now := by
  have hne : published (attendanceScanning i s).2 ≠ [] := by
    intro h; rw [h] at hd; cases hd
  have hd1 := (published_subset _ d hd).1
  rcases (publish_facts i s hne).2.2.2.2 with p | p
  · rw [p] at hd1
    simp only [List.mem_singleton] at hd1
    rw [hd1]; rfl
  · rw [p] at hd1
    simp only [List.mem_singleton] at hd1
    rw [hd1]; rfl

/-- Claim C19.  With a clock that does not go backwards between the ticks concerned and
does not wrap (all readings between the two publishes lie between them and below 2^32): if
tick `x` publishes a match or unregistered event and a later tick `y` publishes another one,
their timestamps are at least 1500 ms apart.  And a match that the stable-read stage lets
through (id outside (0,100), confidence at least 40, stable count not negative) but that
arrives less than 1500 ms after the last publish is dropped: the tick publishes no
detection event and the removal flag stays clear. -/
theorem publishes_are_rate_limited (s : State) (x : AttendInput) (mid : List AttendInput)
    (y : AttendInput)
    (hx : published (attendanceScanning x s).2 ≠ [])
    (hy : published (attendanceScanning y (attendTicks mid (attendanceScanning x s).1)).2 ≠ [])
    (hmid : ∀ z ∈ mid, x.now ≤ z.now ∧ z.now ≤ y.now)
    (hxy : x.now ≤ y.now) (hwrap : y.now < 4294967296) :
    (∀ d1 ∈ published (attendanceScanning x s).2,
      ∀ d2 ∈ published (attendanceScanning y (attendTicks mid (attendanceScanning x s).1)).2,
        d1.timestamp + 1500 ≤ d2.timestamp) ∧
    (∀ (t : State) (i : AttendInput), Searches i t → searchResult i = FINGERPRINT_OK →
      ¬ ((i.fingerID : Int) > 0 ∧ (i.fingerID : Int) < 100) →
      MIN_CONFIDENCE ≤ (i.confidence : Int) → 0 ≤ t.stableReads →
      sub32 i.now t.lastPublishMs < MIN_PUBLISH_INTERVAL →
      detectionEvents (attendanceScanning i t).2 = [] ∧
      (attendanceScanning i t).1.requireFingerRemoval = false) := by
  constructor
  · intro d1 hd1 d2 hd2
    rw [published_timestamp x s d1 hd1, published_timestamp y _ d2 hd2]
    have hlp := (publish_facts x s hx).2.2.1
    obtain ⟨b1, b2⟩ := publish_clock_between (attendanceScanning x s).1 x.now y.now
      ⟨by rw [hlp], by rw [hlp]; exact hxy⟩ mid hmid
    have hrate := (publish_facts y _ hy).2.2.2.1
    rw [sub32_of_le _ _ b2 hwrap] at hrate
    have : (1500 : Nat) ≤ y.now - (attendTicks mid (attendanceScanning x s).1).lastPublishMs :=
      hrate
    omega
  · intro t i hs hm hid hc hst hr
    rw [tick_match i t hs hm]
    have h := (attendanceMatch_stable i { t with lastScanTime := i.now } (searchCalls i) hid hc
      (Or.inr hst)).2 hr
    rw [searchCalls_silent] at h
    exact ⟨h.1, h.2.trans hs.2.1⟩

/-- Claim C16, as stated, fails on the code: from the boot state, where no id has been read
(candidate -1, stable count 0), a single read of id 150 with confidence 50 publishes the
match event. -/
theorem single_standard_read_publishes :
    State.init.lastCandidateId = -1 ∧ State.init.stableReads = 0 ∧
    detectionEvents (attendanceScanning (AttendInput.found 2000 150 50) State.init).2 =
      [{ fingerprint_id := 150, confidence := 50, timestamp := 2000, mode := "attendance",
         match_type := "hardware" }] := by
  decide

/-- Instance of the amended C16 theorem: id 150 read once with confidence 50. -/
theorem standard_path_publishes_first_read_witness :
    detectionEvents (attendanceScanning (AttendInput.found 2000 150 50) State.init).2 =
      [matchEvent (AttendInput.found 2000 150 50)] ∧
    (attendanceScanning (AttendInput.found 2000 150 50) State.init).1.requireFingerRemoval =
      true ∧
    (attendanceScanning (AttendInput.found 2000 150 50) State.init).1.lastCandidateId = -1 ∧
    (attendanceScanning (AttendInput.found 2000 150 50) State.init).1.stableReads = 0 :=
  standard_path_publishes_first_read (AttendInput.found 2000 150 50) State.init
    ⟨by decide, rfl, rfl, rfl⟩ (by decide) (by decide) (by decide) (by decide) (by decide)
    (by decide)

/-- Instance of the C17 theorem: id 150 read with confidence 80 while the candidate is
another id. -/
theorem high_confidence_publishes_first_read_witness :
    detectionEvents
      (attendanceScanning (AttendInput.found 2000 150 80)
        { State.init with lastCandidateId := 7, stableReads := 3 }).2 =
      [{ fingerprint_id := 150, confidence := 80, timestamp := 2000, mode := "attendance",
         match_type := "hardware" }] ∧
    (attendanceScanning (AttendInput.found 2000 150 80)
      { State.init with lastCandidateId := 7, stableReads := 3 }).1.requireFingerRemoval =
      true ∧
    (attendanceScanning (AttendInput.found 2000 150 80)
      { State.init with lastCandidateId := 7, stableReads := 3 }).1.lastCandidateId = -1 ∧
    (attendanceScanning (AttendInput.found 2000 150 80)
      { State.init with lastCandidateId := 7, stableReads := 3 }).1.stableReads = 0 :=
  high_confidence_publishes_first_read (AttendInput.found 2000 150 80)
    { State.init with lastCandidateId := 7, stableReads := 3 }
    ⟨by decide, rfl, rfl, rfl⟩ (by decide) (by decide) (by decide) (by decide)

/-- Instance of the C18 theorem: the search returns the legacy id 42. -/
theorem legacy_ids_never_published_witness :
    (detectionEvents
        (attendanceScanning (AttendInput.found 2000 42 80) (attendTicks [] State.init)).2 = [] ∨
      detectionEvents
        (attendanceScanning (AttendInput.found 2000 42 80) (attendTicks [] State.init)).2 =
        [{ fingerprint_id := -2, confidence := 80, timestamp := 2000, mode := "attendance",
           match_type := "hint", reason := some "legacy_slot" }]) ∧
    (attendanceScanning (AttendInput.found 2000 42 80)
      (attendTicks [] State.init)).1.lastCandidateId = -1 ∧
    (attendanceScanning (AttendInput.found 2000 42 80)
      (attendTicks [] State.init)).1.stableReads = 0 :=
  (legacy_ids_never_published State.init [] (AttendInput.found 2000 42 80)).2
    ⟨by decide, rfl, rfl, rfl⟩ (by decide) (by decide)

/-- Instance of the C19 theorem: matches at 2000 and 4000 with the finger lifted at 2400. -/
theorem publishes_are_rate_limited_witness :
    (matchEvent (AttendInput.found 2000 150 80)).timestamp + 1500 ≤
      (matchEvent (AttendInput.found 4000 151 80)).timestamp :=
  (publishes_are_rate_limited State.init (AttendInput.found 2000 150 80)
    [AttendInput.noFinger 2400] (AttendInput.found 4000 151 80) (by decide) (by decide)
    (by decide) (by decide) (by decide)).1
    (matchEvent (AttendInput.found 2000 150 80)) (by decide)
    (matchEvent (AttendInput.found 4000 151 80)) (by decide)

/-- Instance of the C20 theorem: id 150 read with confidence 30. -/
theorem low_confidence_is_hint_only_witness :
    published (attendanceScanning (AttendInput.found 2000 150 30) State.init).2 = [] ∧
    detectionEvents (attendanceScanning (AttendInput.found 2000 150 30) State.init).2 =
      (if sub32 (AttendInput.found 2000 150 30).now State.init.lastHintMs > 700 then
        [{ fingerprint_id := -2, confidence := ((AttendInput.found 2000 150 30).confidence : Int),
           timestamp := (AttendInput.found 2000 150 30).now,
           mode := "attendance", match_type := "hint", reason := some "low_confidence" }]
       else []) ∧
    (attendanceScanning (AttendInput.found 2000 150 30) State.init).1.lastCandidateId = -1 ∧
    (attendanceScanning (AttendInput.found 2000 150 30) State.init).1.stableReads = 0 ∧
    (attendanceScanning (AttendInput.found 2000 150 30) State.init).1.requireFingerRemoval =
      false ∧
    (attendanceScanning (AttendInput.found 2000 150 30) State.init).1.lastPublishMs =
      State.init.lastPublishMs :=
  low_confidence_is_hint_only (AttendInput.found 2000 150 30) State.init
    ⟨by decide, rfl, rfl, rfl⟩ (by decide) (by decide) (by decide)

/-! ## Debounce state and unregistered fingers -/

theorem searchCalls_no_publish (i : AttendInput) :
    (searchCalls i).all (fun a => !a.isPublish) = true := by
  unfold searchCalls
  split_ifs <;> simp [Action.isPublish]

theorem tick_notfound (i : AttendInput) (s : State) (h : Searches i s)
    (hm : searchResult i = FINGERPRINT_NOTFOUND) :
    attendanceScanning i s =
      if sub32 i.now s.lastPublishMs ≥ MIN_PUBLISH_INTERVAL then
        ({ s with lastScanTime := i.now, lastPublishMs := i.now, requireFingerRemoval := true,
                  lastCandidateId := -1, stableReads := 0 },
         searchCalls i ++ [pubDetect (unregisteredEvent i.now)])
      else ({ s with lastScanTime := i.now }, searchCalls i) := by
  rw [tick_searches i s h, hm]
  unfold attendanceOutcome searchCalls unregisteredEvent
  simp

theorem tick_search_error (i : AttendInput) (s : State) (h : Searches i s)
    (h1 : searchResult i ≠ FINGERPRINT_OK) (h2 : searchResult i ≠ FINGERPRINT_NOTFOUND) :
    (attendanceScanning i s).1.lastCandidateId = -1 ∧
    (attendanceScanning i s).1.stableReads = 0 := by
  rw [tick_searches i s h]
  unfold attendanceOutcome
  dsimp only
  rw [if_neg h1, if_neg h2]
  simp

theorem tick_removed (i : AttendInput) (s : State)
    (h1 : ¬ sub32 i.now s.lastScanTime < SCAN_INTERVAL) (h2 : i.p = FINGERPRINT_NOFINGER)
    (h3 : s.requireFingerRemoval = true) :
    attendanceScanning i s =
      ({ s with lastScanTime := i.now, requireFingerRemoval := false, lastCandidateId := -1,
                stableReads := 0 }, [Action.getImage]) := by
  unfold attendanceScanning
  simp [h1, h2, h3]

theorem stableReadStage_disagree (i : AttendInput) (s : State)
    (hc : (i.confidence : Int) < HIGH_CONFIDENCE_BYPASS)
    (hd : s.lastCandidateId ≠ (i.fingerID : Int)) :
    stableReadStage i s = ({ s with lastCandidateId := (i.fingerID : Int), stableReads := 1 }, []) := by
  have hc2 : ¬ (i.confidence : Int) ≥ HIGH_CONFIDENCE_BYPASS := Int.not_le.mpr hc
  unfold stableReadStage
  simp [hc2, hd]

theorem tick_disagree (i : AttendInput) (s : State) (h : Searches i s)
    (hm : searchResult i = FINGERPRINT_OK)
    (hid : ¬ ((i.fingerID : Int) > 0 ∧ (i.fingerID : Int) < 100))
    (hc1 : MIN_CONFIDENCE ≤ (i.confidence : Int))
    (hc2 : (i.confidence : Int) < HIGH_CONFIDENCE_BYPASS)
    (hd : s.lastCandidateId ≠ (i.fingerID : Int)) :
    (sub32 i.now s.lastPublishMs < MIN_PUBLISH_INTERVAL →
      (attendanceScanning i s).1.lastCandidateId = (i.fingerID : Int) ∧
      (attendanceScanning i s).1.stableReads = 1) ∧
    (¬ sub32 i.now s.lastPublishMs < MIN_PUBLISH_INTERVAL →
      (attendanceScanning i s).1.lastCandidateId = -1 ∧
      (attendanceScanning i s).1.stableReads = 0) := by
  rw [tick_match i s h hm]
  have e := stableReadStage_disagree i { s with lastScanTime := i.now } hc2 hd
  have hc3 : ¬ (i.confidence : Int) < MIN_CONFIDENCE := Int.not_lt.mpr hc1
  unfold attendanceMatch
  dsimp only
  rw [if_neg hid, if_neg hc3, e]
  dsimp only
  have hn : ¬ ((i.confidence : Int) < HIGH_CONFIDENCE_BYPASS ∧ (1 : Int) < REQUIRED_STABLE_READS) :=
    fun h => absurd h.2 (by decide)
  rw [if_neg hn]
  constructor
  · intro hr
    rw [if_pos hr]
    exact ⟨rfl, rfl⟩
  · intro hr
    rw [if_neg hr]
    exact ⟨rfl, rfl⟩

theorem handleDetectionRequest_debounce (now : Nat) (doc : Doc) (s : State) :
    (handleDetectionRequest now doc s).1.lastCandidateId = s.lastCandidateId ∧
    (handleDetectionRequest now doc s).1.stableReads = s.stableReads ∧
    (handleDetectionRequest now doc s).1.requireFingerRemoval = s.requireFingerRemoval := by
  unfold handleDetectionRequest
  dsimp only
  split_ifs <;> (try split) <;> (try split_ifs) <;> simp

/-- Claim C21, as stated, fails on the code.  After `candidateTicks` the candidate is id 107
with stable count 1 and no removal is pending.  A rate-limited read of the disagreeing id
150 makes 150 the candidate with count 1; a no-finger tick leaves candidate 107 and count 1;
and a `disable` request sets detectionMode to 0 but leaves candidate 107 and count 1. -/
theorem debounce_not_reset :
    (attendTicks candidateTicks State.init).lastCandidateId = 107 ∧
    (attendTicks candidateTicks State.init).stableReads = 1 ∧
    (attendTicks candidateTicks State.init).requireFingerRemoval = false ∧
    (attendanceScanning (AttendInput.found 3200 150 50)
      (attendTicks candidateTicks State.init)).1.lastCandidateId = 150 ∧
    (attendanceScanning (AttendInput.found 3200 150 50)
      (attendTicks candidateTicks State.init)).1.stableReads = 1 ∧
    (attendanceScanning (AttendInput.noFinger 3200)
      (attendTicks candidateTicks State.init)).1.lastCandidateId = 107 ∧
    (attendanceScanning (AttendInput.noFinger 3200)
      (attendTicks candidateTicks State.init)).1.stableReads = 1 ∧
    (handleDetectionRequest 3200 disableDoc
      (attendTicks candidateTicks State.init)).1.detectionMode = 0 ∧
    (handleDetectionRequest 3200 disableDoc
      (attendTicks candidateTicks State.init)).1.lastCandidateId = 107 ∧
    (handleDetectionRequest 3200 disableDoc
      (attendTicks candidateTicks State.init)).1.stableReads = 1 := by
  decide

/-- Claim C21, amended.  The debounce state (candidate id, stable count) is reset to -1/0
by every tick whose search ends in an error and by every tick that reads no finger while a
removal is pending.  A standard-path match (id outside (0,100), confidence in [40, 65))
whose id disagrees with the candidate restarts the debounce at that id with count 1 when
the publish is rate-limited, and resets it to -1/0 when the match is published.  A
detection request leaves the debounce state unchanged. -/
theorem debounce_reset_cases (i : AttendInput) (s : State) (now : Nat) (doc : Doc) :
    (Searches i s → searchResult i ≠ FINGERPRINT_OK → searchResult i ≠ FINGERPRINT_NOTFOUND →
      (attendanceScanning i s).1.lastCandidateId = -1 ∧
      (attendanceScanning i s).1.stableReads = 0) ∧
    (¬ sub32 i.now s.lastScanTime < SCAN_INTERVAL → i.p = FINGERPRINT_NOFINGER →
      s.requireFingerRemoval = true →
      (attendanceScanning i s).1.lastCandidateId = -1 ∧
      (attendanceScanning i s).1.stableReads = 0) ∧
    (Searches i s → searchResult i = FINGERPRINT_OK →
      ¬ ((i.fingerID : Int) > 0 ∧ (i.fingerID : Int) < 100) →
      MIN_CONFIDENCE ≤ (i.confidence : Int) → (i.confidence : Int) < HIGH_CONFIDENCE_BYPASS →
      s.lastCandidateId ≠ (i.fingerID : Int) →
      (sub32 i.now s.lastPublishMs < MIN_PUBLISH_INTERVAL →
        (attendanceScanning i s).1.lastCandidateId = (i.fingerID : Int) ∧
        (attendanceScanning i s).1.stableReads = 1) ∧
      (¬ sub32 i.now s.lastPublishMs < MIN_PUBLISH_INTERVAL →
        (attendanceScanning i s).1.lastCandidateId = -1 ∧
        (attendanceScanning i s).1.stableReads = 0)) ∧
    ((handleDetectionRequest now doc s).1.lastCandidateId = s.lastCandidateId ∧
      (handleDetectionRequest now doc s).1.stableReads = s.stableReads) := by
  refine ⟨tick_search_error i s, ?_, tick_disagree i s, ?_⟩
  · intro h1 h2 h3
    rw [tick_removed i s h1 h2 h3]
    exact ⟨rfl, rfl⟩
  · exact ⟨(handleDetectionRequest_debounce now doc s).1,
      (handleDetectionRequest_debounce now doc s).2.1⟩

/-- Instance of the amended C21 theorem: with candidate 107 and count 1, a search error
resets the debounce state. -/
theorem debounce_reset_cases_witness :
    (attendanceScanning (AttendInput.searchError 3200)
      (attendTicks candidateTicks State.init)).1.lastCandidateId = -1 ∧
    (attendanceScanning (AttendInput.searchError 3200)
      (attendTicks candidateTicks State.init)).1.stableReads = 0 :=
  (debounce_reset_cases (AttendInput.searchError 3200) (attendTicks candidateTicks State.init)
    3200 disableDoc).1 ⟨by decide, by decide, rfl, rfl⟩ (by decide) (by decide)

theorem publish_clock_kept (s1 : State) (mid : List AttendInput) (h : NoPublishIn s1 mid) :
    (attendTicks mid s1).lastPublishMs = s1.lastPublishMs := by
  induction mid using List.reverseRecOn with
  | nil => rfl
  | append_singleton mid j ih =>
    rw [attendTicks_snoc]
    have ih2 := ih (fun m1 z m2 e => h m1 z (m2 ++ [j]) (by rw [e]; simp))
    have hj := h mid j [] rfl
    rcases (attendanceScanning_att j (attendTicks mid s1)).pub with ⟨_, p2, _⟩ | ⟨p1, p2, _, _, _, _, p7⟩
    · rw [p2]; exact ih2
    · exfalso
      rcases p7 with p | ⟨p, _⟩
      · rw [published, p] at hj
        simp [unregisteredEvent] at hj
      · rw [published, p] at hj
        simp [matchEvent] at hj

/-- Claim C22.  A tick that reaches the search with no removal pending and gets not-found:
when at least 1500 ms have passed since the last publish it publishes exactly one detection
event, with id -1 and confidence 0, and sets requireFingerRemoval; after that, a tick that
publishes another match or unregistered event is preceded by a tick that read no finger,
and when it is the next publishing tick at least 1500 ms (32-bit clock difference) lie
between the two.  When less than 1500 ms have passed the tick publishes nothing and the
removal flag stays clear. -/
theorem unregistered_published_once (x : AttendInput) (s : State)
    (hs : Searches x s) (hnf : searchResult x = FINGERPRINT_NOTFOUND) :
    (¬ sub32 x.now s.lastPublishMs < MIN_PUBLISH_INTERVAL →
      detectionEvents (attendanceScanning x s).2 =
        [{ fingerprint_id := -1, confidence := 0, timestamp := x.now, mode := "attendance",
           match_type := "hardware" }] ∧
      (attendanceScanning x s).1.requireFingerRemoval = true ∧
      ∀ (mid : List AttendInput) (y : AttendInput),
        published (attendanceScanning y (attendTicks mid (attendanceScanning x s).1)).2 ≠ [] →
        RemovalSeen (attendanceScanning x s).1 mid ∧
        (NoPublishIn (attendanceScanning x s).1 mid →
          MIN_PUBLISH_INTERVAL ≤ sub32 y.now x.now)) ∧
    (sub32 x.now s.lastPublishMs < MIN_PUBLISH_INTERVAL →
      (attendanceScanning x s).2.all (fun a => !a.isPublish) = true ∧
      (attendanceScanning x s).1.requireFingerRemoval = false) := by
  have e := tick_notfound x s hs hnf
  constructor
  · intro hr
    have hr2 : sub32 x.now s.lastPublishMs ≥ MIN_PUBLISH_INTERVAL := Nat.le_of_not_lt hr
    rw [if_pos hr2] at e
    have e1 : (attendanceScanning x s).1.requireFingerRemoval = true := by rw [e]
    have e2 : (attendanceScanning x s).1.lastPublishMs = x.now := by rw [e]
    refine ⟨?_, e1, ?_⟩
    · rw [e, detectionEvents_append, searchCalls_silent]
      rfl
    · intro mid y hy
      have F := publish_facts y _ hy
      constructor
      · rcases removal_pending_or_seen _ e1 mid with hp | hseen
        · rw [F.1.2.1] at hp
          cases hp
        · exact hseen
      · intro hno
        have hk := publish_clock_kept _ mid hno
        have hrate := F.2.2.2.1
        rw [hk, e2] at hrate
        exact hrate
  · intro hr
    have hr2 : ¬ sub32 x.now s.lastPublishMs ≥ MIN_PUBLISH_INTERVAL := Nat.not_le.mpr hr
    rw [if_neg hr2] at e
    rw [e]
    exact ⟨searchCalls_no_publish x, hs.2.1⟩

/-- Instance of the C22 theorem: an unknown finger at 2000. -/
theorem unregistered_published_once_witness :
    detectionEvents (attendanceScanning (AttendInput.notFound 2000) State.init).2 =
      [{ fingerprint_id := -1, confidence := 0, timestamp := 2000, mode := "attendance",
         match_type := "hardware" }] ∧
    (attendanceScanning (AttendInput.notFound 2000) State.init).1.requireFingerRemoval = true :=
  ⟨((unregistered_published_once (AttendInput.notFound 2000) State.init
      ⟨by decide, rfl, rfl, rfl⟩ (by decide)).1 (by decide)).1,
   ((unregistered_published_once (AttendInput.notFound 2000) State.init
      ⟨by decide, rfl, rfl, rfl⟩ (by decide)).1 (by decide)).2.1⟩

/-! ## The two ticks in the main loop -/

theorem enrollScan1_other (i : EnrollInput) (s : State) : (enrollScan1 i s).1.other = s.other := by
  unfold enrollScan1
  dsimp only
  split_ifs <;> rfl

theorem enrollScan2_other (i : EnrollInput) (s : State) : (enrollScan2 i s).1.other = s.other := by
  unfold enrollScan2
  dsimp only
  split_ifs <;> rfl

theorem enrollScan3_other (i : EnrollInput) (s : State) : (enrollScan3 i s).1.other = s.other := by
  unfold enrollScan3
  dsimp only
  split_ifs <;> rfl

theorem enrollConfirm_other (i : EnrollInput) (s : State) :
    (enrollConfirm i s).1.other = s.other := by
  unfold enrollConfirm
  split_ifs <;> rfl

theorem enrollDispatch_other (i : EnrollInput) (s : State) :
    (enrollDispatch i s).1.other = s.other := by
  unfold enrollDispatch
  split_ifs
  · exact enrollScan1_other i s
  · exact enrollScan2_other i s
  · exact enrollScan3_other i s
  · exact enrollConfirm_other i s
  · rfl

theorem fingerReleased_other (i : EnrollInput) (s : State) :
    (fingerReleased i s).other = s.other := by
  unfold fingerReleased
  split_ifs <;> rfl

theorem enrollFingerprint_other (i : EnrollInput) (s : State) :
    (enrollFingerprint i s).1.other = s.other := by
  unfold enrollFingerprint
  dsimp only
  split_ifs
  · rfl
  · rfl
  · rfl
  · rfl
  all_goals
    rw [enrollDispatch_other, fingerReleased_other]
    rfl

theorem handleEnrollmentRequest_other (cap : Nat) (doc : Doc) (s : State) :
    (handleEnrollmentRequest cap doc s).1.other = s.other := by
  unfold handleEnrollmentRequest
  dsimp only
  split_ifs <;> rfl

theorem loop_ticks (cap : Nat) (i : LoopInput) (s : State) :
    loop cap i s =
      ((if (if (beforeTicks cap i s).1.enrollmentInProgress ∧
                !(beforeTicks cap i s).1.enrollmentCancelled
              then enrollFingerprint i.enroll (beforeTicks cap i s).1
              else ((beforeTicks cap i s).1, [])).1.detectionMode = 2
          then attendanceScanning i.attend
            (if (beforeTicks cap i s).1.enrollmentInProgress ∧
                !(beforeTicks cap i s).1.enrollmentCancelled
              then enrollFingerprint i.enroll (beforeTicks cap i s).1
              else ((beforeTicks cap i s).1, [])).1
          else ((if (beforeTicks cap i s).1.enrollmentInProgress ∧
                !(beforeTicks cap i s).1.enrollmentCancelled
              then enrollFingerprint i.enroll (beforeTicks cap i s).1
              else ((beforeTicks cap i s).1, [])).1, [])).1,
       (beforeTicks cap i s).2 ++
        (if (beforeTicks cap i s).1.enrollmentInProgress ∧
              !(beforeTicks cap i s).1.enrollmentCancelled
            then enrollFingerprint i.enroll (beforeTicks cap i s).1
            else ((beforeTicks cap i s).1, [])).2 ++
        (if (if (beforeTicks cap i s).1.enrollmentInProgress ∧
                !(beforeTicks cap i s).1.enrollmentCancelled
              then enrollFingerprint i.enroll (beforeTicks cap i s).1
              else ((beforeTicks cap i s).1, [])).1.detectionMode = 2
          then attendanceScanning i.attend
            (if (beforeTicks cap i s).1.enrollmentInProgress ∧
                !(beforeTicks cap i s).1.enrollmentCancelled
              then enrollFingerprint i.enroll (beforeTicks cap i s).1
              else ((beforeTicks cap i s).1, [])).1
          else ((if (beforeTicks cap i s).1.enrollmentInProgress ∧
                !(beforeTicks cap i s).1.enrollmentCancelled
              then enrollFingerprint i.enroll (beforeTicks cap i s).1
              else ((beforeTicks cap i s).1, [])).1, [])).2) := rfl

theorem enrollFingerprint_mode (i : EnrollInput) (s : State) :
    (enrollFingerprint i s).1.detectionMode = s.detectionMode :=
  congrArg OtherView.detectionMode (enrollFingerprint_other i s)

/-- Claim C23, as stated, fails on the code: after `start` for slot 5 and a detection
request enabling mode 2, an enrollment is in progress while detectionMode is 2, and the
next main-loop iteration, with a finger on the sensor, publishes both the `progress` event
of scan 1 and an attendance match. -/
theorem both_ticks_run_in_one_iteration :
    (run 200 bothActive State.init).1.enrollmentInProgress = true ∧
    (run 200 bothActive State.init).1.detectionMode = 2 ∧
    (enrollEvents (loop 200 fingerOnSensor (run 200 bothActive State.init).1).2).map
        Response.summary = [("progress", some 1, some 5, some "A")] ∧
    detectionEvents (loop 200 fingerOnSensor (run 200 bothActive State.init).1).2 =
      [{ fingerprint_id := 150, confidence := 80, timestamp := 2000, mode := "attendance",
         match_type := "hardware" }] := by
  decide

/-- Claim C23, amended.  The two ticks are gated independently.  An enrollment request
leaves detectionMode unchanged and a detection request leaves the enrollment flags
unchanged.  In a main-loop iteration, with `b` the state after the inbound message and the
status publish: when a session is in progress and not cancelled and detectionMode is 2,
`enrollFingerprint` runs and then `attendanceScanning`; when detectionMode is not 2,
`attendanceScanning` does not run; when no session is in progress or it is cancelled,
`enrollFingerprint` does not run. -/
theorem ticks_gated_independently (cap : Nat) (i : LoopInput) (s : State) (doc : Doc)
    (now : Nat) :
    (handleEnrollmentRequest cap doc s).1.detectionMode = s.detectionMode ∧
    ((handleDetectionRequest now doc s).1.enrollmentInProgress = s.enrollmentInProgress ∧
      (handleDetectionRequest now doc s).1.enrollmentCancelled = s.enrollmentCancelled) ∧
    ((beforeTicks cap i s).1.enrollmentInProgress = true →
      (beforeTicks cap i s).1.enrollmentCancelled = false →
      (beforeTicks cap i s).1.detectionMode = 2 →
      loop cap i s =
        ((attendanceScanning i.attend (enrollFingerprint i.enroll (beforeTicks cap i s).1).1).1,
         (beforeTicks cap i s).2 ++ (enrollFingerprint i.enroll (beforeTicks cap i s).1).2 ++
          (attendanceScanning i.attend
            (enrollFingerprint i.enroll (beforeTicks cap i s).1).1).2)) ∧
    ((beforeTicks cap i s).1.enrollmentInProgress = true →
      (beforeTicks cap i s).1.enrollmentCancelled = false →
      (beforeTicks cap i s).1.detectionMode ≠ 2 →
      loop cap i s =
        ((enrollFingerprint i.enroll (beforeTicks cap i s).1).1,
         (beforeTicks cap i s).2 ++ (enrollFingerprint i.enroll (beforeTicks cap i s).1).2)) ∧
    (¬ ((beforeTicks cap i s).1.enrollmentInProgress = true ∧
        (beforeTicks cap i s).1.enrollmentCancelled = false) →
      (beforeTicks cap i s).1.detectionMode = 2 →
      loop cap i s =
        ((attendanceScanning i.attend (beforeTicks cap i s).1).1,
         (beforeTicks cap i s).2 ++ (attendanceScanning i.attend (beforeTicks cap i s).1).2)) ∧
    (¬ ((beforeTicks cap i s).1.enrollmentInProgress = true ∧
        (beforeTicks cap i s).1.enrollmentCancelled = false) →
      (beforeTicks cap i s).1.detectionMode ≠ 2 →
      loop cap i s = beforeTicks cap i s) := by
  have hv := (handleDetectionRequest_frame now doc s).1
  refine ⟨congrArg OtherView.detectionMode (handleEnrollmentRequest_other cap doc s),
    ⟨congrArg EnrollView.enrollmentInProgress hv, congrArg EnrollView.enrollmentCancelled hv⟩,
    ?_, ?_, ?_, ?_⟩
  · intro h1 h2 h3
    rw [loop_ticks]
    have hm := enrollFingerprint_mode i.enroll (beforeTicks cap i s).1
    generalize beforeTicks cap i s = b at *
    have hg : b.1.enrollmentInProgress = true ∧ (!b.1.enrollmentCancelled) = true := by
      simp [h1, h2]
    rw [if_pos hg, if_pos (hm.trans h3)]
  · intro h1 h2 h3
    rw [loop_ticks]
    have hm := enrollFingerprint_mode i.enroll (beforeTicks cap i s).1
    generalize beforeTicks cap i s = b at *
    have hg : b.1.enrollmentInProgress = true ∧ (!b.1.enrollmentCancelled) = true := by
      simp [h1, h2]
    have hn : ¬ (enrollFingerprint i.enroll b.1).1.detectionMode = 2 := by rw [hm]; exact h3
    rw [if_pos hg, if_neg hn]
    simp
  · intro h1 h3
    rw [loop_ticks]
    generalize beforeTicks cap i s = b at *
    have hg : ¬ (b.1.enrollmentInProgress = true ∧ (!b.1.enrollmentCancelled) = true) := by
      intro h
      exact h1 ⟨h.1, by simpa using h.2⟩
    rw [if_neg hg]
    dsimp only
    rw [if_pos h3]
    simp
  · intro h1 h3
    rw [loop_ticks]
    generalize beforeTicks cap i s = b at *
    have hg : ¬ (b.1.enrollmentInProgress = true ∧ (!b.1.enrollmentCancelled) = true) := by
      intro h
      exact h1 ⟨h.1, by simpa using h.2⟩
    rw [if_neg hg]
    dsimp only
    rw [if_neg h3]
    simp

/-- Instance of the amended C23 theorem: with a session in progress and mode 2, the
iteration with a finger on the sensor runs the enrollment tick and then the attendance
tick. -/
theorem ticks_gated_independently_witness :
    loop 200 fingerOnSensor (run 200 bothActive State.init).1 =
      ((attendanceScanning fingerOnSensor.attend
          (enrollFingerprint fingerOnSensor.enroll
            (beforeTicks 200 fingerOnSensor (run 200 bothActive State.init).1).1).1).1,
       (beforeTicks 200 fingerOnSensor (run 200 bothActive State.init).1).2 ++
        (enrollFingerprint fingerOnSensor.enroll
          (beforeTicks 200 fingerOnSensor (run 200 bothActive State.init).1).1).2 ++
        (attendanceScanning fingerOnSensor.attend
          (enrollFingerprint fingerOnSensor.enroll
            (beforeTicks 200 fingerOnSensor (run 200 bothActive State.init).1).1).1).2) :=
  (ticks_gated_independently 200 fingerOnSensor (run 200 bothActive State.init).1 disableDoc
    0).2.2.1 (by decide) (by decide) (by decide)

/-! ## Event fields, cancel and the detection mode -/

/-- Claim C24, evaluated on the code.  A session is started for slot 5 with template id "A"
and the sensor reports no finger at every poll.  The `started` event carries slot and
template id; the timeout `error` event that ends the session carries neither. -/
theorem timeout_error_lacks_correlation :
    enrollEvents (run 200 (startedSession ++ noFingerPolls 1200 60) State.init).2 =
      [{ status := "started", slot := some 5, template_id := some "A" },
       { status := "error", message := some "No finger detected. Enrollment timeout.",
         slot := none, template_id := none }] := by
  set_option maxRecDepth 100000 in decide

/-- Claim C25, evaluated on the code.  The first poll of scan 1, of scan 2 and of scan 3
finds no finger: the poll is made (`getImage` is the only action of the tick, and the
no-finger counter goes to 1), but no `waiting` event is published. -/
theorem first_poll_publishes_no_waiting :
    (run 200 startedSession State.init).2.drop 3 = [Action.getImage] ∧
    (run 200 startedSession State.init).1.noFingerCount = 1 ∧
    (enrollEvents (run 200 startedSession State.init).2).map Response.status = ["started"] ∧
    (loop 200 (iteration 3400 none (EnrollInput.noFinger 3400))
      (run 200 (noFingerAtScan2.take 2) State.init).1).2 = [Action.getImage] ∧
    (run 200 noFingerAtScan2 State.init).1.noFingerCount = 1 ∧
    (enrollEvents (run 200 noFingerAtScan2 State.init).2).map Response.status =
      ["started", "progress"] ∧
    (loop 200 (iteration 5800 none (EnrollInput.noFinger 5800))
      (run 200 (noFingerAtScan3.take 4) State.init).1).2 = [Action.getImage] ∧
    (run 200 noFingerAtScan3 State.init).1.noFingerCount = 1 ∧
    (enrollEvents (run 200 noFingerAtScan3 State.init).2).map Response.status =
      ["started", "progress", "progress"] := by
  decide

theorem enrollDispatch_no_waiting (i : EnrollInput) (s : State) :
    ∀ e ∈ enrollEvents (enrollDispatch i s).2, e.status ≠ "waiting" := by
  unfold enrollDispatch
  split_ifs
  · unfold enrollScan1
    dsimp only
    split_ifs <;> simp_all [enrollEvents, pubEnroll]
  · unfold enrollScan2
    dsimp only
    split_ifs <;> simp_all [enrollEvents, pubEnroll]
  · unfold enrollScan3
    dsimp only
    split_ifs <;> simp_all [enrollEvents, pubEnroll]
  · unfold enrollConfirm
    split_ifs <;> simp_all [enrollEvents, pubEnroll]
  · simp [enrollEvents]

/-- No call of the enrollment tick publishes a `waiting` event, whatever the state. -/
theorem enrollFingerprint_no_waiting (i : EnrollInput) (s : State) :
    ∀ e ∈ enrollEvents (enrollFingerprint i s).2, e.status ≠ "waiting" := by
  have h := enrollDispatch_no_waiting i (fingerReleased i { s with lastStep := i.now })
  unfold enrollFingerprint
  dsimp only
  split_ifs <;> simp [enrollEvents, enrollEvents_append] <;> exact h

/-- Claim C26, as stated, fails on the code: in the boot state, where no session is
active, handling `cancel` publishes a `cancelled` event (slot 0, empty template id) and sets
the cancelled flag. -/
theorem cancel_without_session_publishes :
    State.init.enrollmentInProgress = false ∧
    (handleEnrollmentRequest 200 cancelDoc State.init).2 =
      [pubEnroll { status := "cancelled", slot := some 0, template_id := some "" }] ∧
    State.init.enrollmentCancelled = false ∧
    (handleEnrollmentRequest 200 cancelDoc State.init).1.enrollmentCancelled = true := by
  decide

/-- Claim C26, amended.  `cancel` is unconditional: in every state, with or without an
active session, handling `cancel` (or `cancel_enrollment`) sets the cancelled flag, clears
the in-progress and confirmed flags, leaves every other variable (slot and template id
included) unchanged, and publishes exactly one `cancelled` event carrying the stored slot
and template id. -/
theorem cancel_is_unconditional (cap : Nat) (doc : Doc) (s : State)
    (hact : doc.action = some "cancel" ∨ doc.action = some "cancel_enrollment") :
    handleEnrollmentRequest cap doc s =
      ({ s with enrollmentCancelled := true, enrollmentInProgress := false,
                enrollmentConfirmed := false },
       [pubEnroll { status := "cancelled", slot := some s.enrollID,
                    template_id := some s.enrollmentTemplateID }]) := by
  unfold handleEnrollmentRequest
  rcases hact with h | h <;> simp [h]

/-- Instance of the amended C26 theorem: `cancel` in the boot state. -/
theorem cancel_is_unconditional_witness :
    handleEnrollmentRequest 200 cancelDoc State.init =
      ({ State.init with enrollmentCancelled := true, enrollmentInProgress := false,
                         enrollmentConfirmed := false },
       [pubEnroll { status := "cancelled", slot := some State.init.enrollID,
                    template_id := some State.init.enrollmentTemplateID }]) :=
  cancel_is_unconditional 200 cancelDoc State.init (Or.inl rfl)

theorem handleDetectionRequest_mode (now : Nat) (doc : Doc) (s : State) :
    (handleDetectionRequest now doc s).1.detectionMode = specDetectionMode doc := by
  unfold handleDetectionRequest specDetectionMode
  dsimp only
  rcases ha : doc.action with _ | a <;> rcases hm : doc.mode with _ | (n | str | _) <;>
    simp <;> split_ifs <;> simp_all

theorem specDetectionMode_range (doc : Doc) :
    specDetectionMode doc = 0 ∨ specDetectionMode doc = 1 ∨ specDetectionMode doc = 2 := by
  unfold specDetectionMode
  split_ifs <;> simp

theorem publishHint_mode (now limit : Nat) (c : Int) (reason : String) (s : State) :
    (publishHint now limit c reason s).1.detectionMode = s.detectionMode := by
  unfold publishHint
  split_ifs <;> rfl

theorem stableReadStage_mode (i : AttendInput) (s : State) :
    (stableReadStage i s).1.detectionMode = s.detectionMode := by
  have h := fun l c r s => publishHint_mode i.now l c r s
  unfold stableReadStage
  dsimp only
  split_ifs <;> simp [h]

theorem attendanceMatch_mode (i : AttendInput) (s : State) (pre : List Action) :
    (attendanceMatch i s pre).1.detectionMode = s.detectionMode := by
  have h := fun l c r s => publishHint_mode i.now l c r s
  have h2 := stableReadStage_mode i s
  unfold attendanceMatch
  dsimp only
  split_ifs <;> simp [h, h2]

theorem attendanceOutcome_mode (i : AttendInput) (p3 : Int) (pre : List Action) (s : State) :
    (attendanceOutcome i p3 pre s).1.detectionMode = s.detectionMode := by
  have h := fun l c r s => publishHint_mode i.now l c r s
  have h2 := attendanceMatch_mode i s pre
  unfold attendanceOutcome
  dsimp only
  split_ifs <;> simp [h, h2]

theorem attendanceScanning_mode (i : AttendInput) (s : State) :
    (attendanceScanning i s).1.detectionMode = s.detectionMode := by
  have h := fun l c r s => publishHint_mode i.now l c r s
  have h2 := fun p3 pre s => attendanceOutcome_mode i p3 pre s
  unfold attendanceScanning attendanceSearch
  dsimp only
  split_ifs <;> simp [h, h2]

theorem callback_mode (cap now : Nat) (wifiOk : Bool) (m : Inbound) (s : State)
    (i : LoopInput) (hi : i.inbound = some m) :
    (callback cap now wifiOk m s).1.detectionMode = specModeAfter s.detectionMode i := by
  obtain ⟨topic, payload⟩ := m
  unfold specModeAfter callback
  rw [hi]
  cases payload with
  | empty => rfl
  | malformed => rfl
  | json doc =>
    dsimp only
    split_ifs with h1 h2 h3 h4 h5 h6 h7
    all_goals first
      | exact congrArg OtherView.detectionMode (handleEnrollmentRequest_other cap doc s)
      | exact handleDetectionRequest_mode now doc s
      | (exfalso; simp_all; done)
      | (unfold handleEnrollmentResponse; dsimp only; split_ifs <;> rfl)
      | (unfold handleEnrollmentCompletion; dsimp only; split_ifs <;> rfl)
      | (unfold handleCommand; simp_all [State.init]; done)
      | (have hne : doc.command.getD "" ≠ "restart" := by
           intro hc
           cases hd : doc.command with
           | none => rw [hd] at hc; simp at hc
           | some c => rw [hd] at hc; simp_all
         rw [(handleCommand_frame wifiOk doc s hne).1])
      | rfl

theorem beforeTicks_mode (cap : Nat) (i : LoopInput) (s : State) :
    (beforeTicks cap i s).1.detectionMode = specModeAfter s.detectionMode i := by
  have hc : (match i.inbound with
      | none => (s, [])
      | some m => callback cap i.now i.wifiOk m s).1.detectionMode =
      specModeAfter s.detectionMode i := by
    cases hi : i.inbound with
    | none => simp [specModeAfter, hi]
    | some m => exact callback_mode cap i.now i.wifiOk m s i hi
  unfold beforeTicks
  dsimp only
  split_ifs <;> exact hc

theorem enrollStage_mode (cap : Nat) (i : LoopInput) (s : State) :
    (enrollStage cap i s).1.detectionMode = specModeAfter s.detectionMode i := by
  unfold enrollStage
  dsimp only
  split_ifs
  · rw [enrollFingerprint_mode]; exact beforeTicks_mode cap i s
  · exact beforeTicks_mode cap i s

theorem loop_stage (cap : Nat) (i : LoopInput) (s : State) :
    loop cap i s =
      if specModeAfter s.detectionMode i = 2 then
        ((attendanceScanning i.attend (enrollStage cap i s).1).1,
         (enrollStage cap i s).2 ++ (attendanceScanning i.attend (enrollStage cap i s).1).2)
      else enrollStage cap i s := by
  rw [← enrollStage_mode cap i s, loop_ticks]
  unfold enrollStage
  split_ifs <;> simp

theorem loop_mode (cap : Nat) (i : LoopInput) (s : State) :
    (loop cap i s).1.detectionMode = specModeAfter s.detectionMode i := by
  rw [loop_stage]
  split_ifs
  · rw [attendanceScanning_mode]; exact enrollStage_mode cap i s
  · exact enrollStage_mode cap i s

theorem run_mode (cap : Nat) (hist : List LoopInput) (s : State) :
    (run cap hist s).1.detectionMode = hist.foldl specModeAfter s.detectionMode := by
  induction hist generalizing s with
  | nil => rfl
  | cons i rest ih =>
    simp only [run, List.foldl_cons]
    rw [ih, loop_mode]

theorem specModeAfter_range (m : Int) (i : LoopInput) (h : m = 0 ∨ m = 1 ∨ m = 2) :
    specModeAfter m i = 0 ∨ specModeAfter m i = 1 ∨ specModeAfter m i = 2 := by
  unfold specModeAfter
  split
  · exact h
  · split
    · split_ifs
      · exact specDetectionMode_range _
      · left; rfl
      · exact h
    · exact h

theorem foldl_mode_range (hist : List LoopInput) (m : Int) (h : m = 0 ∨ m = 1 ∨ m = 2) :
    hist.foldl specModeAfter m = 0 ∨ hist.foldl specModeAfter m = 1 ∨
      hist.foldl specModeAfter m = 2 := by
  induction hist generalizing m with
  | nil => exact h
  | cons i rest ih => exact ih _ (specModeAfter_range m i h)

/-- Claim C27.  After a detection request detectionMode is the mode the claim prescribes
(`specDetectionMode`: 1 or 2 for an enabling action with a mode field that decodes to it,
0 in every other case), which is 0, 1 or 2.  In every execution from boot detectionMode is
the mode prescribed by the last detection request (a `restart` command counting as a
return to mode 0), so it is always 0, 1 or 2; and a main-loop iteration runs
`attendanceScanning` exactly when that mode, after the inbound message of the iteration,
is 2. -/
theorem detection_mode_follows_requests (cap now : Nat) (doc : Doc) (s : State)
    (hist : List LoopInput) (i : LoopInput) :
    (handleDetectionRequest now doc s).1.detectionMode = specDetectionMode doc ∧
    (specDetectionMode doc = 0 ∨ specDetectionMode doc = 1 ∨ specDetectionMode doc = 2) ∧
    (run cap hist State.init).1.detectionMode = hist.foldl specModeAfter 0 ∧
    ((run cap hist State.init).1.detectionMode = 0 ∨
      (run cap hist State.init).1.detectionMode = 1 ∨
      (run cap hist State.init).1.detectionMode = 2) ∧
    loop cap i s =
      (if specModeAfter s.detectionMode i = 2 then
        ((attendanceScanning i.attend (enrollStage cap i s).1).1,
         (enrollStage cap i s).2 ++ (attendanceScanning i.attend (enrollStage cap i s).1).2)
      else enrollStage cap i s) := by
  refine ⟨handleDetectionRequest_mode now doc s, specDetectionMode_range doc,
    run_mode cap hist State.init, ?_, loop_stage cap i s⟩
  rw [run_mode cap hist State.init]
  exact foldl_mode_range hist 0 (Or.inl rfl)

/-! ## Acceptance of a scan -/

theorem imageQuality_passes (conv : Int) :
    ¬ imageQuality conv < 50 ↔ (conv = FINGERPRINT_OK ∨ conv = FINGERPRINT_FEATUREFAIL) := by
  unfold imageQuality
  split_ifs <;> simp_all

theorem enrollScan1_pass (i : EnrollInput) (s : State) (b : Nat)
    (h : Action.image2Tz b ∈ (enrollScan1 i s).2) (hq : ¬ imageQuality i.conv < 50) :
    ((enrollEvents (enrollScan1 i s).2).head?.map Response.summary =
      some ("progress", some 1, some s.enrollID, some s.enrollmentTemplateID)) ∧
    (enrollScan1 i s).1.enrollmentStep = 1 ∧ createCalls (enrollScan1 i s).2 = 0 := by
  unfold enrollScan1 at *
  unfold imageQuality at *
  dsimp only at *
  split_ifs at h hq ⊢ <;> simp_all [enrollEvents, createCalls, pubEnroll, Response.summary]

theorem enrollScan2_pass (i : EnrollInput) (s : State) (b : Nat)
    (h : Action.image2Tz b ∈ (enrollScan2 i s).2) (hq : ¬ imageQuality i.conv < 50) :
    ((enrollEvents (enrollScan2 i s).2).head?.map Response.summary =
      some ("progress", some 2, some s.enrollID, some s.enrollmentTemplateID)) ∧
    (enrollScan2 i s).1.enrollmentStep = 2 ∧ createCalls (enrollScan2 i s).2 = 0 := by
  unfold enrollScan2 at *
  unfold imageQuality at *
  dsimp only at *
  split_ifs at h hq ⊢ <;> simp_all [enrollEvents, createCalls, pubEnroll, Response.summary]

theorem enrollScan3_pass (i : EnrollInput) (s : State) (b : Nat)
    (h : Action.image2Tz b ∈ (enrollScan3 i s).2) (hq : ¬ imageQuality i.conv < 50) :
    ((enrollEvents (enrollScan3 i s).2).head?.map Response.summary =
      some ("progress", some 3, some s.enrollID, some s.enrollmentTemplateID)) ∧
    createCalls (enrollScan3 i s).2 = 1 := by
  unfold enrollScan3 at *
  unfold imageQuality at *
  dsimp only at *
  split_ifs at h hq ⊢ <;> simp_all [enrollEvents, createCalls, pubEnroll, Response.summary]

theorem enrollScan3_pass_step (i : EnrollInput) (s : State) (b : Nat)
    (h : Action.image2Tz b ∈ (enrollScan3 i s).2) (hq : ¬ imageQuality i.conv < 50) :
    ((enrollScan3 i s).1.enrollmentStep = 3 ↔ i.modelP = FINGERPRINT_OK) := by
  unfold enrollScan3 at *
  unfold imageQuality at *
  dsimp only at *
  split_ifs at h hq ⊢ <;> simp_all [pubEnroll]

/-- A tick that calls `image2Tz` ran one of the three scan branches, on a state `t` that
agrees with `s` on slot, template id and step counter. -/
theorem image_tick_branch (i : EnrollInput) (s : State) (b : Nat)
    (himg : Action.image2Tz b ∈ (enrollFingerprint i s).2) :
    ∃ (t : State) (r : State × List Action), t.enrollID = s.enrollID ∧
      t.enrollmentTemplateID = s.enrollmentTemplateID ∧
      Action.image2Tz b ∈ r.2 ∧
      enrollEvents (enrollFingerprint i s).2 = enrollEvents r.2 ∧
      createCalls (enrollFingerprint i s).2 = createCalls r.2 ∧
      (enrollFingerprint i s).1 = r.1 ∧
      ((s.enrollmentStep = 0 ∧ r = enrollScan1 i t) ∨
       (s.enrollmentStep = 1 ∧ r = enrollScan2 i t) ∨
       (s.enrollmentStep = 2 ∧ r = enrollScan3 i t)) := by
  obtain ⟨hin, hnc, heff, hrel⟩ := image_call_live i s b himg
  rw [tick_live i s hin hnc heff hrel] at himg ⊢
  generalize hs1 : ({ s with lastStep := i.now } : State) = s1 at himg ⊢
  have e1 : s1.enrollID = s.enrollID := by rw [← hs1]
  have e2 : s1.enrollmentTemplateID = s.enrollmentTemplateID := by rw [← hs1]
  have e6 : s1.enrollmentStep = s.enrollmentStep := by rw [← hs1]
  obtain ⟨f1, f2, _, _, _, f6, _, _⟩ := fingerReleased_fields i s1
  generalize fingerReleased i s1 = t at himg f1 f2 f6 ⊢
  have ha0 : ∀ l : List Action, Action.image2Tz b ∈
      (if s.requireFingerRelease = true then [Action.getImage] else []) ++ l →
      Action.image2Tz b ∈ l := by
    intro l hl
    split_ifs at hl <;> simpa using hl
  have himg2 := ha0 _ himg
  have hev : ∀ l : List Action, enrollEvents
      ((if s.requireFingerRelease = true then [Action.getImage] else []) ++ l) =
      enrollEvents l := by
    intro l
    split_ifs <;> simp [enrollEvents]
  have hcr : ∀ l : List Action, createCalls
      ((if s.requireFingerRelease = true then [Action.getImage] else []) ++ l) =
      createCalls l := by
    intro l
    split_ifs <;> simp [createCalls]
  refine ⟨t, enrollDispatch i t, f1.trans e1, f2.trans e2, himg2, hev _, hcr _, rfl, ?_⟩
  have hst : t.enrollmentStep = s.enrollmentStep := f6.trans e6
  unfold enrollDispatch at himg2 ⊢
  split_ifs at himg2 ⊢ with c0 c1 c2 c3
  · exact Or.inl ⟨hst ▸ c0, rfl⟩
  · exact Or.inr (Or.inl ⟨hst ▸ c1, rfl⟩)
  · exact Or.inr (Or.inr ⟨hst ▸ c2, rfl⟩)
  · exact absurd himg2 (enrollConfirm_no_image i t b)
  · simp at himg2

/-- Claim C28.  Whenever a tick evaluates a captured image (it calls `image2Tz`) it is at a
scan step `k` in {1, 2, 3}, and the scan is accepted, that is, the `progress` event of step
`k` with the session's slot and template id is the first event of the tick, if and only if
the conversion returned OK or FEATUREFAIL.  An accepted scan 1 or 2 advances the step
counter to `k` without calling `createModel`; an accepted scan 3 calls `createModel` once,
and the counter reaches 3 exactly when that call returns OK. -/
theorem scan_accepted_iff_conversion (i : EnrollInput) (s : State) (b : Nat)
    (himg : Action.image2Tz b ∈ (enrollFingerprint i s).2) :
    ∃ k : Nat, (k = 1 ∨ k = 2 ∨ k = 3) ∧ s.enrollmentStep = (k : Int) - 1 ∧
      ((i.conv = FINGERPRINT_OK ∨ i.conv = FINGERPRINT_FEATUREFAIL) ↔
        (enrollEvents (enrollFingerprint i s).2).head?.map Response.summary =
          some ("progress", some k, some s.enrollID, some s.enrollmentTemplateID)) ∧
      ((i.conv = FINGERPRINT_OK ∨ i.conv = FINGERPRINT_FEATUREFAIL) →
        AcceptedScan k i (enrollFingerprint i s)) := by
  obtain ⟨t, r, g1, g2, g3, g4, g5, g6, hbr⟩ := image_tick_branch i s b himg
  unfold AcceptedScan
  rw [g4, g5, g6, ← imageQuality_passes, ← g1, ← g2]
  rcases hbr with ⟨hs, hr⟩ | ⟨hs, hr⟩ | ⟨hs, hr⟩
  · subst hr
    refine ⟨1, Or.inl rfl, by rw [hs]; rfl, ?_, ?_⟩
    · constructor
      · intro hq
        exact (enrollScan1_pass i t b g3 hq).1
      · intro hp hq
        rw [(enrollScan1_reject i t b g3 hq).1] at hp
        simp [Response.summary] at hp
    · intro hq
      exact ⟨fun _ => (enrollScan1_pass i t b g3 hq).2, fun h => by cases h⟩
  · subst hr
    refine ⟨2, Or.inr (Or.inl rfl), by rw [hs]; rfl, ?_, ?_⟩
    · constructor
      · intro hq
        exact (enrollScan2_pass i t b g3 hq).1
      · intro hp hq
        rw [(enrollScan2_reject i t b g3 hq).1] at hp
        simp [Response.summary] at hp
    · intro hq
      exact ⟨fun _ => (enrollScan2_pass i t b g3 hq).2, fun h => by cases h⟩
  · subst hr
    refine ⟨3, Or.inr (Or.inr rfl), by rw [hs]; rfl, ?_, ?_⟩
    · constructor
      · intro hq
        exact (enrollScan3_pass i t b g3 hq).1
      · intro hp hq
        rw [(enrollScan3_reject i t b g3 hq).1] at hp
        simp [Response.summary] at hp
    · intro hq
      exact ⟨fun h => absurd rfl h,
        fun _ => ⟨(enrollScan3_pass i t b g3 hq).2, enrollScan3_pass_step i t b g3 hq⟩⟩

/-- Instance of the C28 theorem: at scan 1 of a session for slot 5 the conversion fails
with `FEATUREFAIL` (quality score 60) and the scan is accepted. -/
theorem scan_accepted_iff_conversion_witness :
    imageQuality (EnrollInput.featureFail 1300).conv = 60 ∧
    ∃ k : Nat, (k = 1 ∨ k = 2 ∨ k = 3) ∧
      (run 200 startedSession State.init).1.enrollmentStep = (k : Int) - 1 ∧
      (((EnrollInput.featureFail 1300).conv = FINGERPRINT_OK ∨
          (EnrollInput.featureFail 1300).conv = FINGERPRINT_FEATUREFAIL) ↔
        (enrollEvents (enrollFingerprint (EnrollInput.featureFail 1300)
            (run 200 startedSession State.init).1).2).head?.map Response.summary =
          some ("progress", some k, some (run 200 startedSession State.init).1.enrollID,
            some (run 200 startedSession State.init).1.enrollmentTemplateID)) ∧
      (((EnrollInput.featureFail 1300).conv = FINGERPRINT_OK ∨
          (EnrollInput.featureFail 1300).conv = FINGERPRINT_FEATUREFAIL) →
        AcceptedScan k (EnrollInput.featureFail 1300)
          (enrollFingerprint (EnrollInput.featureFail 1300)
            (run 200 startedSession State.init).1)) :=
  ⟨by decide,
   scan_accepted_iff_conversion (EnrollInput.featureFail 1300)
     (run 200 startedSession State.init).1 1 (by decide)⟩

/-! ## Waiting for confirmation -/

theorem store_message_ne (x : Int) :
    "Failed to store fingerprint (code: " ++ toString x ++ ")" ≠
      "Enrollment model not ready - please restart enrollment" := by
  intro h
  have h2 := congrArg String.data h
  simp [String.data_append] at h2

theorem slot_message_ne (x : Int) :
    "Invalid slot number (1-" ++ toString x ++ ")" ≠
      "Enrollment model not ready - please restart enrollment" := by
  intro h
  have h2 := congrArg String.data h
  simp [String.data_append] at h2

theorem enrollEvents_quiet (a : List Action) (h : a.all Action.quiet = true) :
    enrollEvents a = [] := by
  induction a with
  | nil => rfl
  | cons x xs ih =>
    simp only [List.all_cons, Bool.and_eq_true] at h
    cases x with
    | publish t p r =>
      cases t <;> cases p <;> simp_all [enrollEvents, Action.quiet]
    | _ => simp_all [enrollEvents, Action.quiet]

theorem notReadyFree_append (a b : List Action) (ha : NotReadyFree a) (hb : NotReadyFree b) :
    NotReadyFree (a ++ b) := by
  intro e he
  rw [enrollEvents_append, List.mem_append] at he
  rcases he with h | h
  · exact ha e h
  · exact hb e h

theorem enrollScan1_ready (i : EnrollInput) (s : State) : NotReadyFree (enrollScan1 i s).2 := by
  unfold NotReadyFree enrollScan1 notReadyMessage
  dsimp only
  split_ifs <;> simp [enrollEvents, pubEnroll]

theorem enrollScan2_ready (i : EnrollInput) (s : State) : NotReadyFree (enrollScan2 i s).2 := by
  unfold NotReadyFree enrollScan2 notReadyMessage
  dsimp only
  split_ifs <;> simp [enrollEvents, pubEnroll]

theorem enrollScan3_ready (i : EnrollInput) (s : State) : NotReadyFree (enrollScan3 i s).2 := by
  unfold NotReadyFree enrollScan3 notReadyMessage
  dsimp only
  split_ifs <;> simp [enrollEvents, pubEnroll]

theorem enrollConfirm_ready (i : EnrollInput) (s : State) (h : s.modelCreated = true) :
    NotReadyFree (enrollConfirm i s).2 := by
  have hm := store_message_ne i.p3
  unfold NotReadyFree enrollConfirm notReadyMessage
  split_ifs <;> simp_all [enrollEvents, pubEnroll]

theorem enrollDispatch_ready (i : EnrollInput) (s : State)
    (h : s.enrollmentStep = 3 → s.modelCreated = true) :
    NotReadyFree (enrollDispatch i s).2 := by
  unfold enrollDispatch
  split_ifs with c0 c1 c2 c3
  · exact enrollScan1_ready i s
  · exact enrollScan2_ready i s
  · exact enrollScan3_ready i s
  · exact enrollConfirm_ready i s (h c3)
  · intro e he
    simp [enrollEvents] at he

theorem enrollFingerprint_ready (i : EnrollInput) (s : State)
    (h : s.enrollmentStep = 3 → s.modelCreated = true) :
    NotReadyFree (enrollFingerprint i s).2 := by
  have hd := enrollDispatch_ready i (fingerReleased i { s with lastStep := i.now })
    (by
      obtain ⟨_, _, _, _, _, f6, f7, _⟩ := fingerReleased_fields i { s with lastStep := i.now }
      rw [f6, f7]
      exact h)
  have hnil : NotReadyFree [] := by intro e he; simp [enrollEvents] at he
  have hg : NotReadyFree [Action.getImage] := by intro e he; simp [enrollEvents] at he
  unfold enrollFingerprint
  dsimp only
  split_ifs
  · exact hnil
  · exact hnil
  · exact hnil
  · exact hg
  · exact notReadyFree_append _ _ hg hd
  · exact notReadyFree_append _ _ hnil hd

theorem handleEnrollmentRequest_ready (cap : Nat) (doc : Doc) (s : State) :
    NotReadyFree (handleEnrollmentRequest cap doc s).2 := by
  have hm := slot_message_ne (slotCapacity cap)
  unfold NotReadyFree handleEnrollmentRequest notReadyMessage
  dsimp only
  split_ifs <;> simp_all [enrollEvents, pubEnroll]

theorem readyInv_preserved (cap : Nat) : Preserved cap (fun _ => True) ReadyInv where
  frame := by
    intro s t tr a hv ha h
    refine ⟨(confirmationInv_preserved cap).frame s t tr a hv ha h.1, ?_⟩
    refine notReadyFree_append _ _ h.2 ?_
    intro e he
    rw [enrollEvents_quiet a ha] at he
    cases he
  tick := by
    intro i s tr hok hin hnc h
    exact ⟨(confirmationInv_preserved cap).tick i s tr hok hin hnc h.1,
      notReadyFree_append _ _ h.2 (enrollFingerprint_ready i.enroll s (fun h3 => (h.1 h3).1))⟩
  request := by
    intro i doc s tr hok hi h
    exact ⟨(confirmationInv_preserved cap).request i doc s tr hok hi h.1,
      notReadyFree_append _ _ h.2 (handleEnrollmentRequest_ready cap doc s)⟩
  saved := by
    intro s tr h
    exact ⟨(confirmationInv_preserved cap).saved s tr h.1, h.2⟩
  restart := by
    intro s tr h
    refine ⟨(confirmationInv_preserved cap).restart s tr h.1, notReadyFree_append _ _ h.2 ?_⟩
    intro e he
    simp [enrollEvents] at he

theorem call_preserves (cap : Nat) (c : Call) (s : State) (tr : List Action)
    (h : ReadyInv s tr) : ReadyInv (c.run cap s).1 (tr ++ (c.run cap s).2) := by
  cases c with
  | tick i =>
    exact ⟨(enrollFingerprint_facts i s).step3 h.1,
      notReadyFree_append _ _ h.2 (enrollFingerprint_ready i s (fun h3 => (h.1 h3).1))⟩
  | attend i =>
    exact (readyInv_preserved cap).frame s _ tr _ (attendanceScanning_frame i s).1
      (attendanceScanning_frame i s).2 h
  | message now wifiOk m =>
    exact callback_preserves cap (fun _ => True) ReadyInv (readyInv_preserved cap)
      { inbound := some m, now := now, wifiOk := wifiOk, enroll := EnrollInput.noFinger 0,
        attend := AttendInput.noFinger 0 } m s tr trivial rfl h

theorem calls_preserve (cap : Nat) (cs : List Call) (s : State) (tr : List Action)
    (h : ReadyInv s tr) : ReadyInv (calls cap cs s).1 (tr ++ (calls cap cs s).2) := by
  induction cs generalizing s tr with
  | nil => simpa [calls] using h
  | cons c rest ih =>
    have h1 := call_preserves cap c s tr h
    have h2 := ih _ _ h1
    simpa [calls, List.append_assoc] using h2

/-- Claim C30.  After every sequence of calls of the enrollment tick, the attendance tick
and the MQTT callback from boot, in any order, the step counter is 3 only if modelCreated
is true; no event of the sequence is the error "Enrollment model not ready", and a further
call of the tick does not take that branch: it publishes no such event either. -/
theorem model_ready_at_confirmation (cap : Nat) (cs : List Call) (i : EnrollInput) :
    ((calls cap cs State.init).1.enrollmentStep = 3 →
      (calls cap cs State.init).1.modelCreated = true) ∧
    (∀ e ∈ enrollEvents (calls cap cs State.init).2,
      e.message ≠ some "Enrollment model not ready - please restart enrollment") ∧
    (∀ e ∈ enrollEvents (enrollFingerprint i (calls cap cs State.init).1).2,
      e.message ≠ some "Enrollment model not ready - please restart enrollment") := by
  have h0 : ReadyInv State.init [] := by
    refine ⟨?_, ?_⟩
    · intro h3
      simp [State.init] at h3
    · intro e he
      simp [enrollEvents] at he
  have h := calls_preserve cap cs State.init [] h0
  rw [List.nil_append] at h
  exact ⟨fun h3 => (h.1 h3).1, h.2,
    enrollFingerprint_ready i _ (fun h3 => (h.1 h3).1)⟩

theorem tick_waiting_confirmation (x : EnrollInput) (s t : State)
    (h3 : s.enrollmentStep = 3) (hin : s.enrollmentInProgress = true)
    (hnc : s.enrollmentCancelled = false) (hcf : s.enrollmentConfirmed = false)
    (hrel : s.requireFingerRelease = false) (ht : SameButPoll s t) :
    (enrollFingerprint x t).2 = [] ∧ SameButPoll s (enrollFingerprint x t).1 := by
  unfold SameButPoll at ht
  have t3 : t.enrollmentStep = 3 := by rw [ht]; exact h3
  have tin : t.enrollmentInProgress = true := by rw [ht]; exact hin
  have tnc : t.enrollmentCancelled = false := by rw [ht]; exact hnc
  have tcf : t.enrollmentConfirmed = false := by rw [ht]; exact hcf
  have trel : t.requireFingerRelease = false := by rw [ht]; exact hrel
  by_cases heff : sub32 x.now t.lastStep < 200
  · have e : enrollFingerprint x t = (t, []) := by
      unfold enrollFingerprint
      rw [if_pos heff]
    rw [e]
    exact ⟨rfl, ht⟩
  · have e : enrollFingerprint x t = ({ t with lastStep := x.now }, []) := by
      rw [tick_at_confirmation x t tin tnc t3 trel heff]
      unfold enrollConfirm
      simp [tcf]
    rw [e]
    refine ⟨rfl, ?_⟩
    unfold SameButPoll
    dsimp only
    rw [ht]

theorem ticks_waiting_confirmation (s : State)
    (h3 : s.enrollmentStep = 3) (hin : s.enrollmentInProgress = true)
    (hnc : s.enrollmentCancelled = false) (hcf : s.enrollmentConfirmed = false)
    (hrel : s.requireFingerRelease = false) (ticks : List EnrollInput) :
    SameButPoll s (enrollTicks ticks s) := by
  induction ticks using List.reverseRecOn with
  | nil => exact rfl
  | append_singleton pre j ih =>
    rw [enrollTicks_snoc]
    exact (tick_waiting_confirmation j s _ h3 hin hnc hcf hrel ih).2

/-- Claim C29.  Let a session be at AwaitingConfirmation in a reachable state: in progress,
not cancelled, not confirmed.  After any number of enrollment ticks the state differs from
it at most in the poll timestamp, and each of these ticks has an empty trace: no sensor
call, nothing published, no timeout.  A `start` that arrives then is answered `blocked`
with the session's slot and template id and changes nothing. -/
theorem confirmation_wait_is_idle (cap : Nat) (hist : List LoopInput) (s : State)
    (ticks : List EnrollInput) (x : EnrollInput) (doc : Doc)
    (hs : s = (run cap hist State.init).1)
    (h3 : s.enrollmentStep = 3) (hin : s.enrollmentInProgress = true)
    (hnc : s.enrollmentCancelled = false) (hcf : s.enrollmentConfirmed = false)
    (hact : doc.action.getD "start" = "start") :
    enrollTicks ticks s = { s with lastStep := (enrollTicks ticks s).lastStep } ∧
    (enrollFingerprint x (enrollTicks ticks s)).2 = [] ∧
    handleEnrollmentRequest cap doc (enrollTicks ticks s) =
      (enrollTicks ticks s,
       [Action.publish Topic.enroll_request Payload.empty true,
        pubEnroll { status := "blocked",
                    message := some "Another student is currently enrolling. Please wait...",
                    waiting_for := some "enrollment_completion",
                    slot := some s.enrollID,
                    template_id := some s.enrollmentTemplateID },
        Action.clientLoop]) := by
  have hinv := run_preserves cap (fun _ => True) ConfirmationInv (confirmationInv_preserved cap)
    hist (fun _ _ => trivial) State.init [] (by intro h; simp [State.init] at h)
  rw [← hs] at hinv
  have hrel := (hinv h3).2
  have hk := ticks_waiting_confirmation s h3 hin hnc hcf hrel ticks
  refine ⟨hk, (tick_waiting_confirmation x s _ h3 hin hnc hcf hrel hk).1, ?_⟩
  have tin : (enrollTicks ticks s).enrollmentInProgress = true := by rw [hk]; exact hin
  have tid : (enrollTicks ticks s).enrollID = s.enrollID := by rw [hk]
  have ttp : (enrollTicks ticks s).enrollmentTemplateID = s.enrollmentTemplateID := by rw [hk]
  unfold handleEnrollmentRequest
  simp [hact, tin, tid, ttp]

/-- Instance of the C29 theorem: the session of `scansToConfirmation` waits through two
ticks, and a `start` for slot 12 is then blocked. -/
theorem confirmation_wait_is_idle_witness :
    enrollTicks [EnrollInput.allOk 6000, EnrollInput.noFinger 90000]
        (run 200 (scansToConfirmation 1000 12 "T1") State.init).1 =
      { (run 200 (scansToConfirmation 1000 12 "T1") State.init).1 with
        lastStep := (enrollTicks [EnrollInput.allOk 6000, EnrollInput.noFinger 90000]
          (run 200 (scansToConfirmation 1000 12 "T1") State.init).1).lastStep } ∧
    (enrollFingerprint (EnrollInput.allOk 120000)
      (enrollTicks [EnrollInput.allOk 6000, EnrollInput.noFinger 90000]
        (run 200 (scansToConfirmation 1000 12 "T1") State.init).1)).2 = [] :=
  ⟨(confirmation_wait_is_idle 200 (scansToConfirmation 1000 12 "T1") _
      [EnrollInput.allOk 6000, EnrollInput.noFinger 90000] (EnrollInput.allOk 120000)
      restartDoc rfl (by decide) (by decide) (by decide) (by decide) (by decide)).1,
   (confirmation_wait_is_idle 200 (scansToConfirmation 1000 12 "T1") _
      [EnrollInput.allOk 6000, EnrollInput.noFinger 90000] (EnrollInput.allOk 120000)
      restartDoc rfl (by decide) (by decide) (by decide) (by decide) (by decide)).2.1⟩

/-! ## Sensor calls of the attendance tick -/

theorem sensorCalls_append (a b : List Action) :
    sensorCalls (a ++ b) = sensorCalls a ++ sensorCalls b := by
  simp [sensorCalls]

theorem conversions_append (a b : List Action) :
    conversions (a ++ b) = conversions a ++ conversions b := by
  induction a with
  | nil => rfl
  | cons x xs ih => cases x <;> simp [conversions, ih]

theorem publishHint_calls (now limit : Nat) (c : Int) (reason : String) (s : State) :
    sensorCalls (publishHint now limit c reason s).2 = [] := by
  unfold publishHint
  split_ifs <;> simp [sensorCalls, pubDetect, Action.isSensorOp]

theorem publishHint_reason (now limit : Nat) (c : Int) (reason : String) (s : State)
    (h : reason ≠ "confirm_failed") : NoConfirmFailed (publishHint now limit c reason s).2 := by
  unfold NoConfirmFailed publishHint
  split_ifs <;> simp [detectionEvents, pubDetect, h]

theorem noConfirmFailed_append (a b : List Action) (ha : NoConfirmFailed a)
    (hb : NoConfirmFailed b) : NoConfirmFailed (a ++ b) := by
  intro d hd
  rw [detectionEvents_append, List.mem_append] at hd
  rcases hd with h | h
  · exact ha d h
  · exact hb d h

theorem noConfirmFailed_silent (a : List Action) (h : detectionEvents a = []) :
    NoConfirmFailed a := by
  intro d hd
  rw [h] at hd
  cases hd

theorem error_reason_ne (x : Int) : "sensor_search_error_" ++ toString x ≠ "confirm_failed" := by
  intro h
  have h2 := congrArg String.data h
  simp [String.data_append] at h2

theorem template_reason_ne (x : Int) : "template_error_" ++ toString x ≠ "confirm_failed" := by
  intro h
  have h2 := congrArg String.data h
  simp [String.data_append] at h2

theorem image_reason_ne (x : Int) : "get_image_error_" ++ toString x ≠ "confirm_failed" := by
  intro h
  have h2 := congrArg String.data h
  simp [String.data_append] at h2

/-- With a stable count that is not negative the stable-read stage makes no sensor call
and publishes nothing: the confirm loop does not run. -/
theorem stableReadStage_no_loop (i : AttendInput) (s : State) (hst : 0 ≤ s.stableReads) :
    (stableReadStage i s).2 = [] ∧ 0 ≤ (stableReadStage i s).1.stableReads ∧
    ¬ ((i.confidence : Int) < HIGH_CONFIDENCE_BYPASS ∧
      (stableReadStage i s).1.stableReads < REQUIRED_STABLE_READS) := by
  by_cases hb : HIGH_CONFIDENCE_BYPASS ≤ (i.confidence : Int)
  · rw [stableReadStage_bypass i s hb]
    exact ⟨rfl, by show (0 : Int) ≤ 1; decide, fun h => absurd hb (Int.not_le.mpr h.1)⟩
  · obtain ⟨e1, e2, _⟩ := stableReadStage_standard i s hb hst
    refine ⟨e1, ?_, fun h => e2 h.2⟩
    have : ¬ (stableReadStage i s).1.stableReads < 1 := e2
    omega

theorem publishHint_stable (now limit : Nat) (c : Int) (reason : String) (s : State) :
    (publishHint now limit c reason s).1.stableReads = s.stableReads :=
  (publishHint_att now limit c reason s).2.2.2.1

theorem hint_callFacts (now limit : Nat) (c : Int) (reason : String) (s : State)
    (pre : List Action) (h : reason ≠ "confirm_failed") (t : State)
    (ht : 0 ≤ t.stableReads) :
    CallFacts pre (t, pre ++ (publishHint now limit c reason s).2) where
  calls := by
    show sensorCalls (pre ++ (publishHint now limit c reason s).2) = sensorCalls pre
    rw [sensorCalls_append, publishHint_calls, List.append_nil]
  reasons := fun hp => noConfirmFailed_append _ _ hp (publishHint_reason now limit c reason s h)
  stable := ht

theorem attendanceMatch_calls (i : AttendInput) (s : State) (pre : List Action)
    (hst : 0 ≤ s.stableReads) : CallFacts pre (attendanceMatch i s pre) := by
  obtain ⟨e1, e2, e3⟩ := stableReadStage_no_loop i s hst
  unfold attendanceMatch
  dsimp only
  split_ifs with c1 c2 c3
  · exact hint_callFacts i.now 1500 _ "legacy_slot" s pre (by decide) _ (le_refl 0)
  · exact hint_callFacts i.now 700 _ "low_confidence" s pre (by decide) _ (le_refl 0)
  · rw [e1]
    exact ⟨by simp, fun hp => by simpa using hp, e2⟩
  · rw [e1]
    refine ⟨by simp [sensorCalls_append, sensorCalls, pubDetect, Action.isSensorOp], ?_,
      le_refl 0⟩
    intro hp
    refine noConfirmFailed_append _ _ (by simpa using hp) ?_
    intro d hd
    simp [detectionEvents, pubDetect] at hd
    rw [hd]
    simp

theorem attendanceOutcome_calls (i : AttendInput) (p3 : Int) (pre : List Action) (s : State)
    (hst : 0 ≤ s.stableReads) : CallFacts pre (attendanceOutcome i p3 pre s) := by
  unfold attendanceOutcome
  dsimp only
  split_ifs with c1 c2 c3
  · exact attendanceMatch_calls i s pre hst
  · refine ⟨by simp [sensorCalls_append, sensorCalls, pubDetect, Action.isSensorOp], ?_,
      le_refl 0⟩
    intro hp
    refine noConfirmFailed_append _ _ hp ?_
    intro d hd
    simp [detectionEvents, pubDetect] at hd
    rw [hd]
    simp
  · exact ⟨rfl, fun hp => hp, hst⟩
  · exact hint_callFacts i.now 1500 0 _ s pre (error_reason_ne p3) _ (le_refl 0)

/-- The sensor calls of one attendance tick, for a stable count that is not negative:
none when the scan interval has not passed, `getImage` alone when the capture does not
succeed or a removal is pending, `getImage` and `image2Tz(1)` when the conversion fails,
and otherwise these two followed by one or two searches. -/
theorem attendanceScanning_calls (i : AttendInput) (s : State) (hst : 0 ≤ s.stableReads) :
    sensorCalls (attendanceScanning i s).2 =
      (if sub32 i.now s.lastScanTime < SCAN_INTERVAL then []
       else if i.p ≠ FINGERPRINT_OK ∨ s.requireFingerRemoval = true then [Action.getImage]
       else if i.p2 ≠ FINGERPRINT_OK then [Action.getImage, Action.image2Tz 1]
       else searchCalls i) ∧
    NoConfirmFailed (attendanceScanning i s).2 ∧
    0 ≤ (attendanceScanning i s).1.stableReads := by
  by_cases hs : Searches i s
  · obtain ⟨h1, h2, h3, h4⟩ := hs
    have e := tick_searches i s ⟨h1, h2, h3, h4⟩
    have C := attendanceOutcome_calls i (searchResult i) (searchCalls i)
      { s with lastScanTime := i.now } hst
    have e2 : attendanceScanning i s = attendanceOutcome i (searchResult i) (searchCalls i)
        { s with lastScanTime := i.now } := by
      rw [e]; rfl
    rw [e2]
    refine ⟨?_, C.reasons (noConfirmFailed_silent _ (searchCalls_silent i)), C.stable⟩
    rw [C.calls, if_neg h1]
    have hn : ¬ (i.p ≠ FINGERPRINT_OK ∨ s.requireFingerRemoval = true) := by
      simp [h2, h3]
    rw [if_neg hn, if_neg (not_not.mpr h4)]
    unfold searchCalls sensorCalls
    split_ifs <;> simp [Action.isSensorOp]
  · unfold Searches at hs
    by_cases c1 : sub32 i.now s.lastScanTime < SCAN_INTERVAL
    · have e : attendanceScanning i s = (s, []) := by
        unfold attendanceScanning
        rw [if_pos c1]
      rw [e, if_pos c1]
      exact ⟨rfl, noConfirmFailed_silent _ rfl, hst⟩
    rw [if_neg c1]
    by_cases c2 : i.p = FINGERPRINT_NOFINGER
    · have hp : i.p ≠ FINGERPRINT_OK := by rw [c2]; decide
      rw [if_pos (Or.inl hp)]
      unfold attendanceScanning
      dsimp only
      rw [if_neg c1, if_pos c2]
      split_ifs
      · exact ⟨rfl, noConfirmFailed_silent _ rfl, le_refl 0⟩
      · exact ⟨rfl, noConfirmFailed_silent _ rfl, hst⟩
    by_cases c3 : s.requireFingerRemoval = true
    · rw [if_pos (Or.inr c3)]
      unfold attendanceScanning
      dsimp only
      rw [if_neg c1, if_neg c2, if_pos c3]
      exact ⟨rfl, noConfirmFailed_silent _ rfl, hst⟩
    by_cases c4 : i.p = FINGERPRINT_OK
    · have c5 : ¬ i.p2 = FINGERPRINT_OK := fun h => hs ⟨c1, by simpa using c3, c4, h⟩
      have hn : ¬ (i.p ≠ FINGERPRINT_OK ∨ s.requireFingerRemoval = true) := by
        simp [c3, c4]
      rw [if_neg hn, if_pos c5]
      unfold attendanceScanning
      dsimp only
      rw [if_neg c1, if_neg c2, if_neg c3, if_pos c4, if_neg c5]
      have H := hint_callFacts i.now 1500 0 _ { s with lastScanTime := i.now }
        [Action.getImage, Action.image2Tz 1] (template_reason_ne i.p2)
        (publishHint i.now 1500 0 ("template_error_" ++ toString i.p2)
          { s with lastScanTime := i.now }).1
        (by rw [publishHint_stable]; exact hst)
      exact ⟨H.calls, H.reasons (noConfirmFailed_silent _ rfl), H.stable⟩
    · rw [if_pos (Or.inl c4)]
      unfold attendanceScanning
      dsimp only
      rw [if_neg c1, if_neg c2, if_neg c3, if_neg c4]
      split_ifs
      · have H := hint_callFacts i.now 1500 0 _
          { s with lastScanTime := i.now, lastDebugTime := i.now }
          [Action.getImage] (image_reason_ne i.p)
          (publishHint i.now 1500 0 ("get_image_error_" ++ toString i.p)
            { s with lastScanTime := i.now, lastDebugTime := i.now }).1
          (by rw [publishHint_stable]; exact hst)
        exact ⟨H.calls, H.reasons (noConfirmFailed_silent _ rfl), H.stable⟩
      · have H := hint_callFacts i.now 1500 0 _ { s with lastScanTime := i.now }
          [Action.getImage] (image_reason_ne i.p)
          (publishHint i.now 1500 0 ("get_image_error_" ++ toString i.p)
            { s with lastScanTime := i.now }).1
          (by rw [publishHint_stable]; exact hst)
        exact ⟨H.calls, H.reasons (noConfirmFailed_silent _ rfl), H.stable⟩

theorem candidateUpdate_stable (i : AttendInput) (s : State) (hst : 0 ≤ s.stableReads) :
    REQUIRED_STABLE_READS ≤ (candidateUpdate i s).stableReads := by
  unfold candidateUpdate
  split_ifs
  · show (1 : Int) ≤ s.stableReads + 1
    omega
  · exact le_refl _

/-- On the standard path the stable-read stage is the candidate bookkeeping followed by the
test that guards the confirm loop. -/
theorem stableReadStage_test (i : AttendInput) (s : State)
    (hc : (i.confidence : Int) < HIGH_CONFIDENCE_BYPASS)
    (h : ¬ (candidateUpdate i s).stableReads < REQUIRED_STABLE_READS) :
    stableReadStage i s = (candidateUpdate i s, []) := by
  have hc2 : ¬ (i.confidence : Int) ≥ HIGH_CONFIDENCE_BYPASS := Int.not_le.mpr hc
  unfold stableReadStage
  dsimp only
  rw [if_neg hc2]
  unfold candidateUpdate at h ⊢
  rw [if_neg h]

theorem callback_stable (cap now : Nat) (wifiOk : Bool) (m : Inbound) (s : State)
    (hst : 0 ≤ s.stableReads) : 0 ≤ (callback cap now wifiOk m s).1.stableReads := by
  obtain ⟨topic, payload⟩ := m
  unfold callback
  cases payload with
  | empty => exact hst
  | malformed => exact hst
  | json doc =>
    dsimp only
    split_ifs
    · have e : (handleEnrollmentRequest cap doc s).1.stableReads = s.stableReads :=
        congrArg OtherView.stableReads (handleEnrollmentRequest_other cap doc s)
      rw [e]
      exact hst
    · unfold handleEnrollmentResponse
      dsimp only
      split_ifs <;> exact hst
    · unfold handleEnrollmentCompletion
      dsimp only
      split_ifs <;> exact hst
    · rw [(handleDetectionRequest_debounce now doc s).2.1]
      exact hst
    · unfold handleCommand
      dsimp only
      split_ifs <;> first | exact hst | exact le_refl 0
    · exact hst

theorem calls_stable (cap : Nat) (cs : List Call) (s : State) (hst : 0 ≤ s.stableReads) :
    0 ≤ (calls cap cs s).1.stableReads := by
  induction cs generalizing s with
  | nil => exact hst
  | cons c rest ih =>
    apply ih
    cases c with
    | tick i =>
      have e : (enrollFingerprint i s).1.stableReads = s.stableReads :=
        congrArg OtherView.stableReads (enrollFingerprint_other i s)
      show 0 ≤ (enrollFingerprint i s).1.stableReads
      rw [e]
      exact hst
    | attend i => exact (attendanceScanning_calls i s hst).2.2
    | message now wifiOk m => exact callback_stable cap now wifiOk m s hst

theorem count_getImage_le (l : List Action) (h : sensorCalls l = [] ∨
    sensorCalls l = [Action.getImage] ∨ sensorCalls l = [Action.getImage, Action.image2Tz 1] ∨
    sensorCalls l = [Action.getImage, Action.image2Tz 1, Action.fingerFastSearch] ∨
    sensorCalls l = [Action.getImage, Action.image2Tz 1, Action.fingerFastSearch,
      Action.fingerFastSearch]) :
    (sensorCalls l).count Action.getImage ≤ 1 ∧ (conversions (sensorCalls l)).length ≤ 1 ∧
    (sensorCalls l).length ≤ 4 := by
  rcases h with h | h | h | h | h <;> rw [h] <;> decide

theorem attendanceScanning_call_shapes (i : AttendInput) (s : State)
    (hst : 0 ≤ s.stableReads) :
    sensorCalls (attendanceScanning i s).2 = [] ∨
    sensorCalls (attendanceScanning i s).2 = [Action.getImage] ∨
    sensorCalls (attendanceScanning i s).2 = [Action.getImage, Action.image2Tz 1] ∨
    sensorCalls (attendanceScanning i s).2 =
      [Action.getImage, Action.image2Tz 1, Action.fingerFastSearch] ∨
    sensorCalls (attendanceScanning i s).2 =
      [Action.getImage, Action.image2Tz 1, Action.fingerFastSearch,
       Action.fingerFastSearch] := by
  rw [(attendanceScanning_calls i s hst).1]
  unfold searchCalls
  split_ifs <;> simp

theorem conversions_sensorCalls (l : List Action) :
    conversions (sensorCalls l) = conversions l := by
  induction l with
  | nil => rfl
  | cons x xs ih =>
    cases x <;> simp_all [sensorCalls, conversions, Action.isSensorOp]

theorem count_getImage_sensorCalls (l : List Action) :
    (sensorCalls l).count Action.getImage = l.count Action.getImage := by
  induction l with
  | nil => rfl
  | cons x xs ih =>
    cases x <;> simp_all [sensorCalls, Action.isSensorOp, List.count_cons]

/-- Claim C31.  After every sequence of calls from boot the stable count is not
negative, so on the standard path the value tested by `stableReads < REQUIRED_STABLE_READS`
is at least 1 = REQUIRED_STABLE_READS and the stable-read stage, confirm loop included,
makes no sensor call and publishes nothing.  Every attendance tick then calls `getImage` at
most once and `image2Tz` at most once, and publishes no hint with reason
`confirm_failed`. -/
theorem confirm_loop_never_runs (cap : Nat) (cs : List Call) (i : AttendInput) :
    0 ≤ (calls cap cs State.init).1.stableReads ∧
    REQUIRED_STABLE_READS ≤ (candidateUpdate i (calls cap cs State.init).1).stableReads ∧
    (stableReadStage i { (calls cap cs State.init).1 with lastScanTime := i.now }).2 = [] ∧
    (attendanceScanning i (calls cap cs State.init).1).2.count Action.getImage ≤ 1 ∧
    (conversions (attendanceScanning i (calls cap cs State.init).1).2).length ≤ 1 ∧
    (∀ d ∈ detectionEvents (attendanceScanning i (calls cap cs State.init).1).2,
      d.reason ≠ some "confirm_failed") := by
  have hst := calls_stable cap cs State.init (le_refl 0)
  have hsh := count_getImage_le _ (attendanceScanning_call_shapes i _ hst)
  rw [count_getImage_sensorCalls, conversions_sensorCalls] at hsh
  exact ⟨hst, candidateUpdate_stable i _ hst,
    (stableReadStage_no_loop i { (calls cap cs State.init).1 with lastScanTime := i.now }
      hst).1,
    hsh.1, hsh.2.1, (attendanceScanning_calls i _ hst).2.1⟩

theorem count_search_sensorCalls (l : List Action) :
    (sensorCalls l).count Action.fingerFastSearch = l.count Action.fingerFastSearch := by
  induction l with
  | nil => rfl
  | cons x xs ih =>
    cases x <;> simp_all [sensorCalls, Action.isSensorOp, List.count_cons]

theorem tick_search_error_events (i : AttendInput) (s : State) (h : Searches i s)
    (h1 : searchResult i ≠ FINGERPRINT_OK) (h2 : searchResult i ≠ FINGERPRINT_NOTFOUND) :
    detectionEvents (attendanceScanning i s).2 =
      (if sub32 i.now s.lastHintMs > 1500 then
        [hintEvent i.now 0 ("sensor_search_error_" ++ toString (searchResult i))] else []) := by
  rw [tick_searches i s h]
  unfold attendanceOutcome
  dsimp only
  rw [if_neg h1, if_neg h2]
  have e := (publishHint_att i.now 1500 0 ("sensor_search_error_" ++ toString (searchResult i))
    { s with lastScanTime := i.now }).2.2.2.2.2
  have hpre : detectionEvents (if i.p3 ≠ FINGERPRINT_OK ∧ i.p3 ≠ FINGERPRINT_NOTFOUND then
      [Action.getImage, Action.image2Tz 1, Action.fingerFastSearch, Action.fingerFastSearch]
      else [Action.getImage, Action.image2Tz 1, Action.fingerFastSearch]) = [] :=
    searchCalls_silent i
  dsimp only
  rw [detectionEvents_append, hpre, e]
  simp [h.2.1]

/-- Claim C37.  In a tick that reaches the search, in a state reached by any sequence of
calls from boot, `fingerFastSearch` is called twice when the first call answers neither OK
nor NOTFOUND and once otherwise, and the outcome is decided by the result of the last call
(`searchResult`): OK runs the match branch, NOTFOUND publishes the unregistered event when
the rate limit allows and nothing otherwise, and any other code publishes at most the
search-error hint and resets candidate id and stable count. -/
theorem search_retried_once (cap : Nat) (cs : List Call) (i : AttendInput)
    (hs : Searches i (calls cap cs State.init).1) :
    (attendanceScanning i (calls cap cs State.init).1).2.count Action.fingerFastSearch =
      (if i.p3 ≠ FINGERPRINT_OK ∧ i.p3 ≠ FINGERPRINT_NOTFOUND then 2 else 1) ∧
    searchResult i =
      (if i.p3 ≠ FINGERPRINT_OK ∧ i.p3 ≠ FINGERPRINT_NOTFOUND then i.p3r else i.p3) ∧
    (searchResult i = FINGERPRINT_OK →
      attendanceScanning i (calls cap cs State.init).1 =
        attendanceMatch i { (calls cap cs State.init).1 with lastScanTime := i.now }
          (searchCalls i)) ∧
    (searchResult i = FINGERPRINT_NOTFOUND →
      detectionEvents (attendanceScanning i (calls cap cs State.init).1).2 =
        (if sub32 i.now (calls cap cs State.init).1.lastPublishMs ≥ MIN_PUBLISH_INTERVAL then
          [unregisteredEvent i.now] else [])) ∧
    (searchResult i ≠ FINGERPRINT_OK → searchResult i ≠ FINGERPRINT_NOTFOUND →
      detectionEvents (attendanceScanning i (calls cap cs State.init).1).2 =
        (if sub32 i.now (calls cap cs State.init).1.lastHintMs > 1500 then
          [hintEvent i.now 0 ("sensor_search_error_" ++ toString (searchResult i))]
         else []) ∧
      (attendanceScanning i (calls cap cs State.init).1).1.lastCandidateId = -1 ∧
      (attendanceScanning i (calls cap cs State.init).1).1.stableReads = 0) := by
  have hst := calls_stable cap cs State.init (le_refl 0)
  generalize (calls cap cs State.init).1 = s at hs hst ⊢
  refine ⟨?_, rfl, tick_match i s hs, ?_, ?_⟩
  · rw [← count_search_sensorCalls, (attendanceScanning_calls i s hst).1]
    obtain ⟨h1, h2, h3, h4⟩ := hs
    have hn : ¬ (i.p ≠ FINGERPRINT_OK ∨ s.requireFingerRemoval = true) := by
      simp [h2, h3]
    rw [if_neg h1, if_neg hn, if_neg (not_not.mpr h4)]
    unfold searchCalls
    split_ifs <;> decide
  · intro hnf
    rw [tick_notfound i s hs hnf]
    split_ifs
    · rw [detectionEvents_append, searchCalls_silent]
      rfl
    · exact searchCalls_silent i
  · intro h1 h2
    exact ⟨tick_search_error_events i s hs h1 h2, tick_search_error i s hs h1 h2⟩

/-- Instance of the C37 theorem: the first search fails, the retry finds a match. -/
theorem search_retried_once_witness :
    (attendanceScanning (AttendInput.retried 2000)
        (calls 200 [] State.init).1).2.count Action.fingerFastSearch =
      (if (AttendInput.retried 2000).p3 ≠ FINGERPRINT_OK ∧
          (AttendInput.retried 2000).p3 ≠ FINGERPRINT_NOTFOUND then 2 else 1) ∧
    searchResult (AttendInput.retried 2000) = FINGERPRINT_OK :=
  ⟨(search_retried_once 200 [] (AttendInput.retried 2000) ⟨by decide, rfl, rfl, rfl⟩).1,
   by decide⟩

/-! ## Scans, sensor calls and quality of the enrollment tick -/

theorem enrollScan1_scan (i : EnrollInput) (s : State) (h : s.enrollmentStep = 0) :
    ScanFacts 0 1 (enrollScan1 i s) := by
  unfold enrollScan1
  dsimp only
  split_ifs <;> constructor <;>
    simp_all [progressCount, enrollEvents, sensorCalls, pubEnroll, Action.isSensorOp]

theorem enrollScan2_scan (i : EnrollInput) (s : State) (h : s.enrollmentStep = 1) :
    ScanFacts 1 1 (enrollScan2 i s) := by
  unfold enrollScan2
  dsimp only
  split_ifs <;> constructor <;>
    simp_all [progressCount, enrollEvents, sensorCalls, pubEnroll, Action.isSensorOp]

theorem enrollScan3_scan (i : EnrollInput) (s : State) (h : s.enrollmentStep = 2) :
    ScanFacts 2 2 (enrollScan3 i s) := by
  unfold enrollScan3
  dsimp only
  split_ifs <;> constructor <;>
    simp_all [progressCount, enrollEvents, sensorCalls, pubEnroll, Action.isSensorOp]

theorem enrollConfirm_scan (i : EnrollInput) (s : State) (h : s.enrollmentStep = 3) :
    ScanFacts 3 0 (enrollConfirm i s) := by
  unfold enrollConfirm
  split_ifs <;> constructor <;>
    simp_all [progressCount, enrollEvents, sensorCalls, pubEnroll, Action.isSensorOp]

theorem scanFacts_length (k : Int) (buf : Nat) (r : State × List Action)
    (F : ScanFacts k buf r) : (sensorCalls r.2).length ≤ 3 := by
  rcases F.calls with h | h | h | h | ⟨id, h⟩ <;> rw [h] <;> simp

theorem enrollDispatch_scan (i : EnrollInput) (s : State) :
    ((enrollDispatch i s).1.enrollmentStep = s.enrollmentStep ∨
      (enrollDispatch i s).1.enrollmentStep = s.enrollmentStep + 1 ∨
      (enrollDispatch i s).1.enrollmentStep = 0) ∧
    progressCount (enrollDispatch i s).2 ≤ 1 ∧
    (sensorCalls (enrollDispatch i s).2).length ≤ 3 := by
  unfold enrollDispatch
  split_ifs with c0 c1 c2 c3
  · have F := enrollScan1_scan i s c0
    exact ⟨by rw [c0]; exact F.step, F.progress, scanFacts_length _ _ _ F⟩
  · have F := enrollScan2_scan i s c1
    exact ⟨by rw [c1]; exact F.step, F.progress, scanFacts_length _ _ _ F⟩
  · have F := enrollScan3_scan i s c2
    exact ⟨by rw [c2]; exact F.step, F.progress, scanFacts_length _ _ _ F⟩
  · have F := enrollConfirm_scan i s c3
    exact ⟨by rw [c3]; exact F.step, F.progress, scanFacts_length _ _ _ F⟩
  · exact ⟨Or.inl rfl, by simp [progressCount, enrollEvents], by simp [sensorCalls]⟩

/-- Claim C32.  For every state and input, one call of the enrollment tick leaves the step
counter where it was, advances it by one, or resets it to the initial step 0, and publishes
at most one `progress` event. -/
theorem tick_advances_at_most_one_scan (i : EnrollInput) (s : State) :
    ((enrollFingerprint i s).1.enrollmentStep = s.enrollmentStep ∨
      (enrollFingerprint i s).1.enrollmentStep = s.enrollmentStep + 1 ∨
      (enrollFingerprint i s).1.enrollmentStep = 0) ∧
    progressCount (enrollFingerprint i s).2 ≤ 1 := by
  obtain ⟨_, _, _, _, _, f6, _, _⟩ := fingerReleased_fields i { s with lastStep := i.now }
  obtain ⟨d1, d2, _⟩ := enrollDispatch_scan i (fingerReleased i { s with lastStep := i.now })
  rw [f6] at d1
  have hp : ∀ l : List Action, progressCount ([Action.getImage] ++ l) = progressCount l := by
    intro l
    simp [progressCount, enrollEvents]
  unfold enrollFingerprint
  dsimp only
  split_ifs
  · exact ⟨Or.inl rfl, by simp [progressCount, enrollEvents]⟩
  · exact ⟨Or.inr (Or.inr rfl), by simp [progressCount, enrollEvents]⟩
  · exact ⟨Or.inr (Or.inr rfl), by simp [progressCount, enrollEvents]⟩
  · exact ⟨Or.inl rfl, by simp [progressCount, enrollEvents]⟩
  · exact ⟨d1, by rw [hp]; exact d2⟩
  · exact ⟨d1, by simpa using d2⟩

theorem enrollFingerprint_call_bound (i : EnrollInput) (s : State) :
    (sensorCalls (enrollFingerprint i s).2).length ≤ 4 := by
  obtain ⟨_, _, d3⟩ := enrollDispatch_scan i (fingerReleased i { s with lastStep := i.now })
  unfold enrollFingerprint
  dsimp only
  split_ifs
  · simp [sensorCalls]
  · simp [sensorCalls]
  · simp [sensorCalls]
  · simp [sensorCalls, Action.isSensorOp]
  · rw [sensorCalls_append]
    simp only [List.length_append]
    have : (sensorCalls [Action.getImage]).length = 1 := by
      simp [sensorCalls, Action.isSensorOp]
    omega
  · rw [sensorCalls_append]
    simp only [List.length_append]
    have : (sensorCalls ([] : List Action)).length = 0 := by simp [sensorCalls]
    omega

/-- Claim C33, as stated, fails on the code: the tick that accepts scan 1 calls `getImage`
and then `image2Tz`, and an attendance tick with a finger on the sensor calls `getImage`,
`image2Tz` and `fingerFastSearch`. -/
theorem tick_makes_several_sensor_calls :
    sensorCalls (enrollFingerprint (EnrollInput.allOk 1300)
        (run 200 startedSession State.init).1).2 =
      [Action.getImage, Action.image2Tz 1] ∧
    sensorCalls (attendanceScanning (AttendInput.found 2000 150 80) State.init).2 =
      [Action.getImage, Action.image2Tz 1, Action.fingerFastSearch] := by
  decide

/-- Claim C33, amended.  Each tick performs a short, bounded sequence of sensor operations
rather than a single one: in every state reached by any sequence of calls from boot, one
call of the enrollment tick issues at most four of them and one call of the attendance tick
at most four. -/
theorem sensor_calls_bounded (cap : Nat) (cs : List Call) (i : EnrollInput)
    (j : AttendInput) :
    (sensorCalls (enrollFingerprint i (calls cap cs State.init).1).2).length ≤ 4 ∧
    (sensorCalls (attendanceScanning j (calls cap cs State.init).1).2).length ≤ 4 := by
  have hst := calls_stable cap cs State.init (le_refl 0)
  exact ⟨enrollFingerprint_call_bound i _,
    (count_getImage_le _ (attendanceScanning_call_shapes j _ hst)).2.2⟩

theorem imageQuality_spec (conv : Int) : imageQuality conv = specQuality conv := by
  unfold imageQuality specQuality
  split_ifs <;> simp_all

theorem enrollScan1_quality (i : EnrollInput) (s : State) :
    QualityIs (imageQuality i.conv) (enrollScan1 i s).2 := by
  unfold QualityIs enrollScan1 imageQuality
  dsimp only
  split_ifs <;> simp_all [enrollEvents, pubEnroll]

theorem enrollScan2_quality (i : EnrollInput) (s : State) :
    QualityIs (imageQuality i.conv) (enrollScan2 i s).2 := by
  unfold QualityIs enrollScan2 imageQuality
  dsimp only
  split_ifs <;> simp_all [enrollEvents, pubEnroll]

theorem enrollScan3_quality (i : EnrollInput) (s : State) :
    QualityIs (imageQuality i.conv) (enrollScan3 i s).2 := by
  unfold QualityIs enrollScan3 imageQuality
  dsimp only
  split_ifs <;> simp_all [enrollEvents, pubEnroll]

theorem enrollConfirm_quality (i : EnrollInput) (s : State) (q : Nat) :
    QualityIs q (enrollConfirm i s).2 := by
  unfold QualityIs enrollConfirm
  split_ifs <;> simp_all [enrollEvents, pubEnroll]

theorem enrollFingerprint_quality (i : EnrollInput) (s : State) :
    QualityIs (imageQuality i.conv) (enrollFingerprint i s).2 := by
  have hd : QualityIs (imageQuality i.conv)
      (enrollDispatch i (fingerReleased i { s with lastStep := i.now })).2 := by
    unfold enrollDispatch
    split_ifs
    · exact enrollScan1_quality i _
    · exact enrollScan2_quality i _
    · exact enrollScan3_quality i _
    · exact enrollConfirm_quality i _ _
    · intro e he
      simp [enrollEvents] at he
  unfold enrollFingerprint
  dsimp only
  split_ifs
  · intro e he; simp [enrollEvents] at he
  · intro e he; simp [enrollEvents] at he
  · intro e he; simp [enrollEvents] at he
  · intro e he; simp [enrollEvents] at he
  · intro e he
    rw [enrollEvents_append] at he
    simp only [enrollEvents, List.nil_append] at he
    exact hd e he
  · intro e he
    rw [enrollEvents_append] at he
    simp only [enrollEvents, List.nil_append] at he
    exact hd e he

/-- Claim C34.  In every call of the enrollment tick, at any step, every quality score
reported in an event is the score that the claim prescribes for the conversion result of
that call (`specQuality`: 95, 60, 45 or 0); when the tick evaluates a capture, the scan is
rejected with `capture_failed` carrying that score exactly when the score is below 50; and
the score is never the initial default 80. -/
theorem quality_score_refines_conversion (i : EnrollInput) (s : State) :
    (∀ e ∈ enrollEvents (enrollFingerprint i s).2, ∀ q, e.quality = some q →
      q = specQuality i.conv) ∧
    (∀ b, Action.image2Tz b ∈ (enrollFingerprint i s).2 →
      (specQuality i.conv < 50 ↔
        (enrollEvents (enrollFingerprint i s).2).map Response.status = ["capture_failed"]) ∧
      (specQuality i.conv < 50 →
        (enrollEvents (enrollFingerprint i s).2).map Response.quality =
          [some (specQuality i.conv)])) ∧
    specQuality i.conv ≠ 80 := by
  refine ⟨?_, ?_, ?_⟩
  · have h := enrollFingerprint_quality i s
    rw [imageQuality_spec] at h
    exact h
  · intro b himg
    obtain ⟨t, r, g1, g2, g3, g4, g5, g6, hbr⟩ := image_tick_branch i s b himg
    rw [g4, ← imageQuality_spec]
    rcases hbr with ⟨hs, hr⟩ | ⟨hs, hr⟩ | ⟨hs, hr⟩
    · subst hr
      refine ⟨⟨fun hq => by rw [(enrollScan1_reject i t b g3 hq).1]; rfl, ?_⟩,
        fun hq => by rw [(enrollScan1_reject i t b g3 hq).1]; rfl⟩
      intro hst
      by_contra hq
      have hp := (enrollScan1_pass i t b g3 hq).1
      cases hev : enrollEvents (enrollScan1 i t).2 with
      | nil => rw [hev] at hst; simp at hst
      | cons e rest =>
        rw [hev] at hst hp
        simp [Response.summary] at hst hp
        rw [hst.1] at hp
        simp at hp
    · subst hr
      refine ⟨⟨fun hq => by rw [(enrollScan2_reject i t b g3 hq).1]; rfl, ?_⟩,
        fun hq => by rw [(enrollScan2_reject i t b g3 hq).1]; rfl⟩
      intro hst
      by_contra hq
      have hp := (enrollScan2_pass i t b g3 hq).1
      cases hev : enrollEvents (enrollScan2 i t).2 with
      | nil => rw [hev] at hst; simp at hst
      | cons e rest =>
        rw [hev] at hst hp
        simp [Response.summary] at hst hp
        rw [hst.1] at hp
        simp at hp
    · subst hr
      refine ⟨⟨fun hq => by rw [(enrollScan3_reject i t b g3 hq).1]; rfl, ?_⟩,
        fun hq => by rw [(enrollScan3_reject i t b g3 hq).1]; rfl⟩
      intro hst
      by_contra hq
      have hp := (enrollScan3_pass i t b g3 hq).1
      cases hev : enrollEvents (enrollScan3 i t).2 with
      | nil => rw [hev] at hst; simp at hst
      | cons e rest =>
        rw [hev] at hst hp
        simp [Response.summary] at hst hp
        rw [hst.1] at hp
        simp at hp
  · unfold specQuality
    split_ifs <;> decide

/-! ## Buffers and model creation -/

theorem skeleton_append (a b : List Action) : skeleton (a ++ b) = skeleton a ++ skeleton b := by
  induction a with
  | nil => rfl
  | cons x xs ih =>
    cases x with
    | publish t p r => cases t <;> cases p <;> simp [skeleton, ih]
    | _ => simp [skeleton, ih]

theorem enrollScan1_skeleton (i : EnrollInput) (s : State) :
    NoScanMark (enrollScan1 i s).2 ∨
    skeleton (enrollScan1 i s).2 = [Mark.conv 1, Mark.event "capture_failed" (some 1)] ∨
    (skeleton (enrollScan1 i s).2 = [Mark.conv 1, Mark.event "progress" (some 1)] ∧
      (enrollScan1 i s).1.enrollmentStep = 1) := by
  unfold NoScanMark enrollScan1
  dsimp only
  split_ifs <;> simp [skeleton, pubEnroll, Mark.isScan]

theorem enrollScan2_skeleton (i : EnrollInput) (s : State) :
    NoScanMark (enrollScan2 i s).2 ∨
    skeleton (enrollScan2 i s).2 = [Mark.conv 1, Mark.event "capture_failed" (some 2)] ∨
    (skeleton (enrollScan2 i s).2 = [Mark.conv 1, Mark.event "progress" (some 2)] ∧
      (enrollScan2 i s).1.enrollmentStep = 2) := by
  unfold NoScanMark enrollScan2
  dsimp only
  split_ifs <;> simp [skeleton, pubEnroll, Mark.isScan]

theorem enrollScan3_skeleton (i : EnrollInput) (s : State) :
    NoScanMark (enrollScan3 i s).2 ∨
    skeleton (enrollScan3 i s).2 = [Mark.conv 2, Mark.event "capture_failed" (some 3)] ∨
    (skeleton (enrollScan3 i s).2 =
        [Mark.conv 2, Mark.event "progress" (some 3), Mark.create,
         Mark.event "ready_for_confirmation" (some 3)] ∧
      i.modelP = FINGERPRINT_OK ∧ (enrollScan3 i s).1.enrollmentStep = 3) ∨
    (skeleton (enrollScan3 i s).2 =
        [Mark.conv 2, Mark.event "progress" (some 3), Mark.create,
         Mark.event "error" none] ∧
      i.modelP ≠ FINGERPRINT_OK ∧ (enrollScan3 i s).1.enrollmentInProgress = false) := by
  unfold NoScanMark enrollScan3
  dsimp only
  split_ifs <;> simp_all [skeleton, pubEnroll, Mark.isScan]

theorem enrollConfirm_skeleton (i : EnrollInput) (s : State) :
    NoScanMark (enrollConfirm i s).2 := by
  unfold NoScanMark enrollConfirm
  split_ifs <;> simp [skeleton, pubEnroll, Mark.isScan]

theorem enrollDispatch_shape (i : EnrollInput) (s : State) :
    TickShape s.enrollmentStep i (enrollDispatch i s) := by
  unfold enrollDispatch TickShape
  split_ifs with c0 c1 c2 c3
  · rcases enrollScan1_skeleton i s with h | h | h
    · exact Or.inl h
    · exact Or.inr ⟨1, Or.inl rfl, by rw [c0]; rfl, Or.inl h⟩
    · exact Or.inr ⟨1, Or.inl rfl, by rw [c0]; rfl, Or.inr (Or.inl ⟨by decide, h.1, h.2⟩)⟩
  · rcases enrollScan2_skeleton i s with h | h | h
    · exact Or.inl h
    · exact Or.inr ⟨2, Or.inr (Or.inl rfl), by rw [c1]; rfl, Or.inl h⟩
    · exact Or.inr ⟨2, Or.inr (Or.inl rfl), by rw [c1]; rfl,
        Or.inr (Or.inl ⟨by decide, h.1, h.2⟩)⟩
  · rcases enrollScan3_skeleton i s with h | h | h | h
    · exact Or.inl h
    · exact Or.inr ⟨3, Or.inr (Or.inr rfl), by rw [c2]; rfl, Or.inl h⟩
    · exact Or.inr ⟨3, Or.inr (Or.inr rfl), by rw [c2]; rfl,
        Or.inr (Or.inr (Or.inl ⟨rfl, h⟩))⟩
    · exact Or.inr ⟨3, Or.inr (Or.inr rfl), by rw [c2]; rfl,
        Or.inr (Or.inr (Or.inr ⟨rfl, h⟩))⟩
  · exact Or.inl (enrollConfirm_skeleton i s)
  · exact Or.inl (by simp [NoScanMark, skeleton])

theorem enrollFingerprint_shape (i : EnrollInput) (s : State) :
    TickShape s.enrollmentStep i (enrollFingerprint i s) := by
  obtain ⟨_, _, _, _, _, f6, _, _⟩ := fingerReleased_fields i { s with lastStep := i.now }
  have d := enrollDispatch_shape i (fingerReleased i { s with lastStep := i.now })
  rw [f6] at d
  have hnil : NoScanMark ([] : List Action) := by simp [NoScanMark, skeleton]
  unfold enrollFingerprint
  dsimp only
  split_ifs
  · exact Or.inl hnil
  · exact Or.inl hnil
  · exact Or.inl hnil
  · exact Or.inl (by simp [NoScanMark, skeleton])
  · unfold TickShape NoScanMark at d ⊢
    simpa [skeleton_append, skeleton] using d
  · unfold TickShape NoScanMark at d ⊢
    simpa [skeleton_append, skeleton] using d

theorem createBudget_le_one (s : State) : createBudget s ≤ 1 := by
  unfold createBudget
  split_ifs <;> simp

theorem createBudget_idle (s : State) (h : s.enrollmentInProgress = false) :
    createBudget s = 0 := by
  unfold createBudget
  simp [h]

theorem createBudget_cancelled (s : State) (h : s.enrollmentCancelled = true) :
    createBudget s = 0 := by
  unfold createBudget
  simp [h]

theorem createBudget_step3 (s : State) (h : s.enrollmentStep = 3) : createBudget s = 0 := by
  unfold createBudget
  simp [h]

theorem createBudget_congr (s t : State) (h1 : t.enrollmentInProgress = s.enrollmentInProgress)
    (h2 : t.enrollmentCancelled = s.enrollmentCancelled)
    (h3 : t.enrollmentStep = s.enrollmentStep) : createBudget t = createBudget s := by
  unfold createBudget
  rw [h1, h2, h3]

theorem createCalls_count (l : List Action) :
    createCalls l = (skeleton l).count Mark.create := by
  induction l with
  | nil => rfl
  | cons x xs ih =>
    cases x with
    | publish t p r => cases t <;> cases p <;> simp [createCalls, skeleton, ih]
    | _ => simp [createCalls, skeleton, ih]

theorem createCalls_noScan (l : List Action) (h : NoScanMark l) : createCalls l = 0 := by
  rw [createCalls_count, List.count_eq_zero]
  intro hm
  have := List.all_eq_true.mp h _ hm
  simp [Mark.isScan] at this

theorem enrollScan1_create (i : EnrollInput) (s : State) :
    createCalls (enrollScan1 i s).2 = 0 := by
  rcases enrollScan1_skeleton i s with h | h | h
  · exact createCalls_noScan _ h
  · rw [createCalls_count, h]; decide
  · rw [createCalls_count, h.1]; decide

theorem enrollScan2_create (i : EnrollInput) (s : State) :
    createCalls (enrollScan2 i s).2 = 0 := by
  rcases enrollScan2_skeleton i s with h | h | h
  · exact createCalls_noScan _ h
  · rw [createCalls_count, h]; decide
  · rw [createCalls_count, h.1]; decide

theorem enrollScan3_create (i : EnrollInput) (s : State) :
    createCalls (enrollScan3 i s).2 + createBudget (enrollScan3 i s).1 ≤ 1 := by
  rcases enrollScan3_skeleton i s with h | h | h | h
  · rw [createCalls_noScan _ h]
    simpa using createBudget_le_one _
  · have e : createCalls (enrollScan3 i s).2 = 0 := by rw [createCalls_count, h]; decide
    rw [e]
    simpa using createBudget_le_one _
  · have e : createCalls (enrollScan3 i s).2 = 1 := by rw [createCalls_count, h.1]; decide
    rw [e, createBudget_step3 _ h.2.2]
  · have e : createCalls (enrollScan3 i s).2 = 1 := by rw [createCalls_count, h.1]; decide
    rw [e, createBudget_idle _ h.2.2]

theorem enrollConfirm_create (i : EnrollInput) (s : State) (h3 : s.enrollmentStep = 3) :
    createCalls (enrollConfirm i s).2 = 0 ∧ createBudget (enrollConfirm i s).1 = 0 := by
  refine ⟨createCalls_noScan _ (enrollConfirm_skeleton i s), ?_⟩
  unfold enrollConfirm
  split_ifs
  · exact createBudget_idle _ rfl
  · exact createBudget_idle _ rfl
  · exact createBudget_idle _ rfl
  · exact createBudget_step3 _ h3

theorem enrollDispatch_create (i : EnrollInput) (s : State)
    (hin : s.enrollmentInProgress = true) (hnc : s.enrollmentCancelled = false) :
    createCalls (enrollDispatch i s).2 + createBudget (enrollDispatch i s).1 ≤
      createBudget s := by
  unfold enrollDispatch
  split_ifs with c0 c1 c2 c3
  · have e : createBudget s = 1 := by simp [createBudget, hin, hnc, c0]
    rw [e, enrollScan1_create]
    simpa using createBudget_le_one _
  · have e : createBudget s = 1 := by simp [createBudget, hin, hnc, c1]
    rw [e, enrollScan2_create]
    simpa using createBudget_le_one _
  · have e : createBudget s = 1 := by simp [createBudget, hin, hnc, c2]
    rw [e]
    exact enrollScan3_create i s
  · obtain ⟨e1, e2⟩ := enrollConfirm_create i s c3
    rw [e1, e2]
    exact Nat.zero_le _
  · simp [createCalls]

/-- One call of the enrollment tick uses up the budget for each `createModel` it makes and
never raises it. -/
theorem enrollFingerprint_create (i : EnrollInput) (s : State) :
    createCalls (enrollFingerprint i s).2 + createBudget (enrollFingerprint i s).1 ≤
      createBudget s := by
  unfold enrollFingerprint
  dsimp only
  by_cases h0 : sub32 i.now s.lastStep < 200
  · rw [if_pos h0]; simp [createCalls]
  rw [if_neg h0]
  by_cases h1 : s.enrollmentInProgress = true
  swap
  · simp only [Bool.not_eq_true] at h1
    simp only [h1, Bool.not_false, if_true]
    simp [createCalls, createBudget, h1]
  by_cases h2 : s.enrollmentCancelled = true
  · simp [h1, h2, createCalls, createBudget]
  have c1 : ¬ ((!s.enrollmentInProgress) = true) := by simp [h1]
  rw [if_neg c1, if_neg h2]
  by_cases h3 : s.requireFingerRelease = true ∧ i.rp ≠ FINGERPRINT_NOFINGER
  · rw [if_pos h3]
    simp [createCalls, createBudget]
  rw [if_neg h3]
  obtain ⟨_, _, f3, f4, _, f6, _, _⟩ := fingerReleased_fields i { s with lastStep := i.now }
  have hin : (fingerReleased i { s with lastStep := i.now }).enrollmentInProgress = true := by
    rw [f3]; exact h1
  have hnc : (fingerReleased i { s with lastStep := i.now }).enrollmentCancelled = false := by
    rw [f4]; simpa using h2
  have d := enrollDispatch_create i _ hin hnc
  rw [createBudget_congr { s with lastStep := i.now } _ f3 f4 f6] at d
  have e : createBudget { s with lastStep := i.now } = createBudget s := rfl
  rw [e] at d
  dsimp only
  rw [createCalls_append]
  have z : createCalls (if s.requireFingerRelease = true then [Action.getImage] else []) = 0 := by
    split_ifs <;> simp [createCalls]
  rw [z]
  omega

theorem startedCount_append (a b : List Action) :
    startedCount (a ++ b) = startedCount a + startedCount b := by
  simp [startedCount, List.countP_append]

theorem handleEnrollmentRequest_create (cap : Nat) (doc : Doc) (s : State) :
    createCalls (handleEnrollmentRequest cap doc s).2 = 0 ∧
    createBudget (handleEnrollmentRequest cap doc s).1 ≤
      startedCount (handleEnrollmentRequest cap doc s).2 + createBudget s := by
  unfold handleEnrollmentRequest
  dsimp only
  split_ifs
  · exact ⟨by simp [createCalls, pubEnroll], Nat.le_add_left _ _⟩
  · exact ⟨by simp [createCalls, pubEnroll], Nat.le_add_left _ _⟩
  · refine ⟨by simp [createCalls, pubEnroll], ?_⟩
    have e : startedCount [Action.publish Topic.enroll_request Payload.empty true,
        pubEnroll { status := "started", slot := some (doc.slot.getD 0),
                    template_id := some (doc.template_id.getD "") },
        Action.clientLoop] = 1 := by
      simp [startedCount, pubEnroll, isStarted]
    rw [e]
    exact le_trans (createBudget_le_one _) (Nat.le_add_right _ _)
  · exact ⟨by simp [createCalls], by
      rw [createBudget_congr s { s with enrollmentConfirmed := true } rfl rfl rfl]
      exact Nat.le_add_left _ _⟩
  · exact ⟨by simp [createCalls, pubEnroll], by
      rw [createBudget_idle _ rfl]
      exact Nat.zero_le _⟩
  · exact ⟨by simp [createCalls], Nat.le_add_left _ _⟩

theorem callback_create (cap now : Nat) (wifiOk : Bool) (m : Inbound) (s : State) :
    createCalls (callback cap now wifiOk m s).2 = 0 ∧
    createBudget (callback cap now wifiOk m s).1 ≤
      startedCount (callback cap now wifiOk m s).2 + createBudget s := by
  obtain ⟨topic, payload⟩ := m
  unfold callback
  cases payload with
  | empty => exact ⟨rfl, Nat.le_add_left _ _⟩
  | malformed => exact ⟨rfl, Nat.le_add_left _ _⟩
  | json doc =>
    dsimp only
    split_ifs
    · exact handleEnrollmentRequest_create cap doc s
    · unfold handleEnrollmentResponse
      dsimp only
      split_ifs
      · exact ⟨rfl, by rw [createBudget_idle _ rfl]; exact Nat.zero_le _⟩
      · exact ⟨rfl, Nat.le_add_left _ _⟩
    · unfold handleEnrollmentCompletion
      dsimp only
      split_ifs
      · exact ⟨rfl, by rw [createBudget_idle _ rfl]; exact Nat.zero_le _⟩
      · exact ⟨rfl, Nat.le_add_left _ _⟩
    · have hv := (handleDetectionRequest_frame now doc s).1
      refine ⟨by simp [handleDetectionRequest, publishStatus, createCalls], ?_⟩
      rw [createBudget_congr s _ (congrArg EnrollView.enrollmentInProgress hv)
        (congrArg EnrollView.enrollmentCancelled hv) (congrArg EnrollView.enrollmentStep hv)]
      exact Nat.le_add_left _ _
    · by_cases hr : doc.command.getD "" = "restart"
      · have e : handleCommand wifiOk doc s = (State.init, [Action.restart]) := by
          unfold handleCommand
          dsimp only
          rw [if_pos hr]
        rw [e]
        exact ⟨rfl, by rw [createBudget_idle _ rfl]; exact Nat.zero_le _⟩
      · have e := (handleCommand_frame wifiOk doc s hr).1
        refine ⟨?_, by rw [e]; exact Nat.le_add_left _ _⟩
        unfold handleCommand
        dsimp only
        split_ifs <;> simp [createCalls, createCalls_append]
    · exact ⟨rfl, Nat.le_add_left _ _⟩

theorem createCalls_sensorCalls (l : List Action) :
    createCalls (sensorCalls l) = createCalls l := by
  induction l with
  | nil => rfl
  | cons x xs ih =>
    cases x <;> simp_all [sensorCalls, createCalls, Action.isSensorOp]

theorem attendanceScanning_create (i : AttendInput) (s : State) (hst : 0 ≤ s.stableReads) :
    createCalls (attendanceScanning i s).2 = 0 := by
  rw [← createCalls_sensorCalls]
  rcases attendanceScanning_call_shapes i s hst with h | h | h | h | h <;> rw [h] <;> rfl

theorem startedCount_quiet (a : List Action) (h : a.all Action.quiet = true) :
    startedCount a = 0 := by
  induction a with
  | nil => rfl
  | cons x xs ih =>
    simp only [List.all_cons, Bool.and_eq_true] at h
    have hx : isStarted x = false := by
      cases x with
      | publish t p r => cases t <;> cases p <;> simp_all [isStarted, Action.quiet]
      | _ => rfl
    have := ih h.2
    simp_all [startedCount]

/-- Every call uses up the budget for the `createModel` calls it makes, and only a
`started` event raises the budget. -/
theorem call_create (cap : Nat) (c : Call) (s : State) (hst : 0 ≤ s.stableReads) :
    createCalls (c.run cap s).2 + createBudget (c.run cap s).1 ≤
      startedCount (c.run cap s).2 + createBudget s := by
  cases c with
  | tick i =>
    exact le_trans (enrollFingerprint_create i s) (Nat.le_add_left _ _)
  | attend i =>
    show createCalls (attendanceScanning i s).2 + createBudget (attendanceScanning i s).1 ≤
      startedCount (attendanceScanning i s).2 + createBudget s
    have hv := (attendanceScanning_frame i s).1
    rw [attendanceScanning_create i s hst,
      createBudget_congr s _ (congrArg EnrollView.enrollmentInProgress hv)
        (congrArg EnrollView.enrollmentCancelled hv) (congrArg EnrollView.enrollmentStep hv)]
    omega
  | message now wifiOk m =>
    show createCalls (callback cap now wifiOk m s).2 +
        createBudget (callback cap now wifiOk m s).1 ≤
      startedCount (callback cap now wifiOk m s).2 + createBudget s
    obtain ⟨h1, h2⟩ := callback_create cap now wifiOk m s
    rw [h1]
    omega

theorem calls_create (cap : Nat) (cs : List Call) (s : State) (hst : 0 ≤ s.stableReads) :
    createCalls (calls cap cs s).2 + createBudget (calls cap cs s).1 ≤
      startedCount (calls cap cs s).2 + createBudget s := by
  induction cs generalizing s with
  | nil => simp [calls, createCalls, startedCount]
  | cons c rest ih =>
    have h1 := call_create cap c s hst
    have hst1 : 0 ≤ (c.run cap s).1.stableReads := by
      have := calls_stable cap [c] s hst
      simpa [calls] using this
    have h2 := ih (c.run cap s).1 hst1
    simp only [calls, createCalls_append, startedCount_append]
    omega

/-- Buffers and model creation in one call of the enrollment tick.  For every state and
input, a call either makes no conversion, no `createModel` call and no scan event, or it is
at scan `k` in {1, 2, 3} (step counter `k - 1`) and converts the capture once, into buffer 1
for scans 1 and 2 and into buffer 2 for scan 3, before the `capture_failed` or `progress`
event of that scan; an accepted scan 3 is followed at once by the only `createModel` call
of the tick, which comes before `ready_for_confirmation` (or the error that ends the
session).  Between two accepted starts `createModel` is called at most once, in any
sequence of calls from any reachable state, and from boot there are never more
`createModel` calls than `started` events. -/
theorem scans_fill_buffers_1_1_2 (cap : Nat) (cs ds : List Call) (i : EnrollInput)
    (s : State) :
    (NoScanMark (enrollFingerprint i s).2 ∨
      ∃ k : Nat, (k = 1 ∨ k = 2 ∨ k = 3) ∧ s.enrollmentStep = (k : Int) - 1 ∧
        (skeleton (enrollFingerprint i s).2 =
            [Mark.conv (specBuffer k), Mark.event "capture_failed" (some k)] ∨
         (k ≠ 3 ∧ skeleton (enrollFingerprint i s).2 =
             [Mark.conv (specBuffer k), Mark.event "progress" (some k)] ∧
           (enrollFingerprint i s).1.enrollmentStep = k) ∨
         (k = 3 ∧ skeleton (enrollFingerprint i s).2 =
             [Mark.conv (specBuffer k), Mark.event "progress" (some k), Mark.create,
              Mark.event "ready_for_confirmation" (some 3)] ∧
           i.modelP = FINGERPRINT_OK ∧ (enrollFingerprint i s).1.enrollmentStep = 3) ∨
         (k = 3 ∧ skeleton (enrollFingerprint i s).2 =
             [Mark.conv (specBuffer k), Mark.event "progress" (some k), Mark.create,
              Mark.event "error" none] ∧
           i.modelP ≠ FINGERPRINT_OK ∧
           (enrollFingerprint i s).1.enrollmentInProgress = false))) ∧
    (startedCount (calls cap ds (calls cap cs State.init).1).2 = 0 →
      createCalls (calls cap ds (calls cap cs State.init).1).2 ≤ 1) ∧
    createCalls (calls cap cs State.init).2 ≤ startedCount (calls cap cs State.init).2 ∧
    (skeleton (run 200 (scansToConfirmation 1000 12 "T1") State.init).2).filter Mark.isScan =
      [Mark.conv 1, Mark.event "progress" (some 1), Mark.conv 1,
       Mark.event "progress" (some 2), Mark.conv 2, Mark.event "progress" (some 3),
       Mark.create, Mark.event "ready_for_confirmation" (some 3)] ∧
    specBuffer 1 = 1 ∧ specBuffer 2 = 1 ∧ specBuffer 3 = 2 := by
  have h0 : (0 : Int) ≤ State.init.stableReads := by decide
  have hst := calls_stable cap cs State.init h0
  refine ⟨enrollFingerprint_shape i s, ?_, ?_, by decide, rfl, rfl, rfl⟩
  · intro hz
    have h := calls_create cap ds _ hst
    have hb := createBudget_le_one (calls cap cs State.init).1
    omega
  · have h := calls_create cap cs State.init h0
    have hb : createBudget State.init = 0 := createBudget_idle _ rfl
    omega

/-! ## Saved messages, retained requests and the HTTP variant -/

/-- Claim C35.  For every state, every document and every template id put into it, the
completion topic and the response topic both handle the message as follows, through
`callback` and in the handler itself: with status `enrollment_saved` the three session
flags become false, the slot 0 and the template id empty, whatever template id the message
names; with any other status the state is unchanged; nothing is published; the step counter
of the enrollment tick and `modelCreated` are never changed. -/
theorem saved_message_resets_flags_only (cap now : Nat) (wifiOk : Bool) (doc : Doc)
    (tid : Option String) (s : State) :
    callback cap now wifiOk (Inbound.mk Topic.enroll_completion (InPayload.json { doc with template_id := tid })) s =
      (if doc.status = some "enrollment_saved" then s.saved else s, []) ∧
    handleEnrollmentCompletion { doc with template_id := tid } s =
      (if doc.status = some "enrollment_saved" then s.saved else s, []) ∧
    handleEnrollmentResponse { doc with template_id := tid } s =
      (if doc.status = some "enrollment_saved" then s.saved else s, []) ∧
    s.saved.enrollmentInProgress = false ∧ s.saved.enrollmentCancelled = false ∧
    s.saved.enrollmentConfirmed = false ∧ s.saved.enrollID = 0 ∧
    s.saved.enrollmentTemplateID = "" ∧
    s.saved.enrollmentStep = s.enrollmentStep ∧ s.saved.modelCreated = s.modelCreated ∧
    (callback cap now wifiOk (Inbound.mk Topic.enroll_completion (InPayload.json { doc with template_id := tid })) s).1.enrollmentStep =
      s.enrollmentStep ∧
    (callback cap now wifiOk (Inbound.mk Topic.enroll_completion (InPayload.json { doc with template_id := tid })) s).1.modelCreated =
      s.modelCreated ∧
    (run 200 (scansToConfirmation 1000 12 "T1") State.init).1.enrollmentTemplateID = "T1" ∧
    (handleEnrollmentCompletion savedForOther
        (run 200 (scansToConfirmation 1000 12 "T1") State.init).1).1 =
      (run 200 (scansToConfirmation 1000 12 "T1") State.init).1.saved := by
  have hc : handleEnrollmentCompletion { doc with template_id := tid } s =
      (if doc.status = some "enrollment_saved" then s.saved else s, []) := by
    unfold handleEnrollmentCompletion State.saved
    dsimp only
    rcases hs : doc.status with _ | st
    · simp
    · by_cases h : st = "enrollment_saved" <;> simp [h]
  have hr : handleEnrollmentResponse { doc with template_id := tid } s =
      (if doc.status = some "enrollment_saved" then s.saved else s, []) := by
    unfold handleEnrollmentResponse State.saved
    dsimp only
    rcases hs : doc.status with _ | st
    · simp
    · by_cases h : st = "enrollment_saved" <;> simp [h]
  have hcb : callback cap now wifiOk (Inbound.mk Topic.enroll_completion (InPayload.json { doc with template_id := tid })) s =
      handleEnrollmentCompletion { doc with template_id := tid } s := by
    simp [callback]
  refine ⟨hcb.trans hc, hc, hr, rfl, rfl, rfl, rfl, rfl, rfl, rfl, ?_, ?_, by decide,
    by decide⟩
  · rw [hcb, hc]
    split_ifs <;> rfl
  · rw [hcb, hc]
    split_ifs <;> rfl

/-- Claim C38.  For every state and every enrollment request whose action is `start` (or
absent, which defaults to `start`), the first action of the handler is the publish of an
empty retained payload on the enrollment request topic; exactly one enrollment event
follows it (`blocked`, the invalid-slot `error`, or `started`) and no further publish on
the request topic; the same holds when the request is delivered through `callback`; and
`callback` drops an empty payload on that topic without any action or state change, so the
cleared message starts nothing when it is delivered back. -/
theorem start_clears_retained_request (cap now : Nat) (wifiOk : Bool) (doc : Doc) (s t : State)
    (h : doc.action.getD "start" = "start") :
    ∃ (e : Response) (rest : List Action),
      (handleEnrollmentRequest cap doc s).2 =
        Action.publish Topic.enroll_request Payload.empty true :: pubEnroll e :: rest ∧
      (e.status = "blocked" ∨ e.status = "error" ∨ e.status = "started") ∧
      (rest = [] ∨ rest = [Action.clientLoop]) ∧
      enrollEvents (handleEnrollmentRequest cap doc s).2 = [e] ∧
      callback cap now wifiOk (Inbound.mk Topic.enroll_request (InPayload.json doc))
        s = handleEnrollmentRequest cap doc s ∧
      callback cap now wifiOk (Inbound.mk Topic.enroll_request InPayload.empty) t =
        (t, []) := by
  have hcb : callback cap now wifiOk
      (Inbound.mk Topic.enroll_request (InPayload.json doc)) s =
      handleEnrollmentRequest cap doc s := by
    simp [callback]
  unfold handleEnrollmentRequest
  dsimp only
  rw [if_pos h]
  split_ifs
  · exact ⟨_, _, rfl, Or.inl rfl, Or.inr rfl, by simp [enrollEvents, pubEnroll], by
      rw [hcb]; unfold handleEnrollmentRequest; dsimp only; rw [if_pos h]; simp [*], rfl⟩
  · exact ⟨_, _, rfl, Or.inr (Or.inl rfl), Or.inl rfl, by simp [enrollEvents, pubEnroll], by
      rw [hcb]; unfold handleEnrollmentRequest; dsimp only; rw [if_pos h]; simp [*], rfl⟩
  · exact ⟨_, _, rfl, Or.inr (Or.inr rfl), Or.inr rfl, by simp [enrollEvents, pubEnroll], by
      rw [hcb]; unfold handleEnrollmentRequest; dsimp only; rw [if_pos h]; simp [*], rfl⟩

theorem start_clears_retained_request_witness :
    ({ slot := some 0, template_id := some "T9" } : Doc).action.getD "start" = "start" ∧
    ∃ (e : Response) (rest : List Action),
      (handleEnrollmentRequest 200 { slot := some 0, template_id := some "T9" }
          State.init).2 =
        Action.publish Topic.enroll_request Payload.empty true :: pubEnroll e :: rest ∧
      (e.status = "blocked" ∨ e.status = "error" ∨ e.status = "started") ∧
      (rest = [] ∨ rest = [Action.clientLoop]) ∧
      enrollEvents (handleEnrollmentRequest 200 { slot := some 0, template_id := some "T9" }
          State.init).2 = [e] ∧
      callback 200 1000 true (Inbound.mk Topic.enroll_request (InPayload.json { slot := some 0, template_id := some "T9" }))
        State.init =
        handleEnrollmentRequest 200 { slot := some 0, template_id := some "T9" } State.init ∧
      callback 200 1000 true (Inbound.mk Topic.enroll_request InPayload.empty)
        State.init = (State.init, []) :=
  ⟨rfl, start_clears_retained_request 200 1000 true { slot := some 0, template_id := some "T9" }
    State.init State.init rfl⟩

/-- Claim C39.  In the HTTP variant, for every well-formed body, every clock reading and
every state (a session in progress or not, any slot value in the body), `handleEnroll`
answers 200 with success and leaves the state with `enrollID` the requested slot (0 when the
key is absent), the requested template id, `enrollmentInProgress` true, scan step 1 and both
timers at the current clock reading; the previous slot, template id and step survive in no
field.  In particular a session in progress for slot 5 at scan 2 is replaced by a request
for slot 0 or slot 100000; after the request for slot 0 two good scans store the model at
id 0, and after the request for slot 100000 they store it at 34464, the value the sensor
library receives for that slot. -/
theorem http_enroll_never_rejects (d : Doc) (now : Nat) (s : HttpState) :
    (handleEnroll (HttpBody.json d) now s).2 =
      [HttpAction.send 200 true "Enrollment started - waiting for 5 scans"] ∧
    (handleEnroll (HttpBody.json d) now s).1 =
      { enrollID := d.slot.getD 0, enrollmentTemplateID := d.template_id.getD "",
        enrollmentInProgress := true, currentScanStep := 1, enrollmentStartTime := now,
        fingerDetectionStartTime := now } ∧
    (httpSessionAtScan2.enrollmentInProgress = true ∧ httpSessionAtScan2.enrollID = 5 ∧
      httpSessionAtScan2.currentScanStep = 2) ∧
    (handleEnroll (HttpBody.json { slot := some 100000, template_id := some "B" }) 3000
        httpSessionAtScan2).1 =
      { enrollID := 100000, enrollmentTemplateID := "B", enrollmentInProgress := true,
        currentScanStep := 1, enrollmentStartTime := 3000,
        fingerDetectionStartTime := 3000 } ∧
    (handleEnroll (HttpBody.json { slot := some 0, template_id := some "B" }) 3000
        httpSessionAtScan2).1 =
      { enrollID := 0, enrollmentTemplateID := "B", enrollmentInProgress := true,
        currentScanStep := 1, enrollmentStartTime := 3000,
        fingerDetectionStartTime := 3000 } ∧
    HttpAction.storeModel 0 ∈
      (processEnrollmentStep (StepInput.good 5000)
        (processEnrollmentStep (StepInput.good 4000)
          (handleEnroll (HttpBody.json { slot := some 0, template_id := some "B" }) 3000
            httpSessionAtScan2).1).1).2 ∧
    HttpAction.storeModel 34464 ∈
      (processEnrollmentStep (StepInput.good 5000)
        (processEnrollmentStep (StepInput.good 4000)
          (handleEnroll (HttpBody.json { slot := some 100000, template_id := some "B" }) 3000
            httpSessionAtScan2).1).1).2 := by
  refine ⟨rfl, rfl, by decide, by decide, by decide, by decide, by decide⟩

/-! ## Early confirm and sessions that begin at a later scan -/

/-- Claim C9, evaluated on the code.  `confirm` arrives right after `start(12, "T1")`,
before any scan.  After the next loop iterations the only enrollment event is `started`:
no `error` is published and the session is not reset, it is still in progress at the first
scan with no model, and the confirm flag is set.  The three scans are then made with no
further message, and the latched flag makes the tick call `storeModel(12)` and publish
`success`: a store does result from that confirm, and no event of the execution is an
`error`.  The guard that is meant to answer a confirm without a model (the "model not
ready" error of the step-3 branch) publishes nothing in any sequence of calls from boot. -/
theorem early_confirm_stores_without_error (cap : Nat) (cs : List Call) :
    (enrollEvents (run 200 confirmBeforeScans State.init).2).map Response.status =
      ["started"] ∧
    (run 200 confirmBeforeScans State.init).1.enrollmentInProgress = true ∧
    (run 200 confirmBeforeScans State.init).1.enrollmentStep = 0 ∧
    (run 200 confirmBeforeScans State.init).1.modelCreated = false ∧
    (run 200 confirmBeforeScans State.init).1.enrollmentConfirmed = true ∧
    scansAfterConfirmBeforeScans.map LoopInput.inbound =
      [none, none, none, none, none, none] ∧
    (enrollEvents
        (run 200 (confirmBeforeScans ++ scansAfterConfirmBeforeScans) State.init).2).map
        Response.summary =
      [("started", none, some 12, some "T1"), ("progress", some 1, some 12, some "T1"),
       ("progress", some 2, some 12, some "T1"), ("progress", some 3, some 12, some "T1"),
       ("ready_for_confirmation", some 3, some 12, some "T1"),
       ("success", none, some 12, some "T1")] ∧
    storeCalls (run 200 (confirmBeforeScans ++ scansAfterConfirmBeforeScans) State.init).2 =
      [12] ∧
    (∀ e ∈ enrollEvents (calls cap cs State.init).2,
      e.message ≠ some "Enrollment model not ready - please restart enrollment") := by
  have h0 : ReadyInv State.init [] := by
    refine ⟨?_, ?_⟩
    · intro h3
      simp [State.init] at h3
    · intro e he
      simp [enrollEvents] at he
  have h := calls_preserve cap cs State.init [] h0
  rw [List.nil_append] at h
  exact ⟨by decide, by decide, by decide, by decide, by decide, by decide, by decide,
    by decide, h.2⟩

/-- Claim C36, evaluated on the code.  In the session of `scansToConfirmation`, which
begins at scan 1, the scan marks are conversion into buffer 1, progress 1, conversion into
1, progress 2, conversion into 2, progress 3, `createModel`, `ready_for_confirmation`.  But
the session for slot 7 that is started after a session was cancelled at
AwaitingConfirmation makes no conversion and no `createModel` call at all, and still calls
`storeModel(7)` and publishes `success`; and the session for slot 7 started after a
session was cancelled at scan 2 converts only twice, into buffers 1 and 2, its first
accepted scan being reported as scan 2. -/
theorem stale_session_skips_conversions :
    scanMarks (run 200 (scansToConfirmation 1000 12 "T1") State.init).2 =
      [Mark.conv 1, Mark.event "progress" (some 1), Mark.conv 1,
       Mark.event "progress" (some 2), Mark.conv 2, Mark.event "progress" (some 3),
       Mark.create, Mark.event "ready_for_confirmation" (some 3)] ∧
    scanMarks (sinceLastStart [] (run 200 staleModelScenario State.init).2) = [] ∧
    conversions (sinceLastStart [] (run 200 staleModelScenario State.init).2) = [] ∧
    createCalls (sinceLastStart [] (run 200 staleModelScenario State.init).2) = 0 ∧
    storeCalls (sinceLastStart [] (run 200 staleModelScenario State.init).2) = [7] ∧
    (enrollEvents (sinceLastStart [] (run 200 staleModelScenario State.init).2)).map
        Response.summary = [("success", none, some 7, some "B")] ∧
    scanMarks (sinceLastStart [] (run 200 restartAfterScan1 State.init).2) =
      [Mark.conv 1, Mark.event "progress" (some 2), Mark.conv 2,
       Mark.event "progress" (some 3), Mark.create,
       Mark.event "ready_for_confirmation" (some 3)] ∧
    conversions (sinceLastStart [] (run 200 restartAfterScan1 State.init).2) = [1, 2] := by
  decide

end Biometric
